import Mathlib

/-!
# xen-usbback: buffer mapper and device claimer

A shallow embedding of `drivers/usb/xen-usbback/buffers.c`,
`drivers/usb/xen-usbback/vusb.c` and `drivers/usb/core/dusb.c`.

C `int` variables are integers (`Int`); the places where the source mixes
signedness are written with explicit reductions modulo a power of two.
Memory is explicit: guest pages and the transfer buffer are lists of bytes,
and every `memcpy` the code performs is recorded as a `Memcpy` and then
executed on that memory.
-/

namespace UsbBack

/-! ## Machine integers -/

/-- Conversion of a C integer to `unsigned long` (64 bits). -/
def toULong (x : Int) : Int := x % 2 ^ 64

/-- Conversion of a C integer to `int` (32 bits, two's complement). -/
def toInt32 (x : Int) : Int := (x + 2 ^ 31) % 2 ^ 32 - 2 ^ 31

/-- Largest value of a C `int`. -/
def INT_MAX : Int := 2147483647

/-- The C `x++` on an `int` variable: the kernel is built with wrapping signed
arithmetic (`-fno-strict-overflow`), so `INT_MAX` is followed by `INT_MIN`. -/
def int_inc (x : Int) : Int := toInt32 (x + 1)

/-- Modelled from the spec: the `PAGE_SIZE` macro of `asm/page.h`, which is
not part of the source tree at hand.  The spec's bulk-OUT scenario takes
pages whose bytes are numbered 0..4095.  In the kernel the macro has type
`unsigned long`. -/
def PAGE_SIZE : Int := 4096

def EINVAL : Int := 22
def ENODEV : Int := 19
def ENOENT : Int := 2
def EPIPE : Int := 32

/-- The C loop `for (i = first; i < first + count; i++) s = body i s`. -/
def for_loop {σ : Type} (body : Nat → σ → σ) : Nat → Nat → σ → σ
  | 0, _, s => s
  | count + 1, i, s => for_loop body count (i + 1) (body i s)

/-! ## Data model of the host USB stack -/

/-- The values of `enum usb_device_state` (`linux/usb/ch9.h`). -/
inductive usb_device_state where
  | USB_STATE_NOTATTACHED
  | USB_STATE_ATTACHED
  | USB_STATE_POWERED
  | USB_STATE_RECONNECTING
  | USB_STATE_UNAUTHENTICATED
  | USB_STATE_DEFAULT
  | USB_STATE_ADDRESS
  | USB_STATE_CONFIGURED
  | USB_STATE_SUSPENDED
  deriving DecidableEq, Repr

/-- The values of `enum usb_device_speed` (`linux/usb/ch9.h`). -/
inductive usb_device_speed where
  | USB_SPEED_UNKNOWN
  | USB_SPEED_LOW
  | USB_SPEED_FULL
  | USB_SPEED_HIGH
  | USB_SPEED_WIRELESS
  | USB_SPEED_SUPER
  deriving DecidableEq, Repr

/-- The fields of `ep->desc` the driver reads. -/
structure usb_endpoint_descriptor where
  bmAttributes : Nat
  bInterval : Nat
  deriving DecidableEq, Repr

structure usb_host_endpoint where
  desc : usb_endpoint_descriptor
  deriving DecidableEq, Repr

/-- The fields of `config->desc` the driver reads. -/
structure usb_config_descriptor where
  bConfigurationValue : Nat
  bNumInterfaces : Nat
  deriving DecidableEq, Repr

/-- The driver an interface is bound to (`intf->dev.driver`): none, this
driver (`vusb_driver`), or some other host driver. -/
inductive intf_driver where
  | unbound
  | vusb_driver
  | other_driver
  deriving DecidableEq, Repr

/-- The fields of `struct usb_interface` the driver touches: the owner slot
read by `usb_get_intfdata` and written by `usb_set_intfdata` (a `vusb`
pointer, 0 for NULL), `needs_binding`, and the driver bound to the
interface. -/
structure usb_interface where
  intfdata : Nat
  needs_binding : Int
  driver : intf_driver := intf_driver.unbound
  deriving DecidableEq, Repr

/-- The fields of `struct usb_host_config` the driver reads: the descriptor
and the `interface` array, whose NULL entries are `none`. -/
structure usb_host_config where
  desc : usb_config_descriptor
  interface : List (Option usb_interface) := []
  deriving DecidableEq, Repr

/-- The host controller of a bus: whether its root hub is running
(`HCD_RH_RUNNING`) and the flags of its driver. -/
structure usb_hcd where
  rh_running : Bool
  driver_flags : Nat
  deriving DecidableEq, Repr

/-- The fields of `struct usb_device` the driver reads.  `actconfig` is a
pointer into the `config` array: `some i` stands for `&dev->config[i]`,
`none` for NULL.  `hcd` is `bus_to_hcd(udev->bus)`, `sg_tablesize` is
`udev->bus->sg_tablesize`. -/
structure usb_device where
  busnum : Int
  devnum : Int
  portnum : Int
  state : usb_device_state
  speed : usb_device_speed
  bNumConfigurations : Nat
  config : List usb_host_config
  actconfig : Option Nat
  ep_in : List (Option usb_host_endpoint)
  ep_out : List (Option usb_host_endpoint)
  hcd : Option usb_hcd
  sg_tablesize : Int := 0
  deriving DecidableEq, Repr

/-- The four pipe types of `linux/usb.h`. -/
inductive pipe_type where
  | PIPE_ISOCHRONOUS
  | PIPE_INTERRUPT
  | PIPE_CONTROL
  | PIPE_BULK
  deriving DecidableEq, Repr

/-- Modelled from the spec: the value of the pipe macros of `linux/usb.h`
(`usb_sndctrlpipe`, `usb_rcvbulkpipe`, ...), which are not part of the source
tree at hand: a pipe names the transfer type, the direction, the device and
the endpoint number. -/
structure Pipe where
  type : pipe_type
  dir_in : Bool
  devnum : Int
  endpoint : Int
  deriving DecidableEq, Repr

def usb_sndctrlpipe (dev : usb_device) (endpoint : Int) : Pipe :=
  { type := pipe_type.PIPE_CONTROL, dir_in := false, devnum := dev.devnum, endpoint := endpoint }

def usb_rcvctrlpipe (dev : usb_device) (endpoint : Int) : Pipe :=
  { type := pipe_type.PIPE_CONTROL, dir_in := true, devnum := dev.devnum, endpoint := endpoint }

def usb_sndisocpipe (dev : usb_device) (endpoint : Int) : Pipe :=
  { type := pipe_type.PIPE_ISOCHRONOUS, dir_in := false, devnum := dev.devnum, endpoint := endpoint }

def usb_rcvisocpipe (dev : usb_device) (endpoint : Int) : Pipe :=
  { type := pipe_type.PIPE_ISOCHRONOUS, dir_in := true, devnum := dev.devnum, endpoint := endpoint }

def usb_sndbulkpipe (dev : usb_device) (endpoint : Int) : Pipe :=
  { type := pipe_type.PIPE_BULK, dir_in := false, devnum := dev.devnum, endpoint := endpoint }

def usb_rcvbulkpipe (dev : usb_device) (endpoint : Int) : Pipe :=
  { type := pipe_type.PIPE_BULK, dir_in := true, devnum := dev.devnum, endpoint := endpoint }

def usb_sndintpipe (dev : usb_device) (endpoint : Int) : Pipe :=
  { type := pipe_type.PIPE_INTERRUPT, dir_in := false, devnum := dev.devnum, endpoint := endpoint }

def usb_rcvintpipe (dev : usb_device) (endpoint : Int) : Pipe :=
  { type := pipe_type.PIPE_INTERRUPT, dir_in := true, devnum := dev.devnum, endpoint := endpoint }

/-! ## Data model of `buffers.c` -/

/-- One entry of the descriptor page of an isochronous request
(`usbif_iso_packet_info_t`). -/
structure usbif_iso_packet_info where
  offset : Int
  length : Int
  status : Int
  deriving DecidableEq, Repr

/-- One entry of `urb->iso_frame_desc`. -/
structure usb_iso_packet_descriptor where
  offset : Int
  length : Int
  actual_length : Int
  status : Int
  deriving DecidableEq, Repr

/-- One scatterlist entry, as filled by `sg_set_buf(sg, page + offset, len)`. -/
structure scatterlist where
  page : Nat
  offset : Int
  length : Int
  deriving DecidableEq, Repr

/-- The fields of `struct urb` the driver uses.  `sg` is `none` for a NULL
scatterlist pointer, `dev` and `pipe` are `none` until they are assigned,
`setup_packet` holds the 8 bytes of the setup packet. -/
structure urb where
  transfer_buffer : List Nat
  transfer_buffer_length : Int
  actual_length : Int
  sg : Option (List scatterlist)
  num_sgs : Int
  iso_frame_desc : List usb_iso_packet_descriptor
  number_of_packets : Int
  dev : Option usb_device
  pipe : Option Pipe
  transfer_flags : Nat
  interval : Int
  start_frame : Int
  setup_packet : List Nat
  deriving DecidableEq, Repr

inductive usbif_type where
  | USBIF_T_CNTRL
  | USBIF_T_ISOC
  | USBIF_T_BULK
  | USBIF_T_INT
  deriving DecidableEq, Repr

/-- A pending request.  `pages` are the mapped guest pages
(`vaddr(pending_req, i)` is `pages[i]`); `info` is page 0 seen through the
cast to `usbif_iso_packet_info_t *`. -/
structure pending_req where
  type : usbif_type
  direction_in : Bool
  offset : Int
  nr_packets : Nat
  pages : List (List Nat)
  info : List usbif_iso_packet_info
  urb : urb
  deriving DecidableEq, Repr

/-- Modelled from the spec: the `data_pages` macro of `common.h` (not in the
source tree at hand): the number of granted guest-page mappings of the
request. -/
def data_pages (req : pending_req) : Nat := req.pages.length

/-! ## Memory operations -/

/-- An address inside the memory the copy routines touch: byte `pos` of the
transfer buffer, or byte `off` of guest page `i`. -/
inductive Addr where
  | buf (pos : Int)
  | page (i : Nat) (off : Int)
  deriving DecidableEq, Repr

/-- One call `memcpy(dst, src, len)`. -/
structure Memcpy where
  dst : Addr
  src : Addr
  len : Int
  deriving DecidableEq, Repr

/-- The memory the copy routines work on. -/
structure Mem where
  buf : List Nat
  pages : List (List Nat)
  deriving DecidableEq, Repr

/-- Bytes `pos .. pos + len - 1` of a region. -/
def readBytes (region : List Nat) (pos len : Int) : List Nat :=
  (region.drop pos.toNat).take len.toNat

/-- Overwrite a region from byte `pos` on with `bytes`. -/
def writeBytes (region : List Nat) (pos : Int) (bytes : List Nat) : List Nat :=
  region.take pos.toNat ++ bytes ++ region.drop (pos.toNat + bytes.length)

def Mem.read (m : Mem) (a : Addr) (len : Int) : List Nat :=
  match a with
  | Addr.buf pos => readBytes m.buf pos len
  | Addr.page i off => readBytes (m.pages.getD i []) off len

def Mem.write (m : Mem) (a : Addr) (bytes : List Nat) : Mem :=
  match a with
  | Addr.buf pos => { m with buf := writeBytes m.buf pos bytes }
  | Addr.page i off =>
      { m with pages := m.pages.set i (writeBytes (m.pages.getD i []) off bytes) }

/-- Execute one `memcpy`. -/
def Mem.memcpy (m : Mem) (c : Memcpy) : Mem :=
  m.write c.dst (m.read c.src c.len)

/-- Execute a sequence of `memcpy` calls in order. -/
def Mem.run (m : Mem) (cs : List Memcpy) : Mem :=
  cs.foldl Mem.memcpy m

/-- Total number of bytes moved by a sequence of `memcpy` calls. -/
def copied (cs : List Memcpy) : Int := (cs.map (fun c => c.len)).sum

/-! ## `buffers.c` -/

/-- Function `copy_first_chunk`: the length it copies and returns.  The comparison is
made in `unsigned long` because `PAGE_SIZE` is. -/
def copy_first_chunk (offset remaining : Int) : Int :=
  if toULong (PAGE_SIZE - offset) > toULong remaining then remaining
  else toInt32 (toULong (PAGE_SIZE - offset))

/-- Function `copy_chunk`. -/
def copy_chunk (remaining : Int) : Int := copy_first_chunk 0 remaining

/-- Loop state of the copy routines: `pos` is the moving pointer into the
transfer buffer (`dst` on the way out, `src` on the way in) relative to
`urb->transfer_buffer`. -/
structure CopyState where
  pos : Int
  remaining : Int
  ops : List Memcpy
  deriving DecidableEq, Repr

/-- Body of the "copy remaining segs" loop of `copy_out_req` / `copy_out_iso`. -/
def copy_out_seg (i : Nat) (s : CopyState) : CopyState :=
  let len := copy_chunk s.remaining
  { pos := s.pos + len, remaining := s.remaining - len,
    ops := s.ops ++ [⟨Addr.buf s.pos, Addr.page i 0, len⟩] }

/-- Body of the "copy remaining segs" loop of `copy_in_req` / `copy_in_iso`. -/
def copy_in_seg (i : Nat) (s : CopyState) : CopyState :=
  let len := copy_chunk s.remaining
  { pos := s.pos + len, remaining := s.remaining - len,
    ops := s.ops ++ [⟨Addr.page i 0, Addr.buf s.pos, len⟩] }

/-- Function `copy_out_req`: the `memcpy` calls it makes. -/
def copy_out_req (req : pending_req) : List Memcpy :=
  let remaining := req.urb.transfer_buffer_length
  let nr_pages := data_pages req
  if nr_pages = 0 then []
  else
    let len := copy_first_chunk req.offset remaining
    let s : CopyState :=
      { pos := len, remaining := remaining - len,
        ops := [⟨Addr.buf 0, Addr.page 0 req.offset, len⟩] }
    (for_loop copy_out_seg (nr_pages - 1) 1 s).ops

/-- Function `copy_out_iso`: the `memcpy` calls it makes (payload starts at page 1). -/
def copy_out_iso (req : pending_req) : List Memcpy :=
  let remaining := req.urb.transfer_buffer_length
  let nr_pages := data_pages req
  if nr_pages < 2 then []
  else
    let len := copy_first_chunk req.offset remaining
    let s : CopyState :=
      { pos := len, remaining := remaining - len,
        ops := [⟨Addr.buf 0, Addr.page 1 req.offset, len⟩] }
    (for_loop copy_out_seg (nr_pages - 2) 2 s).ops

/-- Function `copy_in_req`: the `memcpy` calls it makes. -/
def copy_in_req (req : pending_req) : List Memcpy :=
  let remaining := req.urb.actual_length
  let nr_pages := data_pages req
  if nr_pages = 0 then []
  else
    let len := copy_first_chunk req.offset remaining
    let s : CopyState :=
      { pos := len, remaining := remaining - len,
        ops := [⟨Addr.page 0 req.offset, Addr.buf 0, len⟩] }
    (for_loop copy_in_seg (nr_pages - 1) 1 s).ops

/-- Function `copy_in_iso`: the `memcpy` calls it makes. -/
def copy_in_iso (req : pending_req) (remaining : Int) : List Memcpy :=
  let nr_pages := data_pages req
  if data_pages req < 2 then []
  else
    let len := copy_first_chunk req.offset remaining
    let s : CopyState :=
      { pos := len, remaining := remaining - len,
        ops := [⟨Addr.page 1 req.offset, Addr.buf 0, len⟩] }
    (for_loop copy_in_seg (nr_pages - 2) 2 s).ops

/-- Function `setup_sg`: the length of the segment; the scatterlist entry `idx` is set
to `len` bytes of guest page `page` from byte `offset` on. -/
def setup_sg (sgs : List scatterlist) (idx page : Nat) (offset remaining : Int) :
    Int × List scatterlist :=
  let len :=
    if toULong (PAGE_SIZE - offset) > toULong remaining then remaining
    else toInt32 (toULong (PAGE_SIZE - offset))
  (len, sgs.set idx { page := page, offset := offset, length := len })

/-- The call `sg_init_table(sg, nents)`: the first `nents` entries are zeroed. -/
def sg_init_table (sgs : List scatterlist) (nents : Int) : List scatterlist :=
  (sgs.take nents.toNat).map (fun _ => { page := 0, offset := 0, length := 0 })
    ++ sgs.drop nents.toNat

/-- Loop state of `setup_sgs`. -/
structure SgState where
  remaining : Int
  sgs : List scatterlist
  deriving DecidableEq, Repr

/-- Function `setup_sgs`.  `sgs` is the array `urb->sg` points to. -/
def setup_sgs (req : pending_req) (sgs : List scatterlist) (iso : Bool) : pending_req :=
  let remaining := req.urb.transfer_buffer_length
  let num_sgs : Int := if iso then (data_pages req : Int) - 1 else (data_pages req : Int)
  let sgs0 := sg_init_table sgs num_sgs
  let first := setup_sg sgs0 0 (if iso then 1 else 0) req.offset remaining
  let s0 : SgState := { remaining := remaining - first.1, sgs := first.2 }
  let s := for_loop
    (fun i s =>
      let r := setup_sg s.sgs i (if iso then i + 1 else i) 0 s.remaining
      { remaining := s.remaining - r.1, sgs := r.2 })
    (num_sgs.toNat - 1) 1 s0
  { req with urb := { req.urb with num_sgs := num_sgs, sg := some s.sgs } }

/-- Loop state of the descriptor loops: the running maximum `length` and the
array being written. -/
structure DescState (α : Type) where
  length : Int
  arr : List α

/-- Body of the loop of `copy_out_iso_descriptors` for packet `i`.  `end` is
an `int`; reading past the descriptors the page holds yields zeroes here. -/
def copy_out_iso_descriptor (req : pending_req) (i : Nat)
    (s : DescState usb_iso_packet_descriptor) : DescState usb_iso_packet_descriptor :=
  let info := req.info.getD i { offset := 0, length := 0, status := 0 }
  let e := toInt32 (info.offset + info.length)
  { length := if e > s.length then e else s.length,
    arr := s.arr.set i
      { offset := info.offset, length := info.length, actual_length := 0, status := 0 } }

/-- Function `copy_out_iso_descriptors`: the returned `length` and the new
`urb->iso_frame_desc`. -/
def copy_out_iso_descriptors (req : pending_req) :
    Int × List usb_iso_packet_descriptor :=
  if data_pages req = 0 then (0, req.urb.iso_frame_desc)
  else
    let s := for_loop (copy_out_iso_descriptor req) req.nr_packets 0
      { length := 0, arr := req.urb.iso_frame_desc }
    (s.length, s.arr)

/-- Body of the loop of `copy_in_iso_descriptors` for packet `i`.
`get_usb_status` is defined outside the files at hand. -/
def copy_in_iso_descriptor (get_usb_status : Int → Int) (req : pending_req) (i : Nat)
    (s : DescState usbif_iso_packet_info) : DescState usbif_iso_packet_info :=
  let desc := req.urb.iso_frame_desc.getD i
    { offset := 0, length := 0, actual_length := 0, status := 0 }
  let e := toInt32 (desc.offset + desc.actual_length)
  { length := if e > s.length then e else s.length,
    arr :=
      if req.direction_in then
        s.arr.set i
          { (s.arr.getD i { offset := 0, length := 0, status := 0 }) with
            length := desc.actual_length, status := get_usb_status desc.status }
      else s.arr }

/-- Function `copy_in_iso_descriptors`: the returned `length` and the new descriptor
page. -/
def copy_in_iso_descriptors (get_usb_status : Int → Int) (req : pending_req) :
    Int × List usbif_iso_packet_info :=
  if data_pages req = 0 then (0, req.info)
  else
    let s := for_loop (copy_in_iso_descriptor get_usb_status req) req.nr_packets 0
      { length := 0, arr := req.info }
    (s.length, s.arr)

/-- The request after the given `memcpy` calls have been executed on its
transfer buffer and guest pages. -/
def exec_copies (req : pending_req) (ops : List Memcpy) : pending_req :=
  let m := Mem.run { buf := req.urb.transfer_buffer, pages := req.pages } ops
  { req with pages := m.pages, urb := { req.urb with transfer_buffer := m.buf } }

/-- What a copy entry point did: its return value, the request afterwards and
the `memcpy` calls it made. -/
structure CopyResult where
  ret : Int
  req : pending_req
  ops : List Memcpy
  deriving DecidableEq, Repr

/-- Function `copy_out`.  The returned `length` of the descriptors is never
negative, so its comparison with `transfer_buffer_length` has the same
outcome whether that field is signed or unsigned. -/
def copy_out (req : pending_req) : CopyResult :=
  if req.type = usbif_type.USBIF_T_ISOC then
    let d := copy_out_iso_descriptors req
    let req1 := { req with urb := { req.urb with iso_frame_desc := d.2 } }
    if d.1 > req.urb.transfer_buffer_length then
      { ret := -EINVAL, req := req1, ops := [] }
    else
      match req.urb.sg with
      | some sgs => { ret := 0, req := setup_sgs req1 sgs true, ops := [] }
      | none =>
        if !req.direction_in then
          { ret := 0, req := exec_copies req1 (copy_out_iso req1), ops := copy_out_iso req1 }
        else { ret := 0, req := req1, ops := [] }
  else
    match req.urb.sg with
    | some sgs => { ret := 0, req := setup_sgs req sgs false, ops := [] }
    | none =>
      if !req.direction_in then
        { ret := 0, req := exec_copies req (copy_out_req req), ops := copy_out_req req }
      else { ret := 0, req := req, ops := [] }

/-- Function `copy_in` (it returns nothing: `ret` is 0). -/
def copy_in (get_usb_status : Int → Int) (req : pending_req) : CopyResult :=
  if req.type = usbif_type.USBIF_T_ISOC then
    let d := copy_in_iso_descriptors get_usb_status req
    let req1 := { req with info := d.2 }
    match req.urb.sg with
    | some _ => { ret := 0, req := req1, ops := [] }
    | none =>
      if req.direction_in then
        { ret := 0, req := exec_copies req1 (copy_in_iso req1 d.1), ops := copy_in_iso req1 d.1 }
      else { ret := 0, req := req1, ops := [] }
  else
    match req.urb.sg with
    | some _ => { ret := 0, req := req, ops := [] }
    | none =>
      if req.direction_in then
        { ret := 0, req := exec_copies req (copy_in_req req), ops := copy_in_req req }
      else { ret := 0, req := req, ops := [] }

/-! ## Data model of `vusb.c` -/

/-- The C `struct vusb_map`.  The `vusb` pointer is a number, 0 for NULL. -/
structure vusb_map where
  bus : Int
  device : Int
  vusb : Nat
  deriving DecidableEq, Repr

def VUSB_MAX_DEVICES : Nat := 512

/-- The static table `vusb_map[VUSB_MAX_DEVICES]`, zero-initialised. -/
def vusb_map_init : List vusb_map :=
  List.replicate VUSB_MAX_DEVICES { bus := 0, device := 0, vusb := 0 }

/-- The per-connection statistics `usbif_stats_t`; the counters are C `int`s
(the sysfs files print them with `%d`). -/
structure usbif_stats where
  st_oo_req : Int
  st_in_req : Int
  st_out_req : Int
  st_error : Int
  st_reset : Int
  st_in_bandwidth : Int
  st_out_bandwidth : Int
  st_cntrl_req : Int
  st_isoc_req : Int
  st_bulk_req : Int
  st_int_req : Int
  deriving DecidableEq, Repr

/-- The C `struct vusb`, the owned device.  `usbdev` is `none` for NULL, `anchor`
lists the transfers anchored to the device, `kref` is the reference count. -/
structure vusb where
  handle : Int
  bus : Int
  device : Int
  active : Int
  initted : Int
  kref : Int
  anchor : List Nat
  usbdev : Option usb_device
  max_sgs : Int
  hcd_speed : Int
  copy_unaligned : Int
  autosuspend : Int
  canceling_requests : Int
  deriving DecidableEq, Repr

/-- The connection (`usbif_t`): the statistics and the embedded `vusb`, which
`vusb.c` reaches through `usbif_from_vusb`, and the fields `interface.c` and
`xenbus.c` work on: the guest id, the reference count `refcnt`, the bound
`irq` (0 when none), the ring pointers `usb_rings.common.sring` and
`usb_ring_addr` (0 for NULL), the ring protocol, and the worker task
`xenusbd` (0 for NULL). -/
structure usbif where
  stats : usbif_stats
  vusb : vusb
  domid : Int := 0
  refcnt : Int := 1
  irq : Int := 0
  sring : Nat := 0
  usb_ring_addr : Nat := 0
  usb_protocol : Nat := 0
  xenusbd : Nat := 0
  deriving DecidableEq, Repr

/-- The fields of a ring request that `vusb.c` reads.  The accessor macros
`usbif_request_dir_in`, `usbif_request_endpoint_num`, `usbif_request_asap`
and `usbif_request_shortok` belong to a header outside the files at hand;
the request carries what they return.  `setup` holds the 8 setup bytes in
memory order, the bytes `memcpy` moves into `urb->setup_packet`. -/
structure usbif_request where
  setup : List Nat
  startframe : Int
  dir_in : Bool
  endpoint_num : Nat
  asap : Bool
  shortok : Bool
  deriving DecidableEq, Repr

/-- The values of `enum xenbus_state`. -/
inductive xenbus_state where
  | XenbusStateUnknown
  | XenbusStateInitialising
  | XenbusStateInitWait
  | XenbusStateInitialised
  | XenbusStateConnected
  | XenbusStateClosing
  | XenbusStateClosed
  | XenbusStateReconfiguring
  | XenbusStateReconfigured
  deriving DecidableEq, Repr

/-- A call the driver makes into the kernel around it: the host USB stack,
the xenbus and event-channel layer, kernel threads, the reference counter of
the connection and the slab cache. -/
inductive HostCall where
  | set_configuration (configuration : Int)
  | set_interface (ifnum alt : Int)
  | clear_halt (pipe : Pipe)
  | kill_urb (id : Nat)
  | claim_interface (confnum ifnum : Nat)
  | release_interface (confnum ifnum : Nat)
  | dusb_close
  | kthread_run (task : Nat)
  | kthread_stop (task : Nat)
  | ref_dec
  | wait_zero
  | ref_inc
  | map_ring (addr : Nat)
  | unmap_ring (addr : Nat)
  | bind_evtchn (irq : Int)
  | unbind_from_irqhandler (irq : Int)
  | switch_state (state : xenbus_state)
  | dev_fatal (err : Int)
  | dev_error (err : Int)
  | sysfs_addif
  | sysfs_delif
  | device_unregister
  | cycle_port
  | kmem_cache_free
  deriving DecidableEq, Repr

/-- The host USB stack as the driver sees it: the status each call returns
and the device state it leaves.  It is not part of the driver. -/
structure Host where
  usb_set_configuration : usb_device → Int → Int × usb_device
  usb_set_interface : usb_device → Int → Int → Int × usb_device
  usb_clear_halt : usb_device → Pipe → Int × usb_device

/-- The state `vusb.c` works on: the connection with its owned device, and the
host calls made so far, oldest first. -/
structure World where
  usbif : usbif
  calls : List HostCall
  deriving DecidableEq, Repr

/-! ### Constants of `linux/usb/ch9.h` and `linux/usb.h` -/

def USB_DIR_IN : Nat := 0x80
def USB_RECIP_MASK : Nat := 0x1f
def USB_RECIP_DEVICE : Nat := 0x00
def USB_RECIP_INTERFACE : Nat := 0x01
def USB_RECIP_ENDPOINT : Nat := 0x02
def USB_REQ_GET_STATUS : Nat := 0x00
def USB_REQ_CLEAR_FEATURE : Nat := 0x01
def USB_REQ_GET_DESCRIPTOR : Nat := 0x06
def USB_REQ_SET_CONFIGURATION : Nat := 0x09
def USB_REQ_SET_INTERFACE : Nat := 0x0B
def USB_ENDPOINT_HALT : Nat := 0
def USB_ENDPOINT_XFERTYPE_MASK : Nat := 0x03
def USB_ENDPOINT_XFER_CONTROL : Nat := 0
def USB_ENDPOINT_XFER_ISOC : Nat := 1
def USB_ENDPOINT_XFER_BULK : Nat := 2
def USB_ENDPOINT_XFER_INT : Nat := 3
def URB_SHORT_NOT_OK : Nat := 0x0001
def URB_ISO_ASAP : Nat := 0x0002

/-! ## `vusb.c`: the device map -/

/-- The trailing loop of `vusb_map_device` ("flush any remaining duplicate
pairs"), over the slots that follow the one taken. -/
def flush_dups (bus device : Int) : List vusb_map → List vusb_map
  | [] => []
  | m :: rest =>
    (if m.bus = bus ∧ m.device = device then { bus := 0, device := 0, vusb := 0 } else m)
      :: flush_dups bus device rest

/-- Function `vusb_map_device`: the return value and the table afterwards.  The first
free or matching slot is taken and the slots after it are flushed; when no
slot qualifies the table is left alone and the result is -1. -/
def vusb_map_device (vusb : Nat) (bus device : Int) : List vusb_map → Int × List vusb_map
  | [] => (-1, [])
  | m :: rest =>
    if m.vusb = 0 ∨ (m.bus = bus ∧ m.device = device) then
      (0, { bus := bus, device := device, vusb := vusb } :: flush_dups bus device rest)
    else
      let r := vusb_map_device vusb bus device rest
      (r.1, m :: r.2)

/-- Function `vusb_unmap_device`: the first slot that holds `vusb` is cleared. -/
def vusb_unmap_device (vusb : Nat) : List vusb_map → Int × List vusb_map
  | [] => (-1, [])
  | m :: rest =>
    if m.vusb = vusb then (0, { bus := 0, device := 0, vusb := 0 } :: rest)
    else
      let r := vusb_unmap_device vusb rest
      (r.1, m :: r.2)

/-- Function `vusb_find_device`: the `vusb` of the first live slot for the pair, 0
(NULL) when there is none. -/
def vusb_find_device (bus device : Int) : List vusb_map → Nat
  | [] => 0
  | m :: rest =>
    if m.vusb ≠ 0 ∧ m.bus = bus ∧ m.device = device then m.vusb
    else vusb_find_device bus device rest

/-- A call that changes the device map. -/
inductive MapOp where
  | map (vusb : Nat) (bus device : Int)
  | unmap (vusb : Nat)
  deriving DecidableEq, Repr

def MapOp.apply (t : List vusb_map) : MapOp → List vusb_map
  | MapOp.map v b d => (vusb_map_device v b d t).2
  | MapOp.unmap v => (vusb_unmap_device v t).2

/-- The table after a sequence of map and unmap calls. -/
def run_map_ops (ops : List MapOp) (t : List vusb_map) : List vusb_map :=
  ops.foldl MapOp.apply t

/-- Number of slots that hold a non-NULL record for the pair. -/
def live_entries (bus device : Int) (t : List vusb_map) : Nat :=
  t.countP (fun m => decide (m.vusb ≠ 0 ∧ m.bus = bus ∧ m.device = device))

/-! ## `vusb.c`: flush -/

/-- Modelled from the spec: `usb_kill_anchored_urbs` of the host USB stack
(`drivers/usb/core/urb.c`, not in the source tree at hand).  Every transfer
of the anchor set is killed, which completes it and takes it off the anchor;
the anchor set is empty afterwards. -/
def usb_kill_anchored_urbs (w : World) : World :=
  { usbif := { w.usbif with vusb := { w.usbif.vusb with anchor := [] } },
    calls := w.calls ++ w.usbif.vusb.anchor.map HostCall.kill_urb }

def set_canceling_requests (w : World) (v : Int) : World :=
  { w with usbif := { w.usbif with vusb := { w.usbif.vusb with canceling_requests := v } } }

/-- Function `vusb_flush`. -/
def vusb_flush (w : World) : World :=
  let w1 := set_canceling_requests w 1
  let w2 := usb_kill_anchored_urbs w1
  set_canceling_requests w2 0

/-! ## `vusb.c`: building a transfer -/

/-- Function `dusb_set_configuration` (`dusb.c`): the host call, its status and the
device afterwards. -/
def dusb_set_configuration (host : Host) (dev : usb_device) (configuration : Int) :
    Int × usb_device × List HostCall :=
  let r := host.usb_set_configuration dev configuration
  (r.1, r.2, [HostCall.set_configuration configuration])

/-- The search loop of `maybe_set_configuration`: index of the first
configuration, from index `i` on, whose `bConfigurationValue` is
`configuration`. -/
def config_lookup (configuration : Int) : Nat → List usb_host_config → Option Nat
  | _, [] => none
  | i, c :: cs =>
    if (c.desc.bConfigurationValue : Int) = configuration then some i
    else config_lookup configuration (i + 1) cs

/-- Function `maybe_set_configuration`: status, device afterwards, host calls made. -/
def maybe_set_configuration (host : Host) (dev : usb_device) (configuration : Int) :
    Int × usb_device × List HostCall :=
  let cp := config_lookup configuration 0 (dev.config.take dev.bNumConfigurations)
  if cp.isSome ∧ cp = dev.actconfig then (0, dev, [])
  else dusb_set_configuration host dev configuration

/-- The fields of the setup packet (`struct usb_ctrlrequest`), the 16-bit ones
read little-endian. -/
def bRequestType (setup : List Nat) : Nat := setup.getD 0 0
def bRequest (setup : List Nat) : Nat := setup.getD 1 0
def wValue (setup : List Nat) : Nat := setup.getD 2 0 + 256 * setup.getD 3 0
def wIndex (setup : List Nat) : Nat := setup.getD 4 0 + 256 * setup.getD 5 0
def wLength (setup : List Nat) : Nat := setup.getD 6 0 + 256 * setup.getD 7 0

/-- The value of `1 << n` for an `int` shift count.  A negative count is undefined in C;
the value given here for it is a placeholder. -/
def shl_one (n : Int) : Int := 2 ^ n.toNat

def set_usbdev (w : World) (dev : usb_device) : World :=
  { w with usbif := { w.usbif with vusb := { w.usbif.vusb with usbdev := some dev } } }

def set_stats (w : World) (stats : usbif_stats) : World :=
  { w with usbif := { w.usbif with stats := stats } }

/-- What the `setup_*_urb` routines and `vusb_setup_urb` produce. -/
structure SetupResult where
  ret : Int
  world : World
  urb : urb
  deriving DecidableEq, Repr

/-- The common tail of `setup_control_urb`: interval, pipe and statistics of a
control transfer that is forwarded. -/
def control_tail (w : World) (usbdev : usb_device) (req : usbif_request) (u : urb)
    (ret : Int) : SetupResult :=
  let u1 := { u with interval := 1 }
  let stats := w.usbif.stats
  if req.dir_in then
    { ret := ret,
      world := set_stats w
        { stats with st_in_req := int_inc stats.st_in_req, st_cntrl_req := int_inc stats.st_cntrl_req },
      urb := { u1 with pipe := some (usb_rcvctrlpipe usbdev req.endpoint_num) } }
  else
    { ret := ret,
      world := set_stats w
        { stats with st_out_req := int_inc stats.st_out_req, st_cntrl_req := int_inc stats.st_cntrl_req },
      urb := { u1 with pipe := some (usb_sndctrlpipe usbdev req.endpoint_num) } }

/-- Function `setup_control_urb`.  It is entered with `vusb->usbdev` non-NULL (checked
by `vusb_setup_urb`); the branch for NULL stands for a dereference the source
never reaches. -/
def setup_control_urb (host : Host) (w : World) (req : usbif_request) (u : urb) :
    SetupResult :=
  match w.usbif.vusb.usbdev with
  | none => { ret := 0, world := w, urb := u }
  | some usbdev =>
    let u0 := { u with setup_packet := req.setup }
    let setup := u0.setup_packet
    let value : Int := wValue setup
    let index : Int := wIndex setup
    let recip := bRequestType setup &&& USB_RECIP_MASK
    if recip = USB_RECIP_DEVICE then
      if bRequest setup = USB_REQ_CLEAR_FEATURE then control_tail w usbdev req u0 0
      else if bRequest setup = USB_REQ_SET_CONFIGURATION then
        let r := maybe_set_configuration host usbdev value
        let w1 := { set_usbdev w r.2.1 with calls := w.calls ++ r.2.2 }
        if r.1 = 0 then { ret := 1, world := w1, urb := u0 }
        else control_tail w1 r.2.1 req u0 r.1
      else control_tail w usbdev req u0 0
    else if recip = USB_RECIP_INTERFACE then
      if bRequest setup = USB_REQ_CLEAR_FEATURE then control_tail w usbdev req u0 0
      else if bRequest setup = USB_REQ_SET_INTERFACE then
        let r := host.usb_set_interface usbdev index value
        let w1 := { set_usbdev w r.2 with calls := w.calls ++ [HostCall.set_interface index value] }
        if r.1 = 0 then { ret := 1, world := w1, urb := u0 }
        else control_tail w1 r.2 req u0 r.1
      else control_tail w usbdev req u0 0
    else if recip = USB_RECIP_ENDPOINT then
      if bRequest setup = USB_REQ_GET_STATUS then control_tail w usbdev req u0 0
      else if bRequest setup = USB_REQ_CLEAR_FEATURE ∧ wValue setup = USB_ENDPOINT_HALT then
        let ep := wIndex setup
        let epnum : Int := (ep &&& 0x7f : Nat)
        let pipe :=
          if ep &&& USB_DIR_IN ≠ 0 then usb_rcvbulkpipe usbdev epnum
          else usb_sndbulkpipe usbdev epnum
        let r := host.usb_clear_halt usbdev pipe
        let w1 := { set_usbdev w r.2 with calls := w.calls ++ [HostCall.clear_halt pipe] }
        if r.1 = 0 ∨ r.1 = -EPIPE then { ret := 1, world := w1, urb := u0 }
        else control_tail w1 r.2 req u0 r.1
      else control_tail w usbdev req u0 0
    else control_tail w usbdev req u0 0

/-- Function `setup_isoc_urb`. -/
def setup_isoc_urb (w : World) (req : usbif_request) (u : urb) (ep : usb_host_endpoint) :
    SetupResult :=
  match w.usbif.vusb.usbdev with
  | none => { ret := 0, world := w, urb := u }
  | some usbdev =>
    let u1 := { u with interval := shl_one (min 15 ((ep.desc.bInterval : Int) - 1)),
                       start_frame := req.startframe }
    let u2 := if req.asap then { u1 with transfer_flags := u1.transfer_flags ||| URB_ISO_ASAP }
              else u1
    let stats := w.usbif.stats
    if req.dir_in then
      { ret := 0,
        world := set_stats w
          { stats with st_in_req := int_inc stats.st_in_req, st_isoc_req := int_inc stats.st_isoc_req },
        urb := { u2 with pipe := some (usb_rcvisocpipe usbdev req.endpoint_num) } }
    else
      { ret := 0,
        world := set_stats w
          { stats with st_out_req := int_inc stats.st_out_req, st_isoc_req := int_inc stats.st_isoc_req },
        urb := { u2 with pipe := some (usb_sndisocpipe usbdev req.endpoint_num) } }

/-- Function `setup_bulk_urb`. -/
def setup_bulk_urb (w : World) (req : usbif_request) (u : urb) : SetupResult :=
  match w.usbif.vusb.usbdev with
  | none => { ret := 0, world := w, urb := u }
  | some usbdev =>
    let u1 := { u with interval := 1 }
    let stats := w.usbif.stats
    if req.dir_in then
      { ret := 0,
        world := set_stats w
          { stats with st_in_req := int_inc stats.st_in_req, st_bulk_req := int_inc stats.st_bulk_req },
        urb := { u1 with pipe := some (usb_rcvbulkpipe usbdev req.endpoint_num) } }
    else
      { ret := 0,
        world := set_stats w
          { stats with st_out_req := int_inc stats.st_out_req, st_bulk_req := int_inc stats.st_bulk_req },
        urb := { u1 with pipe := some (usb_sndbulkpipe usbdev req.endpoint_num) } }

/-- Function `setup_int_urb`. -/
def setup_int_urb (w : World) (req : usbif_request) (u : urb) (ep : usb_host_endpoint) :
    SetupResult :=
  match w.usbif.vusb.usbdev with
  | none => { ret := 0, world := w, urb := u }
  | some usbdev =>
    let u1 :=
      match usbdev.speed with
      | usb_device_speed.USB_SPEED_HIGH
      | usb_device_speed.USB_SPEED_SUPER =>
        { u with interval := shl_one (min 15 ((ep.desc.bInterval : Int) - 1)) }
      | usb_device_speed.USB_SPEED_FULL
      | usb_device_speed.USB_SPEED_LOW => { u with interval := (ep.desc.bInterval : Int) }
      | _ => u
    let stats := w.usbif.stats
    if req.dir_in then
      { ret := 0,
        world := set_stats w
          { stats with st_in_req := int_inc stats.st_in_req, st_int_req := int_inc stats.st_int_req },
        urb := { u1 with pipe := some (usb_rcvintpipe usbdev req.endpoint_num) } }
    else
      { ret := 0,
        world := set_stats w
          { stats with st_out_req := int_inc stats.st_out_req, st_int_req := int_inc stats.st_int_req },
        urb := { u1 with pipe := some (usb_sndintpipe usbdev req.endpoint_num) } }

/-- Function `dusb_dev_running` (`dusb.c`). -/
def dusb_dev_running (udev : usb_device) : Bool :=
  match udev.hcd with
  | some hcd => hcd.rh_running
  | none => false

/-- Function `vusb_device`: the host device when the owned device is active and its
controller is running, NULL otherwise. -/
def vusb_device (v : vusb) : Option usb_device :=
  if v.active ≠ 0 then
    match v.usbdev with
    | some usbdev => if dusb_dev_running usbdev then some usbdev else none
    | none => none
  else none

/-- Function `vusb_setup_urb`. -/
def vusb_setup_urb (host : Host) (w : World) (req : usbif_request) (u : urb) : SetupResult :=
  match vusb_device w.usbif.vusb with
  | none => { ret := -ENODEV, world := w, urb := u }
  | some usbdev =>
    if usbdev.state ≠ usb_device_state.USB_STATE_ADDRESS ∧
        usbdev.state ≠ usb_device_state.USB_STATE_CONFIGURED then
      { ret := -ENODEV, world := w, urb := u }
    else
      let ep := if req.dir_in then usbdev.ep_in.getD req.endpoint_num none
                else usbdev.ep_out.getD req.endpoint_num none
      match ep with
      | none => { ret := -ENOENT, world := w, urb := u }
      | some ep =>
        let u1 := { u with dev := some usbdev }
        let u2 := if !req.shortok && req.dir_in then
                    { u1 with transfer_flags := u1.transfer_flags ||| URB_SHORT_NOT_OK }
                  else u1
        let xfer := ep.desc.bmAttributes &&& USB_ENDPOINT_XFERTYPE_MASK
        if xfer = USB_ENDPOINT_XFER_CONTROL then setup_control_urb host w req u2
        else if xfer = USB_ENDPOINT_XFER_ISOC then setup_isoc_urb w req u2 ep
        else if xfer = USB_ENDPOINT_XFER_BULK then setup_bulk_urb w req u2
        else setup_int_urb w req u2 ep

/-! ## `vusb.c`: probe -/

/-- Modelled from the spec: `kref_init` of `linux/kref.h` (not in the source
tree at hand): the record is reinitialised to one reference. -/
def kref_init (v : vusb) : vusb := { v with kref := 1 }

/-- Modelled from the spec: `kref_get` of `linux/kref.h` (not in the source
tree at hand): a reference is added. -/
def kref_get (v : vusb) : vusb := { v with kref := v.kref + 1 }

/-- The driver-wide state: the device map and, for every non-NULL `vusb`
pointer, the record it points to. -/
structure VusbDriver where
  vusb_map : List vusb_map
  records : Nat → vusb

/-- Function `vusb_probe` for an interface of the host device `udev`: the
return value, the driver state and the interface afterwards. -/
def vusb_probe (s : VusbDriver) (udev : usb_device) (intf : usb_interface) :
    Int × VusbDriver × usb_interface :=
  let bus := udev.busnum
  let device := udev.devnum
  let p := vusb_find_device bus device s.vusb_map
  if p ≠ 0 then
    let v := s.records p
    let v1 := if v.active = 0 then { kref_init v with active := 1 } else kref_get v
    (0, { s with records := fun q => if q = p then v1 else s.records q },
      { intf with intfdata := p })
  else (-ENODEV, s, intf)

/-! ## `xen/vusb.h`: request accessors -/

/-- The call `memcpy(dst, src, n)` on two byte regions: the region `dst`
afterwards. -/
def memcpy_bytes (dst src : List Nat) (n : Nat) : List Nat :=
  writeBytes dst 0 (readBytes src 0 n)

/-- Function `usbif_get_x86_32_req`: `memcpy(dst, src, sizeof(usbif_request_t))`.
`size` is that `sizeof`; the request type is declared outside the files at
hand, and `usbif_x86_32_request_t` is a `typedef` of the same struct. -/
def usbif_get_x86_32_req (size : Nat) (dst src : List Nat) : List Nat :=
  memcpy_bytes dst src size

/-- Function `usbif_get_x86_64_req`: `memcpy(dst, src, sizeof(usbif_request_t))`;
`usbif_x86_64_request_t` is a `typedef` of the same struct as well. -/
def usbif_get_x86_64_req (size : Nat) (dst src : List Nat) : List Nat :=
  memcpy_bytes dst src size

/-! ## `interface.c` -/

def USBIF_PROTOCOL_NATIVE : Nat := 1
def USBIF_PROTOCOL_X86_32 : Nat := 2
def USBIF_PROTOCOL_X86_64 : Nat := 3

/-- What the kernel primitives called by `usbif_map` answer: the return value
of `xenbus_map_ring_valloc` and the address it leaves in `usb_ring_addr`, and
the return value of `bind_interdomain_evtchn_to_irqhandler_lateeoi` (the irq,
or a negative errno). -/
structure MapEnv where
  map_err : Int
  vaddr : Nat
  bind_ret : Int
  deriving DecidableEq, Repr

/-- Append a call to the trace. -/
def record_call (w : World) (c : HostCall) : World :=
  { w with calls := w.calls ++ [c] }

def set_vusb (w : World) (v : vusb) : World :=
  { w with usbif := { w.usbif with vusb := v } }

/-- Function `usbif_alloc`, for an allocation that succeeds: the object is
zeroed, `domid` is recorded and the reference count is set to 1. -/
def usbif_alloc (domid : Int) : usbif :=
  { stats :=
      { st_oo_req := 0, st_in_req := 0, st_out_req := 0, st_error := 0, st_reset := 0,
        st_in_bandwidth := 0, st_out_bandwidth := 0, st_cntrl_req := 0, st_isoc_req := 0,
        st_bulk_req := 0, st_int_req := 0 },
    vusb :=
      { handle := 0, bus := 0, device := 0, active := 0, initted := 0, kref := 0,
        anchor := [], usbdev := none, max_sgs := 0, hcd_speed := 0, copy_unaligned := 0,
        autosuspend := 0, canceling_requests := 0 },
    domid := domid, refcnt := 1, irq := 0, sring := 0, usb_ring_addr := 0,
    usb_protocol := 0, xenusbd := 0 }

/-- Function `usbif_map`: the return value and the state afterwards; `none` when
the call ends in `BUG()` (a protocol that is none of the three).
`BACK_RING_INIT` stores the mapped address in the `sring` member of the ring
union. -/
def usbif_map (env : MapEnv) (w : World) : Option (Int × World) :=
  if w.usbif.irq ≠ 0 then some (0, w)
  else
    let w1 : World := { w with usbif := { w.usbif with usb_ring_addr := env.vaddr } }
    if env.map_err ≠ 0 then some (env.map_err, w1)
    else
      let w2 := record_call w1 (HostCall.map_ring env.vaddr)
      if w2.usbif.usb_protocol = USBIF_PROTOCOL_NATIVE ∨
          w2.usbif.usb_protocol = USBIF_PROTOCOL_X86_32 ∨
          w2.usbif.usb_protocol = USBIF_PROTOCOL_X86_64 then
        let w3 : World := { w2 with usbif := { w2.usbif with sring := w2.usbif.usb_ring_addr } }
        let w4 := record_call w3 (HostCall.bind_evtchn env.bind_ret)
        if env.bind_ret < 0 then
          some (env.bind_ret,
            { usbif := { w4.usbif with sring := 0, usb_ring_addr := 0 },
              calls := w4.calls ++ [HostCall.unmap_ring w4.usbif.usb_ring_addr] })
        else some (0, { w4 with usbif := { w4.usbif with irq := env.bind_ret } })
      else none

/-- Function `usbif_kill_xenusbd`.  The stored task pointer is NULL or a valid
task: `update_usbif_status` replaces an error pointer by NULL. -/
def usbif_kill_xenusbd (w : World) : World :=
  let xenusbd := w.usbif.xenusbd
  let w1 : World := { w with usbif := { w.usbif with xenusbd := 0 } }
  if xenusbd ≠ 0 then record_call w1 (HostCall.kthread_stop xenusbd) else w1

/-- Function `usbif_disconnect`.  `wait_event` returns once the count is 0; in this
sequential model nobody else holds a reference, so a count that is not 0
after the decrement is waited for without end (`none`). -/
def usbif_disconnect (w : World) : Option World :=
  let w1 := usbif_kill_xenusbd w
  let w2 := record_call { w1 with usbif := { w1.usbif with refcnt := w1.usbif.refcnt - 1 } }
    HostCall.ref_dec
  if w2.usbif.refcnt ≠ 0 then none
  else
    let w3 := record_call w2 HostCall.wait_zero
    let w4 := record_call { w3 with usbif := { w3.usbif with refcnt := w3.usbif.refcnt + 1 } }
      HostCall.ref_inc
    let w5 :=
      if w4.usbif.irq ≠ 0 then
        { usbif := { w4.usbif with irq := 0 },
          calls := w4.calls ++ [HostCall.unbind_from_irqhandler w4.usbif.irq] }
      else w4
    let w6 :=
      if w5.usbif.sring ≠ 0 then
        { usbif := { w5.usbif with sring := 0, usb_ring_addr := 0 },
          calls := w5.calls ++ [HostCall.unmap_ring w5.usbif.usb_ring_addr] }
      else w5
    some w6

/-- Function `usbif_free`: `none` when the call ends in `BUG()` (the count does
not reach 0). -/
def usbif_free (w : World) : Option World :=
  let w1 : World := { w with usbif := { w.usbif with refcnt := w.usbif.refcnt - 1 } }
  if w1.usbif.refcnt ≠ 0 then none
  else some (record_call w1 HostCall.kmem_cache_free)

/-- A call of `interface.c` on a connection.  `map` stands for the pair
`connect_ring` makes: the protocol is stored, then `usbif_map` is called. -/
inductive IfOp where
  | map (usb_protocol : Nat) (env : MapEnv)
  | disconnect
  deriving DecidableEq, Repr

def IfOp.apply (w : World) : IfOp → Option World
  | IfOp.map usb_protocol env =>
    (usbif_map env { w with usbif := { w.usbif with usb_protocol := usb_protocol } }).map
      (fun r => r.2)
  | IfOp.disconnect => usbif_disconnect w

/-- The connection after a sequence of calls, `none` if one of them does not
return. -/
def run_if_ops : List IfOp → World → Option World
  | [], w => some w
  | op :: ops, w => (op.apply w).bind (run_if_ops ops)

/-! ## `vusb.c`: claiming and releasing the host device

The record `&usbif->vusb` of the connection is known to the host USB stack by
its address, `self` below (never 0); an interface owned through this driver
carries that address in its owner slot. -/

/-- Function `vusb_delete`, the release function of the reference count. -/
def vusb_delete (w : World) : World :=
  vusb_flush (set_vusb w { w.usbif.vusb with active := 0 })

/-- Modelled from the spec: `kref_put(&vusb->kref, vusb_delete)` of
`linux/kref.h` (not in the source tree at hand): a reference is dropped, and
`vusb_delete` runs when the count reaches 0. -/
def kref_put (w : World) : World :=
  let w1 := set_vusb w { w.usbif.vusb with kref := w.usbif.vusb.kref - 1 }
  if w1.usbif.vusb.kref = 0 then vusb_delete w1 else w1

/-- Function `vusb_disconnect`, the disconnect callback of `vusb_driver`.  An owner
slot that holds another record belongs to another connection, whose count is
not part of this state. -/
def vusb_disconnect (self : Nat) (w : World) (intf : usb_interface) :
    World × usb_interface :=
  if intf.intfdata = 0 then (w, intf)
  else
    (if intf.intfdata = self then kref_put w else w,
      { intf with needs_binding := 1, intfdata := 0 })

/-- Modelled from the spec: `usb_driver_release_interface` of the host USB
stack (`drivers/usb/core/driver.c`, not in the source tree at hand), called
with the driver the interface is bound to: the disconnect callback of that
driver runs (`vusb_disconnect` when it is `vusb_driver`), then the interface
is unbound and its owner slot cleared. -/
def usb_driver_release_interface (self : Nat) (w : World) (confnum ifnum : Nat)
    (intf : usb_interface) : World × usb_interface :=
  let w0 := record_call w (HostCall.release_interface confnum ifnum)
  let r :=
    if intf.driver = intf_driver.vusb_driver then vusb_disconnect self w0 intf else (w0, intf)
  (r.1, { r.2 with driver := intf_driver.unbound, intfdata := 0 })

/-- Function `vusb_claim_interface` for interface `ifnum` of configuration
`confnum`.  `claim confnum ifnum` is what `usb_driver_claim_interface` (host
USB stack) returns for it; when that is 0 the interface is bound to
`vusb_driver`, and the owner slot is set to `self`. -/
def vusb_claim_interface (claim : Nat → Nat → Int) (self : Nat) (w : World)
    (confnum ifnum : Nat) (intf : usb_interface) : Int × World × usb_interface :=
  let r :=
    if intf.driver ≠ intf_driver.unbound then
      usb_driver_release_interface self w confnum ifnum intf
    else (w, intf)
  let ret := claim confnum ifnum
  let w1 := record_call r.1 (HostCall.claim_interface confnum ifnum)
  if ret ≠ 0 then (ret, w1, r.2)
  else (ret, w1, { r.2 with driver := intf_driver.vusb_driver, intfdata := self })

/-- Body of the loop of `vusb_claim_config` for interface `ifnum`. -/
def vusb_claim_config_step (claim : Nat → Nat → Int) (self confnum ifnum : Nat)
    (s : World × usb_host_config) : World × usb_host_config :=
  match s.2.interface.getD ifnum none with
  | none => s
  | some intf =>
    let r := vusb_claim_interface claim self s.1 confnum ifnum intf
    let config := { s.2 with interface := s.2.interface.set ifnum (some r.2.2) }
    if r.1 = 0 then (set_vusb r.2.1 (kref_get r.2.1.usbif.vusb), config) else (r.2.1, config)

/-- Function `vusb_claim_config` for configuration `confnum`. -/
def vusb_claim_config (claim : Nat → Nat → Int) (self confnum : Nat) (w : World)
    (config : usb_host_config) : World × usb_host_config :=
  for_loop (vusb_claim_config_step claim self confnum) config.desc.bNumInterfaces 0 (w, config)

/-- Body of the loop of `vusb_claim_dev` for configuration `confnum`. -/
def vusb_claim_dev_step (claim : Nat → Nat → Int) (self confnum : Nat)
    (s : World × usb_device) : World × usb_device :=
  match s.2.config[confnum]? with
  | none => s
  | some config =>
    let r := vusb_claim_config claim self confnum s.1 config
    (r.1, { s.2 with config := s.2.config.set confnum r.2 })

/-- Function `vusb_claim_dev`. -/
def vusb_claim_dev (claim : Nat → Nat → Int) (self : Nat) (w : World) (udev : usb_device) :
    World × usb_device :=
  for_loop (vusb_claim_dev_step claim self) udev.bNumConfigurations 0 (w, udev)

/-- Body of the loop of `vusb_release_config` for interface `ifnum`; `none`
when the entry is NULL, which the loop dereferences. -/
def vusb_release_config_step (self confnum ifnum : Nat)
    (s : Option (World × usb_host_config)) : Option (World × usb_host_config) :=
  match s with
  | none => none
  | some s =>
    match s.2.interface.getD ifnum none with
    | none => none
    | some intf =>
      if intf.driver = intf_driver.vusb_driver then
        if intf.intfdata = self then
          let r := usb_driver_release_interface self s.1 confnum ifnum intf
          some (r.1, { s.2 with interface := s.2.interface.set ifnum (some r.2) })
        else some s
      else some s

/-- Function `vusb_release_config` for configuration `confnum`. -/
def vusb_release_config (self confnum : Nat) (w : World) (config : usb_host_config) :
    Option (World × usb_host_config) :=
  for_loop (vusb_release_config_step self confnum) config.desc.bNumInterfaces 0
    (some (w, config))

/-- Function `vusb_release_dev`; `none` as well when `actconfig` points outside the
`config` array. -/
def vusb_release_dev (self : Nat) (w : World) (udev : usb_device) :
    Option (World × usb_device) :=
  match udev.actconfig with
  | none => some (w, udev)
  | some confnum =>
    match udev.config[confnum]? with
    | none => none
    | some config =>
      (vusb_release_config self confnum w config).map
        (fun r => (r.1, { udev with config := udev.config.set confnum r.2 }))

def HCD_USB2 : Nat := 0x0020
def HCD_USB3 : Nat := 0x0040
def USB_SPEED_LOW : Int := 1
def USB_SPEED_HIGH : Int := 3
def USB_SPEED_SUPER : Int := 5

/-- Function `dusb_hcd_speed` (`dusb.c`). -/
def dusb_hcd_speed (hcd : usb_hcd) : Int :=
  if hcd.driver_flags &&& HCD_USB3 ≠ 0 then USB_SPEED_SUPER
  else if hcd.driver_flags &&& HCD_USB2 ≠ 0 then USB_SPEED_HIGH
  else USB_SPEED_LOW

/-- Function `dusb_dev_controller_speed` (`dusb.c`). -/
def dusb_dev_controller_speed (udev : usb_device) : Int :=
  match udev.hcd with
  | some hcd => dusb_hcd_speed hcd
  | none => 0

/-- Function `vusb_create`: the return value, the connection and the device map
afterwards.  `dusb_open` is what `dusb_open(bus, device)` returns (`none` for
NULL), `table` is `vusb_map`.  The device lock and `usb_disable_autosuspend`
leave the state kept here alone. -/
def vusb_create (dusb_open : Option usb_device) (claim : Nat → Nat → Int) (self : Nat)
    (table : List vusb_map) (w : World) (handle bus device : Int) :
    Int × World × List vusb_map :=
  let v0 := { w.usbif.vusb with handle := handle, bus := bus, device := device, active := 1 }
  let w1 := set_vusb w { kref_init v0 with anchor := [] }
  match dusb_open with
  | none => (-1, w1, table)
  | some usbdev =>
    let table1 := (vusb_map_device self bus device table).2
    let r := vusb_claim_dev claim self w1 usbdev
    let hcd_speed := dusb_dev_controller_speed r.2
    let w2 := set_vusb r.1
      { r.1.usbif.vusb with
        usbdev := some r.2, max_sgs := r.2.sg_tablesize, hcd_speed := hcd_speed,
        copy_unaligned := if hcd_speed ≠ USB_SPEED_SUPER then 1 else 0, initted := 1 }
    (0, kref_put w2, table1)

/-- Function `vusb_free`: the connection and the device map afterwards; `none` when
`vusb_release_dev` does not return. -/
def vusb_free (self : Nat) (table : List vusb_map) (w : World) :
    Option (World × List vusb_map) :=
  match w.usbif.vusb.usbdev with
  | none => some (w, table)
  | some usbdev =>
    let w1 := set_vusb w { w.usbif.vusb with usbdev := none }
    let table1 := (vusb_unmap_device self table).2
    let w2 := vusb_flush w1
    let w3 :=
      if w2.usbif.vusb.active ≠ 0 then (vusb_release_dev self w2 usbdev).map (fun r => r.1)
      else some w2
    w3.map (fun w4 => (record_call w4 HostCall.dusb_close, table1))

/-- Function `vusb_cycle_port`. -/
def vusb_cycle_port (w : World) : World :=
  match vusb_device w.usbif.vusb with
  | some _ => record_call w HostCall.cycle_port
  | none => w

/-! ## `xenbus.c` -/

def EAGAIN : Int := 11
def ERANGE : Int := 34

/-- The macro `XENBUS_EXIST_ERR` of `xen/xenbus.h`. -/
def XENBUS_EXIST_ERR (err : Int) : Bool := err == -ENOENT || err == -ERANGE

/-- The protocol names of `xen/interface/io/protocols.h`, as an x86-64 build
defines them. -/
def XEN_IO_PROTO_ABI_X86_32 : String := "x86_32-abi"
def XEN_IO_PROTO_ABI_X86_64 : String := "x86_64-abi"
def XEN_IO_PROTO_ABI_NATIVE : String := "x86_64-abi"

/-- One pass through the transaction of `connect`: what
`xenbus_transaction_start`, the `xenbus_printf` of `usbback_barrier` and
`xenbus_transaction_end` return. -/
structure Attempt where
  start_err : Int
  barrier_err : Int
  end_err : Int
  deriving DecidableEq, Repr

/-- What the kernel around the driver answers while one callback runs: the
configuration-store reads, the host USB stack, the ring and event-channel
primitives, and the thread layer. -/
structure Env where
  physical_device_err : Int
  physical_bus : Int
  physical_device : Int
  handle : Int
  dusb_open : Option usb_device
  claim : Nat → Nat → Int
  sysfs_addif_err : Int
  version_err : Int
  version : Nat
  gather_err : Int
  protocol_err : Int
  protocol : String
  ring : MapEnv
  attempts : List Attempt
  switch_err : Int
  kthread_err : Int
  kthread_task : Nat
  online : Bool

/-- The state the callbacks of `xenbus.c` work on: the connection `be->usbif`
with the trace of calls, the address `self` of its `vusb` record,
`be->bus`, `be->device`, the backend state `dev->state`, the device map of
`vusb.c`, and whether `be->usbif` is still set. -/
structure Backend where
  world : World
  self : Nat
  bus : Int
  device : Int
  state : xenbus_state
  vusb_map : List vusb_map
  has_usbif : Bool
  deriving DecidableEq, Repr

def Backend.record (s : Backend) (c : HostCall) : Backend :=
  { s with world := record_call s.world c }

/-- Modelled from the spec: `xenbus_switch_state` of the xenbus layer (not in
the source tree at hand): the new state is written to the store, and
`dev->state` follows when that succeeds. -/
def xenbus_switch_state (env : Env) (s : Backend) (state : xenbus_state) : Int × Backend :=
  let s1 := s.record (HostCall.switch_state state)
  if env.switch_err = 0 then (0, { s1 with state := state }) else (env.switch_err, s1)

/-- Modelled from the spec: `xenbus_dev_fatal` of the xenbus layer (not in the
source tree at hand): the error is reported and the backend moves to
`Closing`. -/
def xenbus_dev_fatal (env : Env) (s : Backend) (err : Int) : Backend :=
  (xenbus_switch_state env (s.record (HostCall.dev_fatal err))
    xenbus_state.XenbusStateClosing).2

/-- Modelled from the spec: `xenbus_dev_error` of the xenbus layer: the error is
reported. -/
def xenbus_dev_error (s : Backend) (err : Int) : Backend :=
  s.record (HostCall.dev_error err)

/-- Function `connect`, one `Attempt` of the environment per pass of the `again:`
loop; `none` when the answers run out before the loop is left. -/
def connect (env : Env) : List Attempt → Backend → Option Backend
  | [], _ => none
  | a :: rest, s =>
    if a.start_err ≠ 0 then some (xenbus_dev_fatal env s a.start_err)
    else if a.barrier_err ≠ 0 then some (xenbus_dev_fatal env s a.barrier_err)
    else if a.end_err = -EAGAIN then connect env rest s
    else
      let s1 := if a.end_err ≠ 0 then xenbus_dev_fatal env s a.end_err else s
      let r := xenbus_switch_state env s1 xenbus_state.XenbusStateConnected
      some (if r.1 ≠ 0 then xenbus_dev_fatal env r.2 r.1 else r.2)

/-- Function `update_usbif_status`.  `kthread_run` returns the task
`env.kthread_task`, or an error pointer when `env.kthread_err` is not 0. -/
def update_usbif_status (env : Env) (s : Backend) : Option Backend :=
  if s.world.usbif.irq = 0 then some s
  else if s.state = xenbus_state.XenbusStateConnected then some s
  else
    (connect env env.attempts s).map (fun s1 =>
      if s1.state ≠ xenbus_state.XenbusStateConnected then s1
      else if env.kthread_err ≠ 0 then
        xenbus_dev_error
          { s1 with world := { s1.world with usbif := { s1.world.usbif with xenusbd := 0 } } }
          env.kthread_err
      else
        { s1 with world := { s1.world with usbif :=
            { s1.world.usbif with xenusbd := env.kthread_task } } }.record
          (HostCall.kthread_run env.kthread_task))

/-- Function `connect_ring`: the return value and the state afterwards.
`USBBCK_VERSION` is the version constant of the backend, which a header
outside the files at hand defines; `version` is an `unsigned int`. -/
def connect_ring (USBBCK_VERSION : Nat) (env : Env) (s : Backend) : Option (Int × Backend) :=
  if XENBUS_EXIST_ERR env.version_err then some (-1, s)
  else if env.version_err ≠ 1 then some (-1, xenbus_dev_fatal env s env.version_err)
  else if env.version < USBBCK_VERSION then some (-1, xenbus_dev_fatal env s EINVAL)
  else if env.gather_err ≠ 0 then some (env.gather_err, xenbus_dev_fatal env s env.gather_err)
  else
    let set_protocol (p : Nat) : Backend :=
      { s with world := { s.world with usbif := { s.world.usbif with usb_protocol := p } } }
    let s1 : Option Backend :=
      if env.protocol_err ≠ 0 then some (set_protocol USBIF_PROTOCOL_NATIVE)
      else if env.protocol = XEN_IO_PROTO_ABI_NATIVE then some (set_protocol USBIF_PROTOCOL_NATIVE)
      else if env.protocol = XEN_IO_PROTO_ABI_X86_32 then some (set_protocol USBIF_PROTOCOL_X86_32)
      else if env.protocol = XEN_IO_PROTO_ABI_X86_64 then some (set_protocol USBIF_PROTOCOL_X86_64)
      else none
    match s1 with
    | none => some (-1, xenbus_dev_fatal env (set_protocol USBIF_PROTOCOL_NATIVE) env.protocol_err)
    | some s2 =>
      (usbif_map env.ring s2.world).map (fun r =>
        if r.1 ≠ 0 then (r.1, xenbus_dev_fatal env { s2 with world := r.2 } r.1)
        else (0, { s2 with world := r.2 }))

/-- Function `frontend_changed`. -/
def frontend_changed (USBBCK_VERSION : Nat) (env : Env) (s : Backend)
    (frontend_state : xenbus_state) : Option Backend :=
  match frontend_state with
  | xenbus_state.XenbusStateInitialising =>
    if s.state = xenbus_state.XenbusStateClosed then
      some (xenbus_switch_state env s xenbus_state.XenbusStateInitWait).2
    else some s
  | xenbus_state.XenbusStateInitialised
  | xenbus_state.XenbusStateConnected =>
    if s.state = xenbus_state.XenbusStateConnected then some s
    else
      (connect_ring USBBCK_VERSION env s).bind (fun r =>
        if r.1 ≠ 0 then some r.2 else update_usbif_status env r.2)
  | xenbus_state.XenbusStateClosing =>
    (usbif_disconnect s.world).map (fun w =>
      (xenbus_switch_state env { s with world := w } xenbus_state.XenbusStateClosing).2)
  | xenbus_state.XenbusStateClosed =>
    let s1 := (xenbus_switch_state env s xenbus_state.XenbusStateClosed).2
    if env.online then some s1 else some (s1.record HostCall.device_unregister)
  | xenbus_state.XenbusStateUnknown => some (s.record HostCall.device_unregister)
  | _ => some (xenbus_dev_fatal env s (-EINVAL))

/-- Function `backend_changed`. -/
def backend_changed (env : Env) (s : Backend) : Option Backend :=
  let bus := env.physical_bus
  let device := env.physical_device
  if XENBUS_EXIST_ERR env.physical_device_err then some s
  else if env.physical_device_err ≠ 2 then
    some (xenbus_dev_fatal env s env.physical_device_err)
  else if (s.bus ≠ 0 ∨ s.device ≠ 0) ∧ (bus ≠ 0 ∨ device ≠ 0) ∧
      (s.bus ≠ bus ∨ s.device ≠ device) then some s
  else if s.bus = 0 ∧ s.device = 0 then
    let r := vusb_create env.dusb_open env.claim s.self s.vusb_map s.world env.handle bus device
    if r.1 ≠ 0 then
      some (xenbus_dev_fatal env
        { s with world := r.2.1, vusb_map := r.2.2, bus := 0, device := 0 } r.1)
    else if env.sysfs_addif_err ≠ 0 then
      (vusb_free s.self r.2.2 r.2.1).map (fun q =>
        xenbus_dev_fatal env { s with world := q.1, vusb_map := q.2, bus := 0, device := 0 }
          env.sysfs_addif_err)
    else
      update_usbif_status env
        ({ s with world := r.2.1, vusb_map := r.2.2, bus := bus, device := device }.record
          HostCall.sysfs_addif)
  else if bus = 0 ∧ device = 0 then some { s with world := vusb_cycle_port s.world }
  else some s

/-- Function `usbback_remove`. -/
def usbback_remove (s : Backend) : Option Backend :=
  let s1 := if s.bus ≠ 0 ∨ s.device ≠ 0 then s.record HostCall.sysfs_delif else s
  if s1.has_usbif then
    (usbif_disconnect s1.world).bind (fun w1 =>
      (vusb_free s1.self s1.vusb_map w1).bind (fun q =>
        (usbif_free q.1).map (fun w3 =>
          { s1 with world := w3, vusb_map := q.2, has_usbif := false })))
  else some s1

/-- Function `usbback_probe`, for a probe that succeeds: the connection is allocated
and the backend moves to `InitWait`. -/
def usbback_probe (domid : Int) (self : Nat) : Backend :=
  { world := { usbif := usbif_alloc domid,
               calls := [HostCall.switch_state xenbus_state.XenbusStateInitWait] },
    self := self, bus := 0, device := 0, state := xenbus_state.XenbusStateInitWait,
    vusb_map := vusb_map_init, has_usbif := true }

/-- A callback of the xenbus layer. -/
inductive Event where
  | backend_changed (env : Env)
  | frontend_changed (env : Env) (frontend_state : xenbus_state)
  | remove

/-- The backend after a sequence of callbacks; nothing is delivered once the
backend has been removed. -/
def run_events (USBBCK_VERSION : Nat) : List Event → Backend → Option Backend
  | [], s => some s
  | e :: es, s =>
    if s.has_usbif then
      (match e with
        | Event.backend_changed env => backend_changed env s
        | Event.frontend_changed env st => frontend_changed USBBCK_VERSION env s st
        | Event.remove => usbback_remove s).bind (run_events USBBCK_VERSION es)
    else some s
/-- A loop body that moves `copy_chunk remaining` bytes per iteration. -/
def IsSeg (seg : Nat → CopyState → CopyState) : Prop :=
  ∀ i s, (seg i s).remaining = s.remaining - copy_chunk s.remaining ∧
    (seg i s).pos = s.pos + copy_chunk s.remaining ∧
    copied (seg i s).ops = copied s.ops + copy_chunk s.remaining

/-- Sum of the page spans of a request with `n` data pages whose first page
starts at `offset`. -/
def page_spans (n : Nat) (offset : Int) : Int :=
  if n = 0 then 0 else (PAGE_SIZE - offset) + ((n : Int) - 1) * PAGE_SIZE

/-- A write of the inbound copy that stays inside a payload page of a request
with `n` data pages: the page index is in `first .. n - 1`, the write starts
at `offset` in page `first` and at 0 in the later pages, and it ends at or
before the page end. -/
def InPage (n first : Nat) (offset : Int) (c : Memcpy) : Prop :=
  ∃ (i : Nat) (start : Int), c.dst = Addr.page i start ∧ first ≤ i ∧ i < n ∧
    start = (if i = first then offset else 0) ∧ 0 ≤ start ∧ 0 ≤ c.len ∧
    start + c.len ≤ PAGE_SIZE

/-- Configuration `k` of the device is the first one, among its
`bNumConfigurations` configurations, whose `bConfigurationValue` is `v`. -/
def first_with_value (dev : usb_device) (v : Int) (k : Nat) : Prop :=
  k < dev.bNumConfigurations ∧
    (∃ c, dev.config[k]? = some c ∧ (c.desc.bConfigurationValue : Int) = v) ∧
    ∀ (j : Nat) (c : usb_host_config), j < k → dev.config[j]? = some c →
      (c.desc.bConfigurationValue : Int) ≠ v

/-- The active configuration of the device is the first configuration whose
`bConfigurationValue` is `v`. -/
def active_value (dev : usb_device) (v : Int) : Prop :=
  ∃ k, dev.actconfig = some k ∧ first_with_value dev v k

/-- Two successive calls of `maybe_set_configuration` with the same value, the
second on the device the first one left: the host calls of both. -/
def set_configuration_twice (host : Host) (dev : usb_device) (v : Int) : List HostCall :=
  let r1 := maybe_set_configuration host dev v
  let r2 := maybe_set_configuration host r1.2.1 v
  r1.2.2 ++ r2.2.2

/-- The statistics after one request in the given direction was counted: the
counter goes up by the C `++` on an `int`. -/
def count_direction (dir_in : Bool) (s : usbif_stats) : usbif_stats :=
  if dir_in then { s with st_in_req := int_inc s.st_in_req }
  else { s with st_out_req := int_inc s.st_out_req }

/-- The statistics after one request of the given transfer type (the low two
bits of `bmAttributes`) was counted. -/
def count_type (xfer : Nat) (s : usbif_stats) : usbif_stats :=
  if xfer = USB_ENDPOINT_XFER_CONTROL then { s with st_cntrl_req := int_inc s.st_cntrl_req }
  else if xfer = USB_ENDPOINT_XFER_ISOC then { s with st_isoc_req := int_inc s.st_isoc_req }
  else if xfer = USB_ENDPOINT_XFER_BULK then { s with st_bulk_req := int_inc s.st_bulk_req }
  else { s with st_int_req := int_inc s.st_int_req }

/-- The endpoint `vusb_setup_urb` looks up for a request. -/
def request_endpoint (dev : usb_device) (req : usbif_request) : Option usb_host_endpoint :=
  if req.dir_in then dev.ep_in.getD req.endpoint_num none
  else dev.ep_out.getD req.endpoint_num none

/-- The page spans in page order, concatenated: the bytes of the first page
from `offset` to the page end, then every later page whole. -/
def span_bytes (offset : Int) : List (List Nat) → List Nat
  | [] => []
  | p :: rest => p.drop offset.toNat ++ rest.flatten

/-- Each `memcpy` of the sequence writes to the transfer buffer immediately
after the previous one, the first at byte `pos`. -/
def chained (pos : Int) : List Memcpy → Prop
  | [] => True
  | c :: cs => c.dst = Addr.buf pos ∧ chained (pos + c.len) cs

/-- Loop invariant of the outbound copy once the first `i` pages are done:
the buffer starts with the spans of those pages truncated to `L` bytes, the
rest of it is untouched, `pos` stands right after the filled part and the
guest pages are as they were. -/
def FilledTo (pages : List (List Nat)) (buf0 : List Nat) (offset L : Int) (i : Nat)
    (s : CopyState) : Prop :=
  s.pos = (((span_bytes offset (pages.take i)).take L.toNat).length : Int) ∧
    s.remaining = L - s.pos ∧
    Mem.run { buf := buf0, pages := pages } s.ops
      = { buf := (span_bytes offset (pages.take i)).take L.toNat
            ++ buf0.drop ((span_bytes offset (pages.take i)).take L.toNat).length,
          pages := pages }

/-! ## Example values -/

/-- A guest page filled with the byte `b`. -/
def example_page (b : Nat) : List Nat := List.replicate 4096 b

/-- A transfer object with a copy buffer of `len` bytes and nothing else set. -/
def example_urb (len : Nat) : urb :=
  { transfer_buffer := List.replicate len 0, transfer_buffer_length := len,
    actual_length := 0, sg := none, num_sgs := 0, iso_frame_desc := [],
    number_of_packets := 0, dev := none, pipe := none, transfer_flags := 0,
    interval := 0, start_frame := 0, setup_packet := [] }

/-- Bulk OUT of 8192 bytes over three data pages, starting at byte 4000 of the
first page. -/
def bulk_out_8192 : pending_req :=
  { type := usbif_type.USBIF_T_BULK, direction_in := false, offset := 4000,
    nr_packets := 0, pages := [example_page 1, example_page 2, example_page 3],
    info := [], urb := example_urb 8192 }

/-- Bulk IN over one data page starting at byte 4000, the device having
returned 200 bytes. -/
def bulk_in_200 : pending_req :=
  { type := usbif_type.USBIF_T_BULK, direction_in := true, offset := 4000,
    nr_packets := 0, pages := [example_page 0],
    info := [], urb := { example_urb 200 with actual_length := 200 } }

/-- Bulk IN of 18 bytes into one data page from byte 0. -/
def bulk_in_18 : pending_req :=
  { type := usbif_type.USBIF_T_BULK, direction_in := true, offset := 0,
    nr_packets := 0, pages := [example_page 0],
    info := [], urb := { example_urb 18 with actual_length := 18 } }

/-- Isochronous IN with three packets of 188 bytes at offsets 0, 188 and 376:
the descriptor page and one payload page; every packet came back whole. -/
def iso_in_3x188 : pending_req :=
  { type := usbif_type.USBIF_T_ISOC, direction_in := true, offset := 0,
    nr_packets := 3, pages := [example_page 0, example_page 0],
    info := [{ offset := 0, length := 188, status := 0 },
             { offset := 188, length := 188, status := 0 },
             { offset := 376, length := 188, status := 0 }],
    urb := { example_urb 564 with
      actual_length := 564, number_of_packets := 3,
      iso_frame_desc :=
        [{ offset := 0, length := 188, actual_length := 188, status := 0 },
         { offset := 188, length := 188, actual_length := 188, status := 0 },
         { offset := 376, length := 188, actual_length := 188, status := 0 }] } }

/-- The same three packets against a transfer buffer of 500 bytes only. -/
def iso_out_short_buffer : pending_req :=
  { iso_in_3x188 with direction_in := false, urb := example_urb 500 }

/-- The default control endpoint. -/
def example_ep0 : usb_host_endpoint := { desc := { bmAttributes := 0, bInterval := 0 } }

/-- A configured high-speed device with one configuration, of value 1, which
is active. -/
def example_device : usb_device :=
  { busnum := 1, devnum := 2, portnum := 1,
    state := usb_device_state.USB_STATE_CONFIGURED,
    speed := usb_device_speed.USB_SPEED_HIGH,
    bNumConfigurations := 1,
    config := [{ desc := { bConfigurationValue := 1, bNumInterfaces := 1 } }],
    actconfig := some 0,
    ep_in := [some example_ep0], ep_out := [some example_ep0],
    hcd := some { rh_running := true, driver_flags := 0 } }

/-- A host stack for the examples.  Its `usb_set_configuration` follows the
kernel routine in outline: value 0 unconfigures the device, a value that no
configuration carries is refused with `-EINVAL`, any other value activates
the first configuration that carries it. -/
def example_host : Host :=
  { usb_set_configuration := fun dev v =>
      if v = 0 then
        (0, { dev with actconfig := none, state := usb_device_state.USB_STATE_ADDRESS })
      else
        match config_lookup v 0 (dev.config.take dev.bNumConfigurations) with
        | some k =>
          (0, { dev with actconfig := some k, state := usb_device_state.USB_STATE_CONFIGURED })
        | none => (-EINVAL, dev),
    usb_set_interface := fun dev _ _ => (0, dev),
    usb_clear_halt := fun dev _ => (0, dev) }

def example_stats : usbif_stats :=
  { st_oo_req := 0, st_in_req := 0, st_out_req := 0, st_error := 0, st_reset := 0,
    st_in_bandwidth := 0, st_out_bandwidth := 0, st_cntrl_req := 0, st_isoc_req := 0,
    st_bulk_req := 0, st_int_req := 0 }

/-- A connection that owns `example_device`, with two transfers in flight. -/
def example_world : World :=
  { usbif :=
      { stats := example_stats,
        vusb :=
          { handle := 1, bus := 1, device := 2, active := 1, initted := 1, kref := 2,
            anchor := [7, 8], usbdev := some example_device, max_sgs := 0, hcd_speed := 3,
            copy_unaligned := 1, autosuspend := 0, canceling_requests := 0 } },
    calls := [] }

/-- Control IN, GET_DESCRIPTOR(device) on endpoint 0. -/
def get_descriptor_req : usbif_request :=
  { setup := [0x80, 0x06, 0x00, 0x01, 0x00, 0x00, 0x12, 0x00], startframe := 0,
    dir_in := true, endpoint_num := 0, asap := false, shortok := true }

/-- Control OUT, SET_CONFIGURATION(`v`) on endpoint 0. -/
def set_configuration_req (v : Nat) : usbif_request :=
  { setup := [0x00, 0x09, v, 0x00, 0x00, 0x00, 0x00, 0x00], startframe := 0,
    dir_in := false, endpoint_num := 0, asap := false, shortok := false }

/-- Isochronous OUT with three packets of 188 bytes; the third packet failed:
no byte of it went out and its status is `-EXDEV` (-18). -/
def iso_out_failed : pending_req :=
  { iso_in_3x188 with
    direction_in := false,
    urb := { iso_in_3x188.urb with
      iso_frame_desc :=
        [{ offset := 0, length := 188, actual_length := 188, status := 0 },
         { offset := 188, length := 188, actual_length := 188, status := 0 },
         { offset := 376, length := 188, actual_length := 0, status := -18 }] } }

def USB_TYPE_MASK : Nat := 0x60
def USB_TYPE_STANDARD : Nat := 0x00
def USB_TYPE_CLASS : Nat := 0x20
def USB_TYPE_VENDOR : Nat := 0x40

/-- The setup packet is one of the three that `setup_control_urb` takes out of
the forwarding path: by recipient and request code (and `wValue` for the
halt feature), whatever the type bits of `bRequestType` are. -/
def intercepted (setup : List Nat) : Prop :=
  (bRequestType setup &&& USB_RECIP_MASK = USB_RECIP_DEVICE ∧
      bRequest setup = USB_REQ_SET_CONFIGURATION) ∨
    (bRequestType setup &&& USB_RECIP_MASK = USB_RECIP_INTERFACE ∧
      bRequest setup = USB_REQ_SET_INTERFACE) ∨
    (bRequestType setup &&& USB_RECIP_MASK = USB_RECIP_ENDPOINT ∧
      bRequest setup = USB_REQ_CLEAR_FEATURE ∧ wValue setup = USB_ENDPOINT_HALT)

/-- The pipe a clear-halt is issued on for a given `wIndex`: the bulk pipe of
endpoint `wIndex & 0x7f`, inbound when bit 7 (`USB_DIR_IN`) of `wIndex` is
set. -/
def halt_pipe (dev : usb_device) (index : Nat) : Pipe :=
  { type := pipe_type.PIPE_BULK, dir_in := decide (index &&& USB_DIR_IN ≠ 0),
    devnum := dev.devnum, endpoint := ((index &&& 0x7f : Nat) : Int) }

/-- Class request to interface 0 with request code 0x0B (the HID class's
SET_PROTOCOL, here for the boot protocol): control OUT on endpoint 0. -/
def hid_set_protocol_req : usbif_request :=
  { setup := [0x21, 0x0B, 0x00, 0x00, 0x00, 0x00, 0x00, 0x00], startframe := 0,
    dir_in := false, endpoint_num := 0, asap := false, shortok := false }

/-- Vendor request to the device with request code 0x09 and `wValue` 1:
control OUT on endpoint 0. -/
def vendor_req_9 : usbif_request :=
  { setup := [0x40, 0x09, 0x01, 0x00, 0x00, 0x00, 0x00, 0x00], startframe := 0,
    dir_in := false, endpoint_num := 0, asap := false, shortok := false }

/-- CLEAR_FEATURE(ENDPOINT_HALT) for endpoint 1 IN (`wIndex` 0x81). -/
def clear_halt_req : usbif_request :=
  { setup := [0x02, 0x01, 0x00, 0x00, 0x81, 0x00, 0x00, 0x00], startframe := 0,
    dir_in := false, endpoint_num := 0, asap := false, shortok := false }

/-- The owned device of `example_world` after its interfaces went away:
inactive, the host device still attached. -/
def inactive_world : World :=
  { example_world with
    usbif := { example_world.usbif with
      vusb := { example_world.usbif.vusb with active := 0 } } }

/-- Bulk IN on endpoint 5, which `example_device` does not have. -/
def missing_endpoint_req : usbif_request :=
  { setup := [], startframe := 0, dir_in := true, endpoint_num := 5, asap := false,
    shortok := true }

/-- An isochronous endpoint with `bInterval` 4. -/
def example_isoc_ep : usb_host_endpoint := { desc := { bmAttributes := 1, bInterval := 4 } }

/-- An interrupt endpoint with `bInterval` 10. -/
def example_int_ep : usb_host_endpoint := { desc := { bmAttributes := 3, bInterval := 10 } }

/-- Isochronous IN on endpoint 0 from frame 100, as soon as possible. -/
def isoc_asap_req : usbif_request :=
  { setup := [], startframe := 100, dir_in := true, endpoint_num := 0, asap := true,
    shortok := false }

/-- A driver state whose map holds one record, at address 5, for the pair of
`example_device`; the record has lost its references and is inactive. -/
def example_driver : VusbDriver :=
  { vusb_map := (vusb_map_device 5 1 2 [{ bus := 0, device := 0, vusb := 0 },
      { bus := 0, device := 0, vusb := 0 }]).2,
    records := fun _ => { example_world.usbif.vusb with active := 0, kref := 0 } }

/-- An interface nobody owns yet. -/
def example_intf : usb_interface := { intfdata := 0, needs_binding := 0 }

/-- Invariant of the inbound copy once the first `i` pages are done: the
transfer buffer `B` is as it was; the guest pages are `A` followed by the
untouched pages from `i` on, every page of `A` still 4096 bytes long; the
spans of `A` hold the first `c` bytes of `B` followed by what the spans held
behind byte `c`; the bytes of the first page ahead of `offset` are as they
were; `pos` is `c`, the number of bytes written so far. -/
def WrittenTo (pages : List (List Nat)) (B : List Nat) (offset L : Int) (i : Nat)
    (s : CopyState) : Prop :=
  ∃ (A : List (List Nat)) (c : Nat),
    A.length = i ∧ (∀ p ∈ A, p.length = 4096) ∧
    c = min L.toNat (span_bytes offset (pages.take i)).length ∧
    s.pos = (c : Int) ∧ s.remaining = L - s.pos ∧
    Mem.run { buf := B, pages := pages } s.ops = { buf := B, pages := A ++ pages.drop i } ∧
    span_bytes offset A = B.take c ++ (span_bytes offset (pages.take i)).drop c ∧
    (A.headD []).take offset.toNat = (pages.headD []).take offset.toNat

/-- A ring slot holding a request image of 8 bytes (a small `sizeof` for the
example). -/
def example_slot : List Nat := [1, 2, 3, 4, 5, 6, 7, 8]

/-- Bulk IN of 5000 bytes into two data pages from byte 100 of the first; the
buffer holds the bytes the device returned. -/
def bulk_in_5000 : pending_req :=
  { type := usbif_type.USBIF_T_BULK, direction_in := true, offset := 100,
    nr_packets := 0, pages := [example_page 0, example_page 0], info := [],
    urb := { example_urb 5000 with
      transfer_buffer := List.replicate 5000 7, actual_length := 5000 } }

/-- The request `copy_out_req` reads the written pages back with: the guest
pages are those `copy_in_req` left, the transfer buffer is `buf0` and
`transfer_buffer_length` is the `actual_length` that was written. -/
def read_back (req : pending_req) (buf0 : List Nat) : pending_req :=
  { exec_copies req (copy_in_req req) with
    urb := { (exec_copies req (copy_in_req req)).urb with
      transfer_buffer := buf0, transfer_buffer_length := req.urb.actual_length } }

/-- The calls `usbif_disconnect` makes on a connection, in order: the worker is
stopped if there is one; the reference is dropped, the count is waited to be
0, the reference is taken back; the event channel is unbound if an irq is
bound; the ring is unmapped if it is mapped. -/
def disconnect_trace (u : usbif) : List HostCall :=
  (if u.xenusbd ≠ 0 then [HostCall.kthread_stop u.xenusbd] else [])
    ++ [HostCall.ref_dec, HostCall.wait_zero, HostCall.ref_inc]
    ++ (if u.irq ≠ 0 then [HostCall.unbind_from_irqhandler u.irq] else [])
    ++ (if u.sring ≠ 0 then [HostCall.unmap_ring u.usb_ring_addr] else [])

/-- The kernel primitives keep their contract: a ring mapping that succeeds
yields a non-NULL address and one that fails leaves NULL, and the binding of
the event channel returns a positive irq or a negative errno, never 0. -/
def MapEnv.contract (env : MapEnv) : Prop :=
  (env.map_err = 0 → env.vaddr ≠ 0) ∧ (env.map_err ≠ 0 → env.vaddr = 0) ∧ env.bind_ret ≠ 0

def IfOp.contract : IfOp → Prop
  | IfOp.map _ env => env.contract
  | IfOp.disconnect => True

/-- The protocol stored ahead of `usbif_map` is one of the three layouts. -/
def IfOp.valid_protocol : IfOp → Prop
  | IfOp.map p _ =>
    p = USBIF_PROTOCOL_NATIVE ∨ p = USBIF_PROTOCOL_X86_32 ∨ p = USBIF_PROTOCOL_X86_64
  | IfOp.disconnect => True

/-- The mapping/binding invariant of a connection: the irq is set exactly when
the ring is mapped, both ring pointers agree, and the connection holds its
one own reference. -/
def RingInv (u : usbif) : Prop :=
  (u.irq ≠ 0 ↔ u.sring ≠ 0) ∧ u.sring = u.usb_ring_addr ∧ u.refcnt = 1

/-- A fresh connection of guest 1. -/
def fresh_world : World := { usbif := usbif_alloc 1, calls := [] }

/-- A ring mapping at address 4096 and an event channel bound to irq 33. -/
def map_ok : MapEnv := { map_err := 0, vaddr := 4096, bind_ret := 33 }

/-- A ring mapping that succeeds and an event-channel binding that fails with
`-EINVAL`. -/
def bind_fails : MapEnv := { map_err := 0, vaddr := 4096, bind_ret := -22 }

/-- Connect, disconnect, a failed connect, connect again. -/
def example_if_ops : List IfOp :=
  [IfOp.map 1 map_ok, IfOp.disconnect, IfOp.map 2 bind_fails, IfOp.map 3 map_ok]

/-- No interface of the device is owned by the record `self` through this
driver, so releasing an interface never runs the disconnect callback on the
connection at hand. -/
def NotOwned (self : Nat) (udev : usb_device) : Prop :=
  ∀ config ∈ udev.config, ∀ intf, some intf ∈ config.interface →
    ¬ (intf.driver = intf_driver.vusb_driver ∧ intf.intfdata = self)

/-- Number of interfaces `i .. i + n - 1` of a configuration that are not NULL
and whose claim succeeds. -/
def claimed_from (claim : Nat → Nat → Int) (confnum : Nat) (config : usb_host_config)
    (i n : Nat) : Nat :=
  (List.range' i n).countP
    (fun ifnum => (config.interface.getD ifnum none).isSome && decide (claim confnum ifnum = 0))

/-- Number of successfully claimed interfaces of configurations
`i .. i + n - 1`. -/
def claimed_configs (claim : Nat → Nat → Int) (udev : usb_device) (i n : Nat) : Nat :=
  ((List.range' i n).map (fun confnum =>
    match udev.config[confnum]? with
    | none => 0
    | some config => claimed_from claim confnum config 0 config.desc.bNumInterfaces)).sum

/-- Number of interfaces of the device, over all its configurations, that are
not NULL and whose claim succeeds. -/
def claimed_count (claim : Nat → Nat → Int) (udev : usb_device) : Nat :=
  claimed_configs claim udev 0 udev.bNumConfigurations

/-- A device with one configuration of three interface slots: a free
interface, an interface bound to another host driver, and a NULL entry. -/
def claim_device : usb_device :=
  { example_device with
    config :=
      [{ desc := { bConfigurationValue := 1, bNumInterfaces := 3 },
         interface :=
           [some { intfdata := 0, needs_binding := 0 },
            some { intfdata := 77, needs_binding := 0, driver := intf_driver.other_driver },
            none] }] }

/-- The host accepts the claim of interface 0 and refuses every other one with
`-EBUSY`. -/
def claim_first (_confnum ifnum : Nat) : Int := if ifnum = 0 then 0 else -16

/-- The host refuses every claim with `-EBUSY`. -/
def claim_none (_confnum _ifnum : Nat) : Int := -16

/-- The calls by which the owned device is given up: a transfer is killed, an
interface is released. -/
def is_device_release : HostCall → Bool
  | HostCall.kill_urb _ => true
  | HostCall.release_interface _ _ => true
  | _ => false

/-- From `w` to `w1` only the owned-device record changed, and the calls made
are kills of transfers and releases of interfaces. -/
def DeviceOnly (w w1 : World) : Prop :=
  w1.usbif = { w.usbif with vusb := w1.usbif.vusb } ∧
    ∃ ext, w1.calls = w.calls ++ ext ∧ ∀ c ∈ ext, is_device_release c = true

/-- The interface entries `vusb_release_dev` walks are in place: when the
owned device is active and its host device has an active configuration, that
configuration lies in the `config` array and none of its first
`bNumInterfaces` interface entries is NULL. -/
def ReleaseReady (v : vusb) : Prop :=
  ∀ usbdev, v.usbdev = some usbdev → v.active ≠ 0 → ∀ confnum, usbdev.actconfig = some confnum →
    ∃ config, usbdev.config[confnum]? = some config ∧
      ∀ j, j < config.desc.bNumInterfaces → (config.interface.getD j none).isSome = true

/-- The worker tasks that have been started and not stopped, oldest first. -/
def live_workers (calls : List HostCall) : List Nat :=
  calls.foldl
    (fun acc c =>
      match c with
      | HostCall.kthread_run task => acc ++ [task]
      | HostCall.kthread_stop task => acc.filter (fun t => t ≠ task)
      | _ => acc)
    []

/-- A device with one configuration of one free interface. -/
def single_intf_device : usb_device :=
  { example_device with
    config :=
      [{ desc := { bConfigurationValue := 1, bNumInterfaces := 1 },
         interface := [some { intfdata := 0, needs_binding := 0 }] }] }

/-- An environment in which everything succeeds: the hotplug scripts publish
device 1.2, the host device opens and its interface 0 can be claimed, the
frontend carries version 3 and names no protocol, the ring maps at address
4096, the event channel binds to irq 33, the transaction of `connect` ends at
once, and `kthread_run` returns the task `task`; the device is online. -/
def env_ok (task : Nat) : Env :=
  { physical_device_err := 2, physical_bus := 1, physical_device := 2, handle := 1,
    dusb_open := some single_intf_device, claim := claim_first, sysfs_addif_err := 0,
    version_err := 1, version := 3, gather_err := 0, protocol_err := -2, protocol := "",
    ring := map_ok, attempts := [{ start_err := 0, barrier_err := 0, end_err := 0 }],
    switch_err := 0, kthread_err := 0, kthread_task := task, online := true }

/-- The backend of guest 1 after the probe; its owned-device record lies at
address 5. -/
def probed_backend : Backend := usbback_probe 1 5

/-- A connected backend: the device has been claimed, the ring is mapped and
bound, and the worker, task 101, runs. -/
def connected_backend : Backend :=
  { world :=
      { usbif :=
          { usbif_alloc 1 with
            vusb :=
              { handle := 1, bus := 1, device := 2, active := 1, initted := 1, kref := 1,
                anchor := [], max_sgs := 0, hcd_speed := 1, copy_unaligned := 1,
                autosuspend := 0, canceling_requests := 0,
                usbdev := some
                  { single_intf_device with
                    config :=
                      [{ desc := { bConfigurationValue := 1, bNumInterfaces := 1 },
                         interface :=
                           [some { intfdata := 5, needs_binding := 0,
                                   driver := intf_driver.vusb_driver }] }] } },
            irq := 33, sring := 4096, usb_ring_addr := 4096, usb_protocol := 1,
            xenusbd := 101 },
        calls := [] },
    self := 5, bus := 1, device := 2, state := xenbus_state.XenbusStateConnected,
    vusb_map := [{ bus := 1, device := 2, vusb := 5 }, { bus := 0, device := 0, vusb := 0 }],
    has_usbif := true }

/-- The callbacks that lead from the probe to two workers: the device
appears, the frontend connects, the frontend goes to `Closed` without
passing `Closing` while the device stays online, the frontend connects
again. -/
def reconnect_events : List Event :=
  [Event.backend_changed (env_ok 101),
   Event.frontend_changed (env_ok 101) xenbus_state.XenbusStateConnected,
   Event.frontend_changed (env_ok 101) xenbus_state.XenbusStateClosed,
   Event.frontend_changed (env_ok 102) xenbus_state.XenbusStateConnected]

/-- Call `a` is made, and made before the first call `b` (if `b` is made at
all). -/
def made_before (a b : HostCall) (calls : List HostCall) : Bool :=
  decide (a ∈ calls) && decide (calls.indexOf a < calls.indexOf b)

/-- The connection of the examples with the counter `st_in_req` at `INT_MAX`. -/
def full_counter_world : World :=
  set_stats example_world { example_world.usbif.stats with st_in_req := 2147483647 }

/-- One of the `bNumConfigurations` configurations of the device has
`bConfigurationValue` `v`. -/
def carries_value (dev : usb_device) (v : Int) : Prop :=
  ∃ c ∈ dev.config.take dev.bNumConfigurations, (c.desc.bConfigurationValue : Int) = v

/-- Isochronous OUT with one packet whose descriptor holds offset 2147483647
and length 1, against a transfer buffer of 1024 bytes: a descriptor page
and one data page. -/
def iso_out_wrapping : pending_req :=
  { type := usbif_type.USBIF_T_ISOC, direction_in := false, offset := 0, nr_packets := 1,
    pages := [example_page 0, example_page 0],
    info := [{ offset := 2147483647, length := 1, status := 0 }],
    urb := { example_urb 1024 with
      number_of_packets := 1,
      iso_frame_desc := [{ offset := 0, length := 0, actual_length := 0, status := 0 }] } }

/-! ## Lemmas on the chunk lengths -/

theorem copy_first_chunk_eq (offset remaining : Int) (ho : 0 ≤ offset)
    (hp : offset ≤ PAGE_SIZE) (hr : 0 ≤ remaining) (hm : remaining ≤ INT_MAX) :
    copy_first_chunk offset remaining = min remaining (PAGE_SIZE - offset) := by
  unfold copy_first_chunk toULong toInt32
  unfold PAGE_SIZE INT_MAX at *
  split_ifs with h <;> omega

theorem copy_chunk_eq (remaining : Int) (hr : 0 ≤ remaining) (hm : remaining ≤ INT_MAX) :
    copy_chunk remaining = min remaining PAGE_SIZE := by
  have h := copy_first_chunk_eq 0 remaining (le_refl 0) (by decide) hr hm
  simpa [copy_chunk] using h

theorem copied_append (xs ys : List Memcpy) : copied (xs ++ ys) = copied xs + copied ys := by
  simp [copied]

theorem copy_out_seg_isSeg : IsSeg copy_out_seg := by
  intro i s
  simp [copy_out_seg, copied]

theorem copy_in_seg_isSeg : IsSeg copy_in_seg := by
  intro i s
  simp [copy_in_seg, copied]

theorem for_loop_seg_total (seg : Nat → CopyState → CopyState) (hseg : IsSeg seg) :
    ∀ (n i : Nat) (s : CopyState), 0 ≤ s.remaining → s.remaining ≤ INT_MAX →
      copied (for_loop seg n i s).ops
          = copied s.ops + min s.remaining ((n : Int) * PAGE_SIZE) ∧
      (for_loop seg n i s).remaining
          = s.remaining - min s.remaining ((n : Int) * PAGE_SIZE) := by
  intro n
  induction n with
  | zero =>
    intro i s h0 h1
    simp [for_loop, h0]
  | succ n ih =>
    intro i s h0 h1
    obtain ⟨hr, -, hc⟩ := hseg i s
    have hk := copy_chunk_eq s.remaining h0 h1
    have h0n : 0 ≤ (seg i s).remaining := by
      rw [hr, hk]; unfold PAGE_SIZE; omega
    have h1n : (seg i s).remaining ≤ INT_MAX := by
      rw [hr, hk]; unfold PAGE_SIZE; omega
    obtain ⟨ih1, ih2⟩ := ih (i + 1) (seg i s) h0n h1n
    simp only [for_loop]
    rw [ih1, ih2, hc, hr, hk]
    unfold PAGE_SIZE
    push_cast
    constructor <;> omega

theorem copy_first_total (seg : Nat → CopyState → CopyState) (hseg : IsSeg seg)
    (n : Nat) (offset L : Int) (op : Memcpy)
    (ho : 0 ≤ offset) (hp : offset ≤ PAGE_SIZE) (hL : 0 ≤ L) (hm : L ≤ INT_MAX)
    (hop : op.len = copy_first_chunk offset L) :
    copied (for_loop seg n 1
        { pos := copy_first_chunk offset L, remaining := L - copy_first_chunk offset L,
          ops := [op] }).ops
      = min L ((PAGE_SIZE - offset) + (n : Int) * PAGE_SIZE) := by
  have hf := copy_first_chunk_eq offset L ho hp hL hm
  have h := (for_loop_seg_total seg hseg n 1
    { pos := copy_first_chunk offset L, remaining := L - copy_first_chunk offset L,
      ops := [op] }
    (by simp only [hf]; omega) (by simp only [hf]; omega)).1
  rw [h]
  simp only [copied, List.map_cons, List.map_nil, List.sum_cons, List.sum_nil, hop, hf]
  unfold PAGE_SIZE at *
  omega

/-- C1: for a request with `n` data pages, first-page offset in
`0 .. PAGE_SIZE` and a non-negative `transfer_buffer_length` `L`, the chunk
lengths copied by `copy_out_req` add up to `min L S`, where `S` is 0 for
`n = 0` and `(PAGE_SIZE - offset) + (n - 1) * PAGE_SIZE` otherwise. -/
theorem copy_out_req_total (req : pending_req)
    (ho : 0 ≤ req.offset) (hp : req.offset ≤ PAGE_SIZE)
    (hL : 0 ≤ req.urb.transfer_buffer_length)
    (hm : req.urb.transfer_buffer_length ≤ INT_MAX) :
    copied (copy_out_req req)
      = min req.urb.transfer_buffer_length (page_spans (data_pages req) req.offset) := by
  unfold copy_out_req page_spans
  by_cases hn : data_pages req = 0
  · simp [hn, copied, hL]
  · simp only [hn, if_false]
    rw [copy_first_total copy_out_seg copy_out_seg_isSeg _ _ _ _ ho hp hL hm rfl]
    have h1 : ((data_pages req - 1 : Nat) : Int) = (data_pages req : Int) - 1 := by omega
    rw [h1]

theorem copy_out_req_total_witness :
    copied (copy_out_req bulk_out_8192) = min 8192 (page_spans 3 4000) :=
  copy_out_req_total bulk_out_8192 (by decide) (by decide) (by decide) (by decide)

/-- C2 as stated fails: with one data page, first-page offset 4000 and
`actual_length` 200, `copy_in` writes 96 bytes into the guest page, not 200. -/
theorem copy_in_req_total_counterexample :
    copied (copy_in (fun s => s) bulk_in_200).ops = 96 ∧
      bulk_in_200.urb.actual_length = 200 := by
  decide

/-- C2, amended: for a non-isochronous IN request completed through the copy
buffer, with first-page offset in `0 .. PAGE_SIZE - 1`, the bytes written
into the guest pages add up to `min actual_length S`, `S` the sum of the page
spans; they add up to `actual_length` whenever `actual_length ≤ S`. -/
theorem copy_in_req_total (get_usb_status : Int → Int) (req : pending_req)
    (ht : req.type ≠ usbif_type.USBIF_T_ISOC) (hd : req.direction_in = true)
    (hsg : req.urb.sg = none)
    (ho : 0 ≤ req.offset) (hp : req.offset < PAGE_SIZE)
    (hL : 0 ≤ req.urb.actual_length) (hm : req.urb.actual_length ≤ INT_MAX) :
    copied (copy_in get_usb_status req).ops
        = min req.urb.actual_length (page_spans (data_pages req) req.offset) ∧
      (req.urb.actual_length ≤ page_spans (data_pages req) req.offset →
        copied (copy_in get_usb_status req).ops = req.urb.actual_length) := by
  have key : copied (copy_in get_usb_status req).ops
      = min req.urb.actual_length (page_spans (data_pages req) req.offset) := by
    simp only [copy_in, ht, if_false, hsg, hd, if_true]
    unfold copy_in_req page_spans
    by_cases hn : data_pages req = 0
    · simp [hn, copied, hL]
    · simp only [hn, if_false]
      rw [copy_first_total copy_in_seg copy_in_seg_isSeg _ _ _ _ ho (le_of_lt hp) hL hm rfl]
      have h1 : ((data_pages req - 1 : Nat) : Int) = (data_pages req : Int) - 1 := by omega
      rw [h1]
  refine ⟨key, fun h => ?_⟩
  rw [key]
  exact min_eq_left h

theorem copy_in_req_total_witness :
    copied (copy_in (fun s => s) bulk_in_18).ops
        = min bulk_in_18.urb.actual_length (page_spans (data_pages bulk_in_18) bulk_in_18.offset) ∧
      (bulk_in_18.urb.actual_length ≤ page_spans (data_pages bulk_in_18) bulk_in_18.offset →
        copied (copy_in (fun s => s) bulk_in_18).ops = bulk_in_18.urb.actual_length) :=
  copy_in_req_total (fun s => s) bulk_in_18 (by decide) (by decide) (by decide) (by decide)
    (by decide) (by decide) (by decide)

/-! ## Writes of the inbound copy stay inside the payload pages -/

theorem for_loop_in_page (N first : Nat) (offset : Int) :
    ∀ (n i : Nat) (s : CopyState), first < i → i + n ≤ N →
      0 ≤ s.remaining → s.remaining ≤ INT_MAX →
      (∀ c ∈ s.ops, InPage N first offset c) →
      ∀ c ∈ (for_loop copy_in_seg n i s).ops, InPage N first offset c := by
  intro n
  induction n with
  | zero =>
    intro i s _ _ _ _ h
    simpa [for_loop] using h
  | succ n ih =>
    intro i s hfi hN h0 h1 h
    have hk := copy_chunk_eq s.remaining h0 h1
    simp only [for_loop]
    apply ih (i + 1) (copy_in_seg i s) (by omega) (by omega)
    · simp only [copy_in_seg, hk]; unfold PAGE_SIZE; omega
    · simp only [copy_in_seg, hk]; unfold PAGE_SIZE; omega
    · intro c hc
      simp only [copy_in_seg, List.mem_append, List.mem_singleton] at hc
      rcases hc with hc | hc
      · exact h c hc
      · subst hc
        refine ⟨i, 0, rfl, le_of_lt hfi, by omega, ?_, le_refl 0, ?_, ?_⟩
        · have : i ≠ first := by omega
          simp [this]
        · simp only [hk]; unfold PAGE_SIZE; omega
        · simp only [hk]; unfold PAGE_SIZE; omega

theorem first_in_page (N first : Nat) (offset remaining : Int) (src : Addr)
    (hN : first < N) (ho : 0 ≤ offset) (hp : offset ≤ PAGE_SIZE)
    (hr : 0 ≤ remaining) (hm : remaining ≤ INT_MAX) :
    InPage N first offset ⟨Addr.page first offset, src, copy_first_chunk offset remaining⟩ := by
  have hf := copy_first_chunk_eq offset remaining ho hp hr hm
  refine ⟨first, offset, rfl, le_refl _, hN, by simp, ho, ?_, ?_⟩
  · simp only [hf]; omega
  · simp only [hf]; omega

/-- C7: with first-page offset in `0 .. PAGE_SIZE` and a non-negative byte
count, every chunk `copy_in_req` and `copy_in_iso` write goes to a guest page
with index below `data_pages`, starts at `offset` in the first payload page
(page 0, page 1 for isochronous) and at 0 in the later ones, and ends at or
before the end of that page. -/
theorem copy_in_stays_in_pages (req : pending_req) (remaining : Int)
    (ho : 0 ≤ req.offset) (hp : req.offset ≤ PAGE_SIZE)
    (hL : 0 ≤ req.urb.actual_length) (hm : req.urb.actual_length ≤ INT_MAX)
    (hr : 0 ≤ remaining) (hrm : remaining ≤ INT_MAX) :
    (∀ c ∈ copy_in_req req, InPage (data_pages req) 0 req.offset c) ∧
      (∀ c ∈ copy_in_iso req remaining, InPage (data_pages req) 1 req.offset c) := by
  constructor
  · unfold copy_in_req
    by_cases hn : data_pages req = 0
    · simp [hn]
    · simp only [hn, if_false]
      have hf := copy_first_chunk_eq req.offset req.urb.actual_length ho hp hL hm
      apply for_loop_in_page (data_pages req) 0 req.offset (data_pages req - 1) 1 _
        (by omega) (by omega)
      · simp only [hf]; omega
      · simp only [hf]; omega
      · intro c hc
        simp only [List.mem_singleton] at hc
        subst hc
        exact first_in_page (data_pages req) 0 req.offset _ _ (by omega) ho hp hL hm
  · unfold copy_in_iso
    by_cases hn : data_pages req < 2
    · simp [hn]
    · simp only [hn, if_false]
      have hf := copy_first_chunk_eq req.offset remaining ho hp hr hrm
      apply for_loop_in_page (data_pages req) 1 req.offset (data_pages req - 2) 2 _
        (by omega) (by omega)
      · simp only [hf]; omega
      · simp only [hf]; omega
      · intro c hc
        simp only [List.mem_singleton] at hc
        subst hc
        exact first_in_page (data_pages req) 1 req.offset _ _ (by omega) ho hp hr hrm

theorem copy_in_stays_in_pages_witness :
    (∀ c ∈ copy_in_req iso_in_3x188,
        InPage (data_pages iso_in_3x188) 0 iso_in_3x188.offset c) ∧
      (∀ c ∈ copy_in_iso iso_in_3x188 564,
        InPage (data_pages iso_in_3x188) 1 iso_in_3x188.offset c) :=
  copy_in_stays_in_pages iso_in_3x188 564 (by decide) (by decide) (by decide) (by decide)
    (by decide) (by decide)

/-! ## Isochronous descriptors -/

theorem toInt32_eq (x : Int) (h0 : 0 ≤ x) (h1 : x ≤ INT_MAX) : toInt32 x = x := by
  unfold toInt32
  unfold INT_MAX at h1
  omega

theorem copy_out_iso_descriptor_length (req : pending_req) (L : Int) :
    ∀ (n i : Nat) (s : DescState usb_iso_packet_descriptor),
      (L < (for_loop (copy_out_iso_descriptor req) n i s).length ↔
        L < s.length ∨ ∃ j, i ≤ j ∧ j < i + n ∧
          L < toInt32 ((req.info.getD j { offset := 0, length := 0, status := 0 }).offset
                + (req.info.getD j { offset := 0, length := 0, status := 0 }).length)) := by
  intro n
  induction n with
  | zero =>
    intro i s
    simp only [for_loop]
    constructor
    · intro h; exact Or.inl h
    · rintro (h | ⟨j, h1, h2, -⟩)
      · exact h
      · omega
  | succ n ih =>
    intro i s
    simp only [for_loop]
    rw [ih (i + 1) (copy_out_iso_descriptor req i s)]
    simp only [copy_out_iso_descriptor]
    constructor
    · rintro (h | ⟨j, h1, h2, h3⟩)
      · split_ifs at h with hc
        · exact Or.inr ⟨i, le_refl i, by omega, h⟩
        · exact Or.inl h
      · exact Or.inr ⟨j, by omega, by omega, h3⟩
    · rintro (h | ⟨j, h1, h2, h3⟩)
      · left
        split_ifs with hc
        · omega
        · exact h
      · by_cases hj : j = i
        · subst hj
          left
          split_ifs with hc
          · exact h3
          · omega
        · exact Or.inr ⟨j, by omega, by omega, h3⟩

/-- For an isochronous request whose packet descriptors lie in the descriptor
page (non-negative fields, each end fitting an `int`), `copy_out` returns
`-EINVAL` exactly when some packet's `offset + length` exceeds
`transfer_buffer_length`, and 0 in every other case. -/
theorem copy_out_iso_in_range (req : pending_req)
    (ht : req.type = usbif_type.USBIF_T_ISOC)
    (hinfo : req.nr_packets ≤ req.info.length)
    (hpage : data_pages req = 0 → req.info = [])
    (hrange : ∀ d ∈ req.info, 0 ≤ d.offset ∧ 0 ≤ d.length ∧ d.offset + d.length ≤ INT_MAX)
    (hL : 0 ≤ req.urb.transfer_buffer_length) :
    ((copy_out req).ret = -EINVAL ↔
        ∃ (i : Nat) (d : usbif_iso_packet_info), i < req.nr_packets ∧ req.info[i]? = some d ∧
          req.urb.transfer_buffer_length < d.offset + d.length) ∧
      ((copy_out req).ret ≠ -EINVAL → (copy_out req).ret = 0) := by
  have hdesc : (req.urb.transfer_buffer_length < (copy_out_iso_descriptors req).1 ↔
      ∃ (i : Nat) (d : usbif_iso_packet_info), i < req.nr_packets ∧ req.info[i]? = some d ∧
          req.urb.transfer_buffer_length < d.offset + d.length) := by
    unfold copy_out_iso_descriptors
    by_cases hn : data_pages req = 0
    · have hnil := hpage hn
      have h0 : req.nr_packets = 0 := by
        rw [hnil] at hinfo
        simpa using hinfo
      simp only [hn, if_true]
      constructor
      · intro h; omega
      · rintro ⟨i, d, hi, -, -⟩; omega
    · simp only [hn, if_false]
      rw [copy_out_iso_descriptor_length req _ req.nr_packets 0]
      constructor
      · rintro (h | ⟨j, -, hj, h⟩)
        · simp only at h
          omega
        · have hjl : j < req.info.length := by omega
          have hget : req.info[j]? = some req.info[j] := List.getElem?_eq_getElem hjl
          have hD : req.info.getD j { offset := 0, length := 0, status := 0 } = req.info[j] := by
            simp [List.getD, hget]
          rw [hD] at h
          obtain ⟨r1, r2, r3⟩ := hrange req.info[j] (List.getElem_mem hjl)
          rw [toInt32_eq _ (by omega) r3] at h
          exact ⟨j, req.info[j], by omega, hget, h⟩
      · rintro ⟨i, d, hi, hget, h⟩
        right
        have hD : req.info.getD i { offset := 0, length := 0, status := 0 } = d := by
          simp [List.getD, hget]
        have hmem : d ∈ req.info := List.getElem?_mem hget
        obtain ⟨r1, r2, r3⟩ := hrange d hmem
        refine ⟨i, Nat.zero_le i, by omega, ?_⟩
        rw [hD, toInt32_eq _ (by omega) r3]
        exact h
  have hret : (copy_out req).ret =
      if req.urb.transfer_buffer_length < (copy_out_iso_descriptors req).1 then -EINVAL else 0 := by
    simp only [copy_out, ht, if_true, gt_iff_lt]
    by_cases h1 : req.urb.transfer_buffer_length < (copy_out_iso_descriptors req).1
    · simp only [h1, if_true]
    · simp only [h1, if_false]
      cases hsg : req.urb.sg with
      | some sgs => rfl
      | none =>
        by_cases hd : req.direction_in = true
        · simp [hd]
        · simp [hd]
  rw [hret]
  constructor
  · rw [← hdesc]
    split_ifs with h
    · simp [h]
    · simp [h, EINVAL]
  · intro h
    split_ifs at h ⊢ with h1
    · exact absurd rfl h
    · rfl

theorem copy_out_iso_ret (req : pending_req) (ht : req.type = usbif_type.USBIF_T_ISOC) :
    (copy_out req).ret =
      if req.urb.transfer_buffer_length < (copy_out_iso_descriptors req).1 then -EINVAL
      else 0 := by
  simp only [copy_out, ht, if_true, gt_iff_lt]
  by_cases h1 : req.urb.transfer_buffer_length < (copy_out_iso_descriptors req).1
  · simp only [h1, if_true]
  · simp only [h1, if_false]
    cases hsg : req.urb.sg with
    | some sgs => rfl
    | none =>
      by_cases hd : req.direction_in = true
      · simp [hd]
      · simp [hd]

/-- What `copy_out` returns for an isochronous request, whatever the
descriptors hold: `-EINVAL` exactly when there is a descriptor page and, for
one of the `nr_packets` packets, the `int` the sum `offset + length` is
stored in exceeds `transfer_buffer_length`; 0 otherwise. -/
theorem copy_out_iso_exact (req : pending_req) (ht : req.type = usbif_type.USBIF_T_ISOC)
    (hL : 0 ≤ req.urb.transfer_buffer_length) :
    ((copy_out req).ret = -EINVAL ↔
        data_pages req ≠ 0 ∧ ∃ i, i < req.nr_packets ∧
          req.urb.transfer_buffer_length
            < toInt32 ((req.info.getD i { offset := 0, length := 0, status := 0 }).offset
                + (req.info.getD i { offset := 0, length := 0, status := 0 }).length)) ∧
      ((copy_out req).ret ≠ -EINVAL → (copy_out req).ret = 0) := by
  have hdesc : (req.urb.transfer_buffer_length < (copy_out_iso_descriptors req).1 ↔
      data_pages req ≠ 0 ∧ ∃ i, i < req.nr_packets ∧
        req.urb.transfer_buffer_length
          < toInt32 ((req.info.getD i { offset := 0, length := 0, status := 0 }).offset
              + (req.info.getD i { offset := 0, length := 0, status := 0 }).length)) := by
    unfold copy_out_iso_descriptors
    by_cases hn : data_pages req = 0
    · simp only [hn, if_true]
      constructor
      · intro h; omega
      · rintro ⟨h, -⟩; exact absurd rfl h
    · simp only [hn, if_false]
      rw [copy_out_iso_descriptor_length req _ req.nr_packets 0]
      constructor
      · rintro (h | ⟨j, -, hj, h⟩)
        · simp only at h
          omega
        · exact ⟨hn, j, by omega, h⟩
      · rintro ⟨-, i, hi, h⟩
        exact Or.inr ⟨i, Nat.zero_le i, by omega, h⟩
  rw [copy_out_iso_ret req ht]
  constructor
  · rw [← hdesc]
    split_ifs with h
    · simp [h]
    · simp [h, EINVAL]
  · intro h
    split_ifs at h ⊢ with h1
    · exact absurd rfl h
    · rfl

/-- C3: the check of `copy_out` on the isochronous descriptors is made on the
`int` that `offset + length` is stored in, so it misses a packet whose sum
does not fit.  For the request with one packet of offset 2147483647 and
length 1 against a transfer buffer of 1024 bytes, `offset + length` exceeds
the buffer length, yet `copy_out` returns 0 and hands the descriptor on in
`urb->iso_frame_desc`: `end` has wrapped to `INT_MIN`.  In general `copy_out`
returns `-EINVAL` exactly when the wrapped sum of some packet exceeds
`transfer_buffer_length`, and 0 otherwise; this is the largest
`offset + length` exceeding the buffer length only as long as the fields
are non-negative and each sum fits an `int`. -/
theorem copy_out_iso_wraps :
    ((copy_out iso_out_wrapping).ret = 0 ∧
      iso_out_wrapping.urb.transfer_buffer_length = 1024 ∧
      iso_out_wrapping.info = [{ offset := 2147483647, length := 1, status := 0 }] ∧
      toInt32 (2147483647 + 1) = -2147483648 ∧
      (copy_out iso_out_wrapping).req.urb.iso_frame_desc
        = [{ offset := 2147483647, length := 1, actual_length := 0, status := 0 }]) ∧
      (∀ req : pending_req, req.type = usbif_type.USBIF_T_ISOC →
        0 ≤ req.urb.transfer_buffer_length →
        ((copy_out req).ret = -EINVAL ↔
          data_pages req ≠ 0 ∧ ∃ i, i < req.nr_packets ∧
            req.urb.transfer_buffer_length
              < toInt32 ((req.info.getD i { offset := 0, length := 0, status := 0 }).offset
                  + (req.info.getD i { offset := 0, length := 0, status := 0 }).length)) ∧
          ((copy_out req).ret ≠ -EINVAL → (copy_out req).ret = 0)) ∧
      (∀ req : pending_req, req.type = usbif_type.USBIF_T_ISOC →
        req.nr_packets ≤ req.info.length → (data_pages req = 0 → req.info = []) →
        (∀ d ∈ req.info, 0 ≤ d.offset ∧ 0 ≤ d.length ∧ d.offset + d.length ≤ INT_MAX) →
        0 ≤ req.urb.transfer_buffer_length →
        ((copy_out req).ret = -EINVAL ↔
          ∃ (i : Nat) (d : usbif_iso_packet_info), i < req.nr_packets ∧
            req.info[i]? = some d ∧ req.urb.transfer_buffer_length < d.offset + d.length)) := by
  refine ⟨by decide, ?_, ?_⟩
  · intro req ht hL
    exact copy_out_iso_exact req ht hL
  · intro req ht hinfo hpage hrange hL
    exact (copy_out_iso_in_range req ht hinfo hpage hrange hL).1

theorem copy_out_iso_wraps_witness :
    ((copy_out iso_out_short_buffer).ret = -EINVAL ↔
        ∃ (i : Nat) (d : usbif_iso_packet_info), i < iso_out_short_buffer.nr_packets ∧
          iso_out_short_buffer.info[i]? = some d ∧
          iso_out_short_buffer.urb.transfer_buffer_length < d.offset + d.length) ∧
      (copy_out iso_out_short_buffer).ret = -EINVAL :=
  ⟨copy_out_iso_wraps.2.2 iso_out_short_buffer (by decide) (by decide) (by decide) (by decide)
      (by decide),
    by decide⟩

/-! ## The device map holds at most one live entry per pair -/

theorem live_entries_cons (b d : Int) (m : vusb_map) (t : List vusb_map) :
    live_entries b d (m :: t)
      = live_entries b d t + (if m.vusb ≠ 0 ∧ m.bus = b ∧ m.device = d then 1 else 0) := by
  unfold live_entries
  rw [List.countP_cons]
  simp

theorem live_entries_flush_dups_le (bus device b d : Int) (t : List vusb_map) :
    live_entries b d (flush_dups bus device t) ≤ live_entries b d t := by
  induction t with
  | nil => simp [flush_dups]
  | cons m rest ih =>
    simp only [flush_dups, live_entries_cons]
    by_cases hm : m.bus = bus ∧ m.device = device
    · simp only [hm, and_self, if_true]
      have : ¬ ((0 : Nat) ≠ 0 ∧ (0 : Int) = b ∧ (0 : Int) = d) := by simp
      simp only [this, if_false]
      omega
    · simp only [hm, if_false]
      omega

theorem live_entries_flush_dups_self (bus device : Int) (t : List vusb_map) :
    live_entries bus device (flush_dups bus device t) = 0 := by
  induction t with
  | nil => simp [flush_dups, live_entries]
  | cons m rest ih =>
    simp only [flush_dups, live_entries_cons, ih]
    by_cases hm : m.bus = bus ∧ m.device = device
    · simp [hm]
    · simp only [hm, if_false]
      have : ¬ (m.vusb ≠ 0 ∧ m.bus = bus ∧ m.device = device) := fun h => hm h.2
      simp [this]

theorem live_entries_map_self (vusb : Nat) (bus device : Int) (t : List vusb_map) :
    live_entries bus device (vusb_map_device vusb bus device t).2 ≤ 1 := by
  induction t with
  | nil => simp [vusb_map_device, live_entries]
  | cons m rest ih =>
    simp only [vusb_map_device]
    by_cases hm : m.vusb = 0 ∨ (m.bus = bus ∧ m.device = device)
    · simp only [hm, if_true, live_entries_cons, live_entries_flush_dups_self]
      split_ifs <;> omega
    · simp only [hm, if_false, live_entries_cons]
      have : ¬ (m.vusb ≠ 0 ∧ m.bus = bus ∧ m.device = device) := fun h => hm (Or.inr h.2)
      simp only [this, if_false]
      omega

theorem live_entries_map_other (vusb : Nat) (bus device b d : Int)
    (hne : ¬ (bus = b ∧ device = d)) (t : List vusb_map) :
    live_entries b d (vusb_map_device vusb bus device t).2 ≤ live_entries b d t := by
  induction t with
  | nil => simp [vusb_map_device]
  | cons m rest ih =>
    simp only [vusb_map_device]
    by_cases hm : m.vusb = 0 ∨ (m.bus = bus ∧ m.device = device)
    · simp only [hm, if_true, live_entries_cons]
      have h1 : ¬ (vusb ≠ 0 ∧ bus = b ∧ device = d) := fun h => hne h.2
      simp only [h1, if_false]
      have h2 := live_entries_flush_dups_le bus device b d rest
      omega
    · simp only [hm, if_false, live_entries_cons]
      omega

theorem live_entries_unmap_le (vusb : Nat) (b d : Int) (t : List vusb_map) :
    live_entries b d (vusb_unmap_device vusb t).2 ≤ live_entries b d t := by
  induction t with
  | nil => simp [vusb_unmap_device]
  | cons m rest ih =>
    simp only [vusb_unmap_device]
    by_cases hm : m.vusb = vusb
    · simp only [hm, if_true, live_entries_cons]
      have : ¬ ((0 : Nat) ≠ 0 ∧ (0 : Int) = b ∧ (0 : Int) = d) := by simp
      simp only [this, if_false]
      omega
    · simp only [hm, if_false, live_entries_cons]
      omega

theorem live_entries_apply (op : MapOp) (b d : Int) (t : List vusb_map)
    (h : live_entries b d t ≤ 1) : live_entries b d (op.apply t) ≤ 1 := by
  cases op with
  | map v bus device =>
    simp only [MapOp.apply]
    by_cases hk : bus = b ∧ device = d
    · obtain ⟨h1, h2⟩ := hk
      subst h1 h2
      exact live_entries_map_self v bus device t
    · exact le_trans (live_entries_map_other v bus device b d hk t) h
  | unmap v =>
    simp only [MapOp.apply]
    exact le_trans (live_entries_unmap_le v b d t) h

theorem live_entries_run (ops : List MapOp) (b d : Int) :
    ∀ t : List vusb_map, live_entries b d t ≤ 1 → live_entries b d (run_map_ops ops t) ≤ 1 := by
  induction ops with
  | nil => intro t h; simpa [run_map_ops] using h
  | cons op ops ih =>
    intro t h
    simp only [run_map_ops, List.foldl_cons]
    exact ih (op.apply t) (live_entries_apply op b d t h)

theorem live_entries_init (b d : Int) : live_entries b d vusb_map_init = 0 := by
  unfold live_entries vusb_map_init
  rw [List.countP_eq_zero]
  intro m hm
  rw [List.mem_replicate] at hm
  simp [hm.2]

/-- C4: starting from the empty 512-slot table, after every sequence of
`vusb_map_device` and `vusb_unmap_device` calls and for every (bus, device)
pair, at most one slot holds a non-NULL record with that bus and device. -/
theorem vusb_map_unique (ops : List MapOp) (bus device : Int) :
    vusb_map_init.length = 512 ∧
      live_entries bus device (run_map_ops ops vusb_map_init) ≤ 1 := by
  refine ⟨by unfold vusb_map_init; rw [List.length_replicate]; rfl, ?_⟩
  apply live_entries_run
  rw [live_entries_init]
  exact Nat.zero_le 1

/-- C5: after `vusb_flush` the `canceling_requests` flag is 0 and the anchor
set is empty, every transfer that was anchored having been killed; a second
`vusb_flush` leaves the state of the first. -/
theorem vusb_flush_clears (w : World) :
    (vusb_flush w).usbif.vusb.canceling_requests = 0 ∧
      (vusb_flush w).usbif.vusb.anchor = [] ∧
      (∀ id ∈ w.usbif.vusb.anchor, HostCall.kill_urb id ∈ (vusb_flush w).calls) ∧
      vusb_flush (vusb_flush w) = vusb_flush w := by
  refine ⟨rfl, rfl, ?_, ?_⟩
  · intro id hid
    simp only [vusb_flush, usb_kill_anchored_urbs, set_canceling_requests, List.mem_append,
      List.mem_map]
    exact Or.inr ⟨id, hid, rfl⟩
  · simp [vusb_flush, usb_kill_anchored_urbs, set_canceling_requests]

/-! ## SET_CONFIGURATION of the active configuration -/

theorem config_lookup_first (v : Int) :
    ∀ (l : List usb_host_config) (i k : Nat),
      (∃ c, l[k]? = some c ∧ (c.desc.bConfigurationValue : Int) = v) →
      (∀ (j : Nat) (c : usb_host_config), j < k → l[j]? = some c →
        (c.desc.bConfigurationValue : Int) ≠ v) →
      config_lookup v i l = some (i + k) := by
  intro l
  induction l with
  | nil =>
    intro i k h _
    obtain ⟨c, hc, -⟩ := h
    simp at hc
  | cons c0 cs ih =>
    intro i k h hfirst
    cases k with
    | zero =>
      obtain ⟨c, hc, hv⟩ := h
      simp only [List.getElem?_cons_zero, Option.some.injEq] at hc
      subst hc
      simp [config_lookup, hv]
    | succ k =>
      have h0 : (c0.desc.bConfigurationValue : Int) ≠ v :=
        hfirst 0 c0 (Nat.succ_pos k) (by simp)
      obtain ⟨c, hc, hv⟩ := h
      simp only [List.getElem?_cons_succ] at hc
      have hrec := ih (i + 1) k ⟨c, hc, hv⟩
        (fun j c hj hjc => hfirst (j + 1) c (by omega) (by simpa using hjc))
      simp only [config_lookup, h0, if_false, hrec]
      congr 1
      omega

theorem config_lookup_active (dev : usb_device) (v : Int) (k : Nat)
    (h : first_with_value dev v k) :
    config_lookup v 0 (dev.config.take dev.bNumConfigurations) = some k := by
  obtain ⟨hk, ⟨c, hc, hv⟩, hfirst⟩ := h
  have := config_lookup_first v (dev.config.take dev.bNumConfigurations) 0 k
    ⟨c, by rw [List.getElem?_take_of_lt hk]; exact hc, hv⟩
    (fun j c hj hjc => hfirst j c hj (by
      rw [List.getElem?_take_of_lt (by omega)] at hjc
      exact hjc))
  simpa using this

theorem maybe_set_configuration_active (host : Host) (dev : usb_device) (v : Int)
    (h : active_value dev v) : maybe_set_configuration host dev v = (0, dev, []) := by
  obtain ⟨k, hact, hfirst⟩ := h
  have hl := config_lookup_active dev v k hfirst
  simp [maybe_set_configuration, hl, hact]

theorem config_lookup_some (v : Int) :
    ∀ (l : List usb_host_config) (i k : Nat), config_lookup v i l = some k →
      ∃ k0, k = i + k0 ∧
        (∃ c, l[k0]? = some c ∧ (c.desc.bConfigurationValue : Int) = v) ∧
        ∀ (j : Nat) (c : usb_host_config), j < k0 → l[j]? = some c →
          (c.desc.bConfigurationValue : Int) ≠ v := by
  intro l
  induction l with
  | nil => intro i k h; simp [config_lookup] at h
  | cons c0 cs ih =>
    intro i k h
    by_cases hv : (c0.desc.bConfigurationValue : Int) = v
    · simp only [config_lookup, hv, if_true, Option.some.injEq] at h
      exact ⟨0, by omega, ⟨c0, by simp, hv⟩, fun j _ hj _ => absurd hj (Nat.not_lt_zero j)⟩
    · simp only [config_lookup, hv, if_false] at h
      obtain ⟨k0, hk, hc, hfirst⟩ := ih (i + 1) k h
      refine ⟨k0 + 1, by omega, by simpa using hc, ?_⟩
      intro j c hj hjc
      cases j with
      | zero =>
        simp only [List.getElem?_cons_zero, Option.some.injEq] at hjc
        subst hjc
        exact hv
      | succ j => exact hfirst j c (by omega) (by simpa using hjc)

/-- The host of the examples leaves the configuration it was asked for active
whenever it reports success for a non-zero value. -/
theorem example_host_activates (d : usb_device) (v : Int) (hv : v ≠ 0)
    (h : (example_host.usb_set_configuration d v).1 = 0) :
    active_value (example_host.usb_set_configuration d v).2 v := by
  simp only [example_host, hv, if_false] at h ⊢
  cases hl : config_lookup v 0 (d.config.take d.bNumConfigurations) with
  | none =>
    simp only [hl] at h
    exact absurd h (by decide)
  | some k =>
    simp only [hl]
    obtain ⟨k0, hk, ⟨c, hc, hcv⟩, hfirst⟩ := config_lookup_some v _ 0 k hl
    have hk0 : k = k0 := by omega
    subst hk0
    rw [List.getElem?_take] at hc
    have hlt : k < d.bNumConfigurations := by
      by_contra hcon
      simp [hcon] at hc
    simp only [hlt, if_true] at hc
    refine ⟨k, rfl, hlt, ⟨c, hc, hcv⟩, ?_⟩
    intro j cj hj hjc
    exact hfirst j cj hj (by rw [List.getElem?_take_of_lt (by omega)]; exact hjc)

/-- C6 as stated fails in its last part: on a device whose only configuration
has value 1, two successive set-configuration calls with value 0 reach the
host twice (both succeed), and so do two calls with value 2 (both refused). -/
theorem set_configuration_twice_counterexample :
    set_configuration_twice example_host example_device 0
        = [HostCall.set_configuration 0, HostCall.set_configuration 0] ∧
      (maybe_set_configuration example_host example_device 0).1 = 0 ∧
      set_configuration_twice example_host example_device 2
        = [HostCall.set_configuration 2, HostCall.set_configuration 2] := by
  decide

theorem config_lookup_none (v : Int) :
    ∀ (l : List usb_host_config) (i : Nat),
      (∀ c ∈ l, (c.desc.bConfigurationValue : Int) ≠ v) → config_lookup v i l = none := by
  intro l
  induction l with
  | nil => intro i _; rfl
  | cons c0 cs ih =>
    intro i h
    have h0 : (c0.desc.bConfigurationValue : Int) ≠ v := h c0 (by simp)
    simp only [config_lookup, h0, if_false]
    exact ih (i + 1) (fun c hc => h c (by simp [hc]))

/-- A call with a value that no configuration of the device carries goes to the
host. -/
theorem maybe_set_configuration_uncarried (host : Host) (dev : usb_device) (v : Int)
    (h : ¬ carries_value dev v) :
    maybe_set_configuration host dev v = dusb_set_configuration host dev v := by
  have hl : config_lookup v 0 (dev.config.take dev.bNumConfigurations) = none :=
    config_lookup_none v _ 0 (fun c hc hv => h ⟨c, hc, hv⟩)
  unfold maybe_set_configuration
  rw [hl]
  simp

/-- C6, amended: when the first configuration whose `bConfigurationValue` is
`v` is the active one, `maybe_set_configuration` returns 0 without a host
call, and a device-recipient SET_CONFIGURATION(`v`) makes `setup_control_urb`
return 1 with no host call.  Two successive set-configuration calls with the
same `v` issue the host call at most once when the first call returns 0 and a
host call that returns 0 leaves that configuration active.  A call with a
value that none of the configurations of the device carries (0 included)
always reaches the host: its result is that of `usb_set_configuration` and
its one host call is that call; two successive calls with such a value, the
host leaving the value uncarried, reach the host twice. -/
theorem set_configuration_active_noop (host : Host) (w : World) (req : usbif_request)
    (u : urb) (usbdev : usb_device)
    (hdev : w.usbif.vusb.usbdev = some usbdev)
    (hrecip : bRequestType req.setup &&& USB_RECIP_MASK = USB_RECIP_DEVICE)
    (hreq : bRequest req.setup = USB_REQ_SET_CONFIGURATION)
    (hact : active_value usbdev (wValue req.setup)) :
    maybe_set_configuration host usbdev (wValue req.setup) = (0, usbdev, []) ∧
      (setup_control_urb host w req u).ret = 1 ∧
      (setup_control_urb host w req u).world.calls = w.calls ∧
      (∀ (dev : usb_device) (v : Int),
        (∀ d, (host.usb_set_configuration d v).1 = 0 →
          active_value (host.usb_set_configuration d v).2 v) →
        (maybe_set_configuration host dev v).1 = 0 →
        (set_configuration_twice host dev v).length ≤ 1) ∧
      (∀ (dev : usb_device) (v : Int), ¬ carries_value dev v →
        maybe_set_configuration host dev v
            = ((host.usb_set_configuration dev v).1, (host.usb_set_configuration dev v).2,
                [HostCall.set_configuration v]) ∧
          (¬ carries_value (host.usb_set_configuration dev v).2 v →
            set_configuration_twice host dev v
              = [HostCall.set_configuration v, HostCall.set_configuration v])) := by
  have hm := maybe_set_configuration_active host usbdev (wValue req.setup) hact
  have hne : ¬ (USB_REQ_SET_CONFIGURATION = USB_REQ_CLEAR_FEATURE) := by decide
  refine ⟨hm, ?_, ?_, ?_, ?_⟩
  · simp [setup_control_urb, hdev, hrecip, hreq, hne, hm]
  · simp [setup_control_urb, hdev, hrecip, hreq, hne, hm]
  · intro dev v hhost hfirst
    unfold set_configuration_twice
    by_cases hc : (config_lookup v 0 (dev.config.take dev.bNumConfigurations)).isSome ∧
        config_lookup v 0 (dev.config.take dev.bNumConfigurations) = dev.actconfig
    · have h1 : maybe_set_configuration host dev v = (0, dev, []) := by
        unfold maybe_set_configuration
        exact if_pos hc
      simp [h1]
    · have h1 : maybe_set_configuration host dev v = dusb_set_configuration host dev v := by
        unfold maybe_set_configuration
        exact if_neg hc
      rw [h1] at hfirst ⊢
      simp only [dusb_set_configuration] at hfirst ⊢
      have h2 := maybe_set_configuration_active host (host.usb_set_configuration dev v).2 v
        (hhost dev hfirst)
      simp [h2]
  · intro dev v hnc
    have h1 := maybe_set_configuration_uncarried host dev v hnc
    refine ⟨by rw [h1]; rfl, ?_⟩
    intro hnc2
    have h2 := maybe_set_configuration_uncarried host (host.usb_set_configuration dev v).2 v hnc2
    unfold set_configuration_twice
    simp only [h1, dusb_set_configuration, h2, List.singleton_append]

theorem example_device_active : active_value example_device 1 :=
  ⟨0, rfl, by decide, ⟨_, rfl, rfl⟩, fun j _ hj _ => absurd hj (Nat.not_lt_zero j)⟩

theorem example_device_lacks_two : ¬ carries_value example_device 2 := by
  rintro ⟨c, hc, hv⟩
  simp only [example_device, List.take_succ_cons, List.take_zero, List.mem_singleton] at hc
  subst hc
  simp at hv

theorem set_configuration_active_noop_witness :
    maybe_set_configuration example_host example_device (wValue (set_configuration_req 1).setup)
        = (0, example_device, []) ∧
      (setup_control_urb example_host example_world (set_configuration_req 1)
        (example_urb 0)).ret = 1 ∧
      (setup_control_urb example_host example_world (set_configuration_req 1)
        (example_urb 0)).world.calls = example_world.calls ∧
      (set_configuration_twice example_host { example_device with actconfig := none } 1).length
        ≤ 1 ∧
      maybe_set_configuration example_host example_device 2
        = ((example_host.usb_set_configuration example_device 2).1,
            (example_host.usb_set_configuration example_device 2).2,
            [HostCall.set_configuration 2]) :=
  have h := set_configuration_active_noop example_host example_world (set_configuration_req 1)
    (example_urb 0) example_device rfl (by decide) (by decide) example_device_active
  ⟨h.1, h.2.1, h.2.2.1,
    h.2.2.2.1 { example_device with actconfig := none } 1
      (fun d hd => example_host_activates d 1 (by decide) hd) (by decide),
    (h.2.2.2.2 example_device 2 example_device_lacks_two).1⟩

/-! ## Statistics -/

/-- C9 as stated fails: SET_CONFIGURATION(1) on a device whose active
configuration is 1 makes `setup_control_urb` return 1 with `st_cntrl_req`
still at its old value 0. -/
theorem set_configuration_stats_counterexample :
    (setup_control_urb example_host example_world (set_configuration_req 1)
        (example_urb 0)).ret = 1 ∧
      example_world.usbif.stats.st_cntrl_req = 0 ∧
      (setup_control_urb example_host example_world (set_configuration_req 1)
        (example_urb 0)).world.usbif.stats.st_cntrl_req = 0 := by
  decide

/-- C9, amended: when a device-recipient SET_CONFIGURATION names the
configuration that is already active, `setup_control_urb` returns 1 before it
reaches the statistics: `st_cntrl_req` and every other counter keep their
values. -/
theorem set_configuration_active_stats (host : Host) (w : World) (req : usbif_request)
    (u : urb) (usbdev : usb_device)
    (hdev : w.usbif.vusb.usbdev = some usbdev)
    (hrecip : bRequestType req.setup &&& USB_RECIP_MASK = USB_RECIP_DEVICE)
    (hreq : bRequest req.setup = USB_REQ_SET_CONFIGURATION)
    (hact : active_value usbdev (wValue req.setup)) :
    (setup_control_urb host w req u).ret = 1 ∧
      (setup_control_urb host w req u).world.usbif.stats.st_cntrl_req
        = w.usbif.stats.st_cntrl_req ∧
      (setup_control_urb host w req u).world.usbif.stats = w.usbif.stats := by
  have hm := maybe_set_configuration_active host usbdev (wValue req.setup) hact
  have hne : ¬ (USB_REQ_SET_CONFIGURATION = USB_REQ_CLEAR_FEATURE) := by decide
  have hs : (setup_control_urb host w req u).world.usbif.stats = w.usbif.stats := by
    simp [setup_control_urb, hdev, hrecip, hreq, hne, hm, set_usbdev]
  refine ⟨?_, ?_, hs⟩
  · simp [setup_control_urb, hdev, hrecip, hreq, hne, hm]
  · rw [hs]

theorem set_configuration_active_stats_witness :
    (setup_control_urb example_host example_world (set_configuration_req 1)
        (example_urb 0)).ret = 1 ∧
      (setup_control_urb example_host example_world (set_configuration_req 1)
        (example_urb 0)).world.usbif.stats.st_cntrl_req
        = example_world.usbif.stats.st_cntrl_req ∧
      (setup_control_urb example_host example_world (set_configuration_req 1)
        (example_urb 0)).world.usbif.stats = example_world.usbif.stats :=
  set_configuration_active_stats example_host example_world (set_configuration_req 1)
    (example_urb 0) example_device rfl (by decide) (by decide)
    ⟨0, rfl, by decide, ⟨_, rfl, rfl⟩, fun j _ hj _ => absurd hj (Nat.not_lt_zero j)⟩

theorem control_tail_ret (w : World) (usbdev : usb_device) (req : usbif_request) (u : urb)
    (ret : Int) : (control_tail w usbdev req u ret).ret = ret := by
  unfold control_tail
  split_ifs <;> rfl

theorem control_tail_stats (w : World) (usbdev : usb_device) (req : usbif_request) (u : urb)
    (ret : Int) :
    (control_tail w usbdev req u ret).world.usbif.stats
      = count_type USB_ENDPOINT_XFER_CONTROL (count_direction req.dir_in w.usbif.stats) := by
  unfold control_tail count_direction count_type
  by_cases hd : req.dir_in = true
  · simp [hd, set_stats]
  · simp [hd, set_stats]

theorem setup_control_urb_stats (host : Host) (w : World) (req : usbif_request) (u : urb)
    (usbdev : usb_device) (hdev : w.usbif.vusb.usbdev = some usbdev)
    (hret : (setup_control_urb host w req u).ret = 0) :
    (setup_control_urb host w req u).world.usbif.stats
      = count_type USB_ENDPOINT_XFER_CONTROL (count_direction req.dir_in w.usbif.stats) := by
  unfold setup_control_urb at hret ⊢
  simp only [hdev] at hret ⊢
  split_ifs at hret ⊢ <;>
    first
    | (exact absurd hret (by simp))
    | (rw [control_tail_stats]; try rfl)

theorem vusb_device_usbdev (v : vusb) (usbdev : usb_device)
    (h : vusb_device v = some usbdev) : v.usbdev = some usbdev := by
  unfold vusb_device at h
  split_ifs at h
  cases hu : v.usbdev with
  | none => simp [hu] at h
  | some d =>
    simp only [hu] at h
    split_ifs at h
    exact h

theorem setup_isoc_urb_stats (w : World) (req : usbif_request) (u : urb)
    (ep : usb_host_endpoint) (usbdev : usb_device) (hdev : w.usbif.vusb.usbdev = some usbdev) :
    (setup_isoc_urb w req u ep).world.usbif.stats
      = count_type USB_ENDPOINT_XFER_ISOC (count_direction req.dir_in w.usbif.stats) := by
  unfold setup_isoc_urb count_direction count_type
  by_cases hd : req.dir_in = true
  · simp [hdev, hd, set_stats, USB_ENDPOINT_XFER_ISOC, USB_ENDPOINT_XFER_CONTROL]
  · simp [hdev, hd, set_stats, USB_ENDPOINT_XFER_ISOC, USB_ENDPOINT_XFER_CONTROL]

theorem setup_bulk_urb_stats (w : World) (req : usbif_request) (u : urb)
    (usbdev : usb_device) (hdev : w.usbif.vusb.usbdev = some usbdev) :
    (setup_bulk_urb w req u).world.usbif.stats
      = count_type USB_ENDPOINT_XFER_BULK (count_direction req.dir_in w.usbif.stats) := by
  unfold setup_bulk_urb count_direction count_type
  by_cases hd : req.dir_in = true
  · simp [hdev, hd, set_stats, USB_ENDPOINT_XFER_ISOC, USB_ENDPOINT_XFER_CONTROL,
      USB_ENDPOINT_XFER_BULK]
  · simp [hdev, hd, set_stats, USB_ENDPOINT_XFER_ISOC, USB_ENDPOINT_XFER_CONTROL,
      USB_ENDPOINT_XFER_BULK]

theorem setup_int_urb_stats (w : World) (req : usbif_request) (u : urb)
    (ep : usb_host_endpoint) (usbdev : usb_device) (hdev : w.usbif.vusb.usbdev = some usbdev)
    (xfer : Nat) (h0 : xfer ≠ USB_ENDPOINT_XFER_CONTROL) (h1 : xfer ≠ USB_ENDPOINT_XFER_ISOC)
    (h2 : xfer ≠ USB_ENDPOINT_XFER_BULK) :
    (setup_int_urb w req u ep).world.usbif.stats
      = count_type xfer (count_direction req.dir_in w.usbif.stats) := by
  unfold setup_int_urb count_direction count_type
  by_cases hd : req.dir_in = true
  · simp [hdev, hd, set_stats, h0, h1, h2]
  · simp [hdev, hd, set_stats, h0, h1, h2]

theorem vusb_setup_urb_stats (host : Host) (w : World) (req : usbif_request) (u : urb)
    (hret : (vusb_setup_urb host w req u).ret = 0) :
    ∃ (usbdev : usb_device) (ep : usb_host_endpoint),
      vusb_device w.usbif.vusb = some usbdev ∧ request_endpoint usbdev req = some ep ∧
      (vusb_setup_urb host w req u).world.usbif.stats
        = count_type (ep.desc.bmAttributes &&& USB_ENDPOINT_XFERTYPE_MASK)
            (count_direction req.dir_in w.usbif.stats) := by
  unfold vusb_setup_urb at hret ⊢
  cases hv : vusb_device w.usbif.vusb with
  | none =>
    simp only [hv] at hret
    exact absurd hret (by simp [ENODEV, ENOENT])
  | some usbdev =>
    have hdev := vusb_device_usbdev _ _ hv
    simp only [hv] at hret ⊢
    by_cases hs : usbdev.state ≠ usb_device_state.USB_STATE_ADDRESS ∧
        usbdev.state ≠ usb_device_state.USB_STATE_CONFIGURED
    · rw [if_pos hs] at hret
      exact absurd hret (by simp [ENODEV, ENOENT])
    · rw [if_neg hs] at hret ⊢
      cases hep : (if req.dir_in = true then usbdev.ep_in.getD req.endpoint_num none
          else usbdev.ep_out.getD req.endpoint_num none) with
      | none =>
        simp only [hep] at hret
        exact absurd hret (by simp [ENODEV, ENOENT])
      | some ep =>
        simp only [hep] at hret ⊢
        refine ⟨usbdev, ep, rfl, hep, ?_⟩
        by_cases h0 : ep.desc.bmAttributes &&& USB_ENDPOINT_XFERTYPE_MASK
            = USB_ENDPOINT_XFER_CONTROL
        · simp only [h0, if_true] at hret ⊢
          exact setup_control_urb_stats host w req _ usbdev hdev hret
        · by_cases h1 : ep.desc.bmAttributes &&& USB_ENDPOINT_XFERTYPE_MASK
              = USB_ENDPOINT_XFER_ISOC
          · have e1 : ¬ (USB_ENDPOINT_XFER_ISOC = USB_ENDPOINT_XFER_CONTROL) := by decide
            simp only [h1, e1, if_true, if_false]
            exact setup_isoc_urb_stats w req _ ep usbdev hdev
          · by_cases h2 : ep.desc.bmAttributes &&& USB_ENDPOINT_XFERTYPE_MASK
                = USB_ENDPOINT_XFER_BULK
            · have e1 : ¬ (USB_ENDPOINT_XFER_BULK = USB_ENDPOINT_XFER_CONTROL) := by decide
              have e2 : ¬ (USB_ENDPOINT_XFER_BULK = USB_ENDPOINT_XFER_ISOC) := by decide
              simp only [h2, e1, e2, if_true, if_false]
              exact setup_bulk_urb_stats w req _ usbdev hdev
            · simp only [h0, h1, h2, if_false]
              exact setup_int_urb_stats w req _ ep usbdev hdev _ h0 h1 h2

/-- C10 as stated fails at the top of the counter range: with `st_in_req` at
`INT_MAX`, the GET_DESCRIPTOR request is built for forwarding (return value
0) and `st_in_req` is `INT_MIN` afterwards, not `INT_MAX + 1`. -/
theorem vusb_setup_urb_counts_counterexample :
    (vusb_setup_urb example_host full_counter_world get_descriptor_req (example_urb 18)).ret
        = 0 ∧
      full_counter_world.usbif.stats.st_in_req = 2147483647 ∧
      (vusb_setup_urb example_host full_counter_world get_descriptor_req
          (example_urb 18)).world.usbif.stats.st_in_req = -2147483648 ∧
      (vusb_setup_urb example_host full_counter_world get_descriptor_req
          (example_urb 18)).world.usbif.stats.st_in_req
        ≠ full_counter_world.usbif.stats.st_in_req + 1 := by
  decide

/-- C10, amended: whenever `vusb_setup_urb` returns 0, the statistics
afterwards are the old ones with the counter of the request's direction
(`st_in_req` for IN, `st_out_req` otherwise) and the counter of the
endpoint's transfer type each stepped by the C `++` on an `int`, every other
counter unchanged; the step adds 1 to a counter below `INT_MAX` and takes
`INT_MAX` to `INT_MIN`.  The control IN GET_DESCRIPTOR(device) request with
setup bytes 80 06 00 01 00 00 12 00 on endpoint 0 returns 0 and raises
`st_cntrl_req` and `st_in_req` by 1 each. -/
theorem vusb_setup_urb_counts :
    (∀ (host : Host) (w : World) (req : usbif_request) (u : urb),
      (vusb_setup_urb host w req u).ret = 0 →
      ∃ (usbdev : usb_device) (ep : usb_host_endpoint),
        vusb_device w.usbif.vusb = some usbdev ∧ request_endpoint usbdev req = some ep ∧
        (vusb_setup_urb host w req u).world.usbif.stats
          = count_type (ep.desc.bmAttributes &&& USB_ENDPOINT_XFERTYPE_MASK)
              (count_direction req.dir_in w.usbif.stats)) ∧
      (∀ x : Int, -2147483648 ≤ x → x < INT_MAX → int_inc x = x + 1) ∧
      int_inc INT_MAX = -2147483648 ∧
      (vusb_setup_urb example_host example_world get_descriptor_req (example_urb 18)).ret = 0 ∧
      (vusb_setup_urb example_host example_world get_descriptor_req
          (example_urb 18)).world.usbif.stats
        = { example_world.usbif.stats with
            st_in_req := example_world.usbif.stats.st_in_req + 1,
            st_cntrl_req := example_world.usbif.stats.st_cntrl_req + 1 } := by
  refine ⟨vusb_setup_urb_stats, ?_, ?_, ?_, ?_⟩
  · intro x h0 h1
    unfold int_inc toInt32
    unfold INT_MAX at h1
    omega
  · decide
  · decide
  · decide

theorem vusb_setup_urb_counts_witness :
    ∃ (usbdev : usb_device) (ep : usb_host_endpoint),
      vusb_device example_world.usbif.vusb = some usbdev ∧
      request_endpoint usbdev get_descriptor_req = some ep ∧
      (vusb_setup_urb example_host example_world get_descriptor_req
          (example_urb 18)).world.usbif.stats
        = count_type (ep.desc.bmAttributes &&& USB_ENDPOINT_XFERTYPE_MASK)
            (count_direction get_descriptor_req.dir_in example_world.usbif.stats) :=
  vusb_setup_urb_counts.1 example_host example_world get_descriptor_req (example_urb 18)
    (by decide)

/-! ## Contents of the transfer buffer after the outbound copy -/

theorem chained_snoc (c : Memcpy) : ∀ (xs : List Memcpy) (pos : Int),
    chained pos xs → c.dst = Addr.buf (pos + copied xs) → chained pos (xs ++ [c]) := by
  intro xs
  induction xs with
  | nil =>
    intro pos _ h
    simp only [copied, List.map_nil, List.sum_nil, add_zero] at h
    exact ⟨h, trivial⟩
  | cons x xs ih =>
    intro pos hx h
    refine ⟨hx.1, ih (pos + x.len) hx.2 ?_⟩
    rw [h]
    simp only [copied, List.map_cons, List.sum_cons]
    congr 1
    ring

theorem for_loop_chained : ∀ (n i : Nat) (s : CopyState),
    chained 0 s.ops → s.pos = copied s.ops →
    chained 0 (for_loop copy_out_seg n i s).ops := by
  intro n
  induction n with
  | zero => intro i s h _; simpa [for_loop] using h
  | succ n ih =>
    intro i s h hp
    simp only [for_loop]
    apply ih
    · simp only [copy_out_seg]
      apply chained_snoc _ _ _ h
      simp [hp]
    · simp [copy_out_seg, copied_append, copied, hp]

theorem span_bytes_take_succ (offset : Int) (pages : List (List Nat)) (i : Nat)
    (h1 : 1 ≤ i) (hi : i < pages.length) :
    span_bytes offset (pages.take (i + 1))
      = span_bytes offset (pages.take i) ++ pages.getD i [] := by
  cases pages with
  | nil => simp at hi
  | cons p rest =>
    obtain ⟨k, rfl⟩ : ∃ k, i = k + 1 := ⟨i - 1, by omega⟩
    have hk : k < rest.length := by simpa using hi
    simp only [List.take_succ_cons, span_bytes, List.append_assoc]
    congr 1
    rw [List.take_succ, List.flatten_append]
    simp [List.getElem?_eq_getElem hk]

theorem mem_run_snoc (m : Mem) (ops : List Memcpy) (c : Memcpy) :
    Mem.run m (ops ++ [c]) = Mem.memcpy (Mem.run m ops) c := by
  simp [Mem.run, List.foldl_append]

theorem write_after_filled (A X buf0 : List Nat) (pos : Int) (hpos : pos = (A.length : Int)) :
    writeBytes (A ++ buf0.drop A.length) pos X
      = (A ++ X) ++ buf0.drop (A ++ X).length := by
  subst hpos
  unfold writeBytes
  simp only [Int.toNat_ofNat, List.take_left, List.append_assoc, List.length_append]
  congr 2
  rw [@List.drop_append _ A _ X.length, List.drop_drop]

/-- The buffer prefix filled once the first `i` pages have been copied. -/
theorem copy_out_seg_contents (pages : List (List Nat)) (buf0 : List Nat) (offset L : Int)
    (hL : 0 ≤ L) (hm : L ≤ INT_MAX) (hpages : ∀ p ∈ pages, p.length = 4096)
    (i : Nat) (h1 : 1 ≤ i) (hi : i < pages.length) (s : CopyState)
    (hpos : s.pos = (((span_bytes offset (pages.take i)).take L.toNat).length : Int))
    (hrem : s.remaining = L - s.pos)
    (hrun : Mem.run { buf := buf0, pages := pages } s.ops
      = { buf := (span_bytes offset (pages.take i)).take L.toNat
            ++ buf0.drop ((span_bytes offset (pages.take i)).take L.toNat).length,
          pages := pages }) :
    (copy_out_seg i s).pos
        = (((span_bytes offset (pages.take (i + 1))).take L.toNat).length : Int) ∧
      (copy_out_seg i s).remaining = L - (copy_out_seg i s).pos ∧
      Mem.run { buf := buf0, pages := pages } (copy_out_seg i s).ops
        = { buf := (span_bytes offset (pages.take (i + 1))).take L.toNat
              ++ buf0.drop ((span_bytes offset (pages.take (i + 1))).take L.toNat).length,
            pages := pages } := by
  have hlenA : ((span_bytes offset (pages.take i)).take L.toNat).length
      = min L.toNat (span_bytes offset (pages.take i)).length := List.length_take _ _
  have hr0 : 0 ≤ s.remaining := by rw [hrem, hpos, hlenA]; omega
  have hr1 : s.remaining ≤ INT_MAX := by rw [hrem, hpos, hlenA]; omega
  have hk := copy_chunk_eq s.remaining hr0 hr1
  have hp : (pages.getD i []).length = 4096 := by
    have hget : pages[i]? = some pages[i] := List.getElem?_eq_getElem hi
    simp only [List.getD_eq_getElem?_getD, hget, Option.getD_some]
    exact hpages _ (List.getElem_mem hi)
  have hX : readBytes (pages.getD i []) 0 (copy_chunk s.remaining)
      = (pages.getD i []).take (L.toNat - (span_bytes offset (pages.take i)).length) := by
    unfold readBytes
    simp only [Int.toNat_zero, List.drop_zero]
    rw [List.take_eq_take, hp, hk, hrem, hpos, hlenA]
    unfold PAGE_SIZE
    omega
  have hA : (span_bytes offset (pages.take (i + 1))).take L.toNat
      = (span_bytes offset (pages.take i)).take L.toNat
          ++ readBytes (pages.getD i []) 0 (copy_chunk s.remaining) := by
    rw [span_bytes_take_succ offset pages i h1 hi, List.take_append_eq_append_take, hX]
  have hXlen : ((readBytes (pages.getD i []) 0 (copy_chunk s.remaining)).length : Int)
      = copy_chunk s.remaining := by
    rw [hX, List.length_take, hp, hk, hrem, hpos, hlenA]
    unfold PAGE_SIZE
    omega
  have hposn : (copy_out_seg i s).pos
      = (((span_bytes offset (pages.take (i + 1))).take L.toNat).length : Int) := by
    rw [hA, List.length_append]
    push_cast
    rw [hXlen, ← hpos]
    rfl
  refine ⟨hposn, ?_, ?_⟩
  · simp only [copy_out_seg, hrem]
    ring
  · simp only [copy_out_seg, mem_run_snoc, hrun, Mem.memcpy, Mem.read, Mem.write]
    rw [write_after_filled _ _ _ _ hpos, ← hA]

theorem for_loop_contents (pages : List (List Nat)) (buf0 : List Nat) (offset L : Int)
    (hL : 0 ≤ L) (hm : L ≤ INT_MAX) (hpages : ∀ p ∈ pages, p.length = 4096) :
    ∀ (n i : Nat) (s : CopyState), 1 ≤ i → i + n = pages.length →
      FilledTo pages buf0 offset L i s →
      FilledTo pages buf0 offset L (i + n) (for_loop copy_out_seg n i s) := by
  intro n
  induction n with
  | zero => intro i s _ _ h; simpa [for_loop] using h
  | succ n ih =>
    intro i s h1 hn h
    obtain ⟨hpos, hrem, hrun⟩ := h
    simp only [for_loop]
    have hstep := copy_out_seg_contents pages buf0 offset L hL hm hpages i h1 (by omega) s
      hpos hrem hrun
    have := ih (i + 1) (copy_out_seg i s) (by omega) (by omega) hstep
    have e : i + (n + 1) = i + 1 + n := by omega
    rw [e]
    exact this

theorem first_chunk_contents (p0 : List Nat) (rest : List (List Nat)) (buf0 : List Nat)
    (offset L : Int) (ho : 0 ≤ offset) (hp : offset ≤ PAGE_SIZE) (hL : 0 ≤ L)
    (hm : L ≤ INT_MAX) (hp0 : p0.length = 4096) :
    FilledTo (p0 :: rest) buf0 offset L 1
      { pos := copy_first_chunk offset L, remaining := L - copy_first_chunk offset L,
        ops := [⟨Addr.buf 0, Addr.page 0 offset, copy_first_chunk offset L⟩] } := by
  have hf := copy_first_chunk_eq offset L ho hp hL hm
  have hX : readBytes p0 offset (copy_first_chunk offset L)
      = (p0.drop offset.toNat).take L.toNat := by
    unfold readBytes
    rw [List.take_eq_take, List.length_drop, hp0, hf]
    unfold PAGE_SIZE at *
    omega
  have hspan : span_bytes offset (List.take 1 (p0 :: rest)) = p0.drop offset.toNat := by
    simp [span_bytes]
  refine ⟨?_, rfl, ?_⟩
  · rw [hspan, List.length_take, List.length_drop, hp0]
    simp only [hf]
    unfold PAGE_SIZE at *
    omega
  · rw [hspan]
    simp only [Mem.run, List.foldl_cons, List.foldl_nil, Mem.memcpy, Mem.read, Mem.write,
      List.getD_cons_zero, hX]
    simp [writeBytes]

/-- The transfer buffer, the guest pages and the placement of the chunks after
`copy_out_req`. -/
theorem copy_out_req_buffer (req : pending_req) (ho : 0 ≤ req.offset)
    (hp : req.offset ≤ PAGE_SIZE) (hL : 0 ≤ req.urb.transfer_buffer_length)
    (hm : req.urb.transfer_buffer_length ≤ INT_MAX)
    (hpages : ∀ p ∈ req.pages, p.length = 4096) :
    (exec_copies req (copy_out_req req)).urb.transfer_buffer
        = (span_bytes req.offset req.pages).take req.urb.transfer_buffer_length.toNat
          ++ req.urb.transfer_buffer.drop
            ((span_bytes req.offset req.pages).take
              req.urb.transfer_buffer_length.toNat).length ∧
      (exec_copies req (copy_out_req req)).pages = req.pages ∧
      chained 0 (copy_out_req req) := by
  unfold exec_copies copy_out_req
  by_cases hn : data_pages req = 0
  · have hnil : req.pages = [] := List.length_eq_zero.mp hn
    simp [hn, hnil, Mem.run, span_bytes, chained]
  · simp only [hn, if_false]
    cases hpg : req.pages with
    | nil => simp [data_pages, hpg] at hn
    | cons p0 rest =>
      have hp0 : p0.length = 4096 := hpages p0 (by simp [hpg])
      have hbase := first_chunk_contents p0 rest req.urb.transfer_buffer req.offset
        req.urb.transfer_buffer_length ho hp hL hm hp0
      have hloop := for_loop_contents (p0 :: rest) req.urb.transfer_buffer req.offset
        req.urb.transfer_buffer_length hL hm (by rw [← hpg]; exact hpages)
        (data_pages req - 1) 1 _ (le_refl 1) (by simp [data_pages, hpg]; omega) hbase
      have hN : 1 + (data_pages req - 1) = (p0 :: rest).length := by
        simp [data_pages, hpg]; omega
      unfold FilledTo at hloop
      rw [hN, List.take_length] at hloop
      obtain ⟨-, -, hrun⟩ := hloop
      refine ⟨?_, ?_, ?_⟩
      · simp only [hrun]
      · simp only [hrun]
      · apply for_loop_chained
        · exact ⟨rfl, trivial⟩
        · simp [copied]

/-- C8: `copy_out_req` fills the transfer buffer with the page spans in page
order (the first page from `offset`, every later page whole), truncated to
`transfer_buffer_length`; what lies behind the copied bytes is untouched, and
each chunk is written immediately after the previous one.  For the bulk OUT
of 8192 bytes over three pages from offset 4000 the chunk lengths are 96,
4096 and 4000, 8192 in total. -/
theorem copy_out_req_contents :
    (∀ (req : pending_req), 0 ≤ req.offset → req.offset ≤ PAGE_SIZE →
      0 ≤ req.urb.transfer_buffer_length → req.urb.transfer_buffer_length ≤ INT_MAX →
      (∀ p ∈ req.pages, p.length = 4096) →
      (exec_copies req (copy_out_req req)).urb.transfer_buffer
          = (span_bytes req.offset req.pages).take req.urb.transfer_buffer_length.toNat
            ++ req.urb.transfer_buffer.drop
              ((span_bytes req.offset req.pages).take
                req.urb.transfer_buffer_length.toNat).length ∧
        (exec_copies req (copy_out_req req)).pages = req.pages ∧
        chained 0 (copy_out_req req)) ∧
      (copy_out_req bulk_out_8192).map (fun c => c.len) = [96, 4096, 4000] ∧
      copied (copy_out_req bulk_out_8192) = 8192 := by
  refine ⟨?_, by decide, by decide⟩
  intro req ho hp hL hm hpages
  exact copy_out_req_buffer req ho hp hL hm hpages

theorem example_page_length (b : Nat) : (example_page b).length = 4096 := by
  unfold example_page
  exact List.length_replicate _ _

theorem copy_out_req_contents_witness :
    (exec_copies bulk_out_8192 (copy_out_req bulk_out_8192)).urb.transfer_buffer
        = (span_bytes bulk_out_8192.offset bulk_out_8192.pages).take
            bulk_out_8192.urb.transfer_buffer_length.toNat
          ++ bulk_out_8192.urb.transfer_buffer.drop
            ((span_bytes bulk_out_8192.offset bulk_out_8192.pages).take
              bulk_out_8192.urb.transfer_buffer_length.toNat).length ∧
      (exec_copies bulk_out_8192 (copy_out_req bulk_out_8192)).pages = bulk_out_8192.pages ∧
      chained 0 (copy_out_req bulk_out_8192) :=
  copy_out_req_contents.1 bulk_out_8192 (by decide) (by decide) (by decide) (by decide)
    (by
      intro p hp
      simp only [bulk_out_8192, List.mem_cons, List.mem_singleton, List.not_mem_nil,
        or_false] at hp
      rcases hp with rfl | rfl | rfl <;> exact example_page_length _)

/-! ## Isochronous descriptors on the way back -/

theorem copy_in_iso_descriptor_arr (get_usb_status : Int → Int) (req : pending_req)
    (hd : req.direction_in = true) :
    ∀ (n i : Nat) (s : DescState usbif_iso_packet_info) (j : Nat),
      (for_loop (copy_in_iso_descriptor get_usb_status req) n i s).arr[j]? =
        if i ≤ j ∧ j < i + n then
          (s.arr[j]?).map (fun e =>
            { e with
              length := (req.urb.iso_frame_desc.getD j
                { offset := 0, length := 0, actual_length := 0, status := 0 }).actual_length,
              status := get_usb_status (req.urb.iso_frame_desc.getD j
                { offset := 0, length := 0, actual_length := 0, status := 0 }).status })
        else s.arr[j]? := by
  intro n
  induction n with
  | zero =>
    intro i s j
    have : ¬ (i ≤ j ∧ j < i + 0) := by omega
    simp only [for_loop, this, if_false]
  | succ n ih =>
    intro i s j
    simp only [for_loop]
    rw [ih (i + 1) (copy_in_iso_descriptor get_usb_status req i s) j]
    simp only [copy_in_iso_descriptor, hd, if_true, List.getElem?_set]
    by_cases hij : i = j
    · subst hij
      have h1 : ¬ (i + 1 ≤ i ∧ i < i + 1 + n) := by omega
      have h2 : i ≤ i ∧ i < i + (n + 1) := by omega
      simp only [h1, h2, if_false, if_true]
      by_cases hlen : i < s.arr.length
      · have hget : s.arr[i]? = some s.arr[i] := List.getElem?_eq_getElem hlen
        simp [hlen, hget]
      · have hget : s.arr[i]? = none := List.getElem?_eq_none (by omega)
        simp [hlen, hget]
    · simp only [hij, if_false]
      by_cases hr : i + 1 ≤ j ∧ j < i + 1 + n
      · have h2 : i ≤ j ∧ j < i + (n + 1) := by omega
        simp only [hr, h2, and_self, if_true]
      · have h2 : ¬ (i ≤ j ∧ j < i + (n + 1)) := by omega
        simp only [hr, h2, if_false]

theorem copy_in_iso_descriptor_out (get_usb_status : Int → Int) (req : pending_req)
    (hd : req.direction_in = false) :
    ∀ (n i : Nat) (s : DescState usbif_iso_packet_info),
      (for_loop (copy_in_iso_descriptor get_usb_status req) n i s).arr = s.arr := by
  intro n
  induction n with
  | zero => intro i s; rfl
  | succ n ih =>
    intro i s
    simp only [for_loop]
    rw [ih]
    simp [copy_in_iso_descriptor, hd]

theorem copy_in_info (get_usb_status : Int → Int) (req : pending_req)
    (ht : req.type = usbif_type.USBIF_T_ISOC) :
    (copy_in get_usb_status req).req.info = (copy_in_iso_descriptors get_usb_status req).2 := by
  simp only [copy_in, ht, if_true]
  cases hsg : req.urb.sg with
  | some sgs => rfl
  | none =>
    by_cases hd : req.direction_in = true
    · simp [hd, exec_copies]
    · simp [hd]

/-- C11 as stated fails: for an isochronous OUT request `copy_in` leaves the
descriptor page alone; the third packet keeps length 188 and status 0 although
the transfer reports `actual_length` 0 and status -18 for it. -/
theorem copy_in_iso_out_counterexample :
    iso_out_failed.type = usbif_type.USBIF_T_ISOC ∧ data_pages iso_out_failed = 2 ∧
      (iso_out_failed.urb.iso_frame_desc.map (fun d => (d.actual_length, d.status)))[2]?
        = some (0, -18) ∧
      ((copy_in (fun s => s) iso_out_failed).req.info.map (fun e => (e.length, e.status)))[2]?
        = some (188, 0) := by
  decide

/-- C11, amended: for every isochronous IN request with at least one data
page, after `copy_in` each of the `nr_packets` entries of the descriptor page
carries `length = iso_frame_desc[i].actual_length` and
`status = get_usb_status(iso_frame_desc[i].status)` with its offset unchanged;
for an isochronous OUT request the descriptor page is left as it was. -/
theorem copy_in_iso_writes_back (get_usb_status : Int → Int) (req : pending_req)
    (ht : req.type = usbif_type.USBIF_T_ISOC) (hpg : 1 ≤ data_pages req) :
    (req.direction_in = true →
      ∀ (i : Nat) (e : usbif_iso_packet_info) (d : usb_iso_packet_descriptor),
        i < req.nr_packets → req.info[i]? = some e → req.urb.iso_frame_desc[i]? = some d →
        (copy_in get_usb_status req).req.info[i]?
          = some { offset := e.offset, length := d.actual_length,
                   status := get_usb_status d.status }) ∧
      (req.direction_in = false → (copy_in get_usb_status req).req.info = req.info) := by
  have hn : ¬ data_pages req = 0 := by omega
  rw [copy_in_info get_usb_status req ht]
  simp only [copy_in_iso_descriptors, hn, if_false]
  constructor
  · intro hd i e d hi he hdesc
    rw [copy_in_iso_descriptor_arr get_usb_status req hd req.nr_packets 0 _ i]
    have hr : 0 ≤ i ∧ i < 0 + req.nr_packets := by omega
    simp only [hr, and_self, if_true, he, Option.map_some']
    simp [List.getD_eq_getElem?_getD, hdesc]
  · intro hd
    exact copy_in_iso_descriptor_out get_usb_status req hd req.nr_packets 0 _

theorem copy_in_iso_writes_back_witness :
    (copy_in (fun s => s + 1) iso_in_3x188).req.info
      = [{ offset := 0, length := 188, status := 1 },
         { offset := 188, length := 188, status := 1 },
         { offset := 376, length := 188, status := 1 }] := by
  have h := (copy_in_iso_writes_back (fun s => s + 1) iso_in_3x188 (by decide)
    (by decide)).1 (by decide)
  have h0 := h 0 _ _ (by decide) rfl rfl
  have h1 := h 1 _ _ (by decide) rfl rfl
  have h2 := h 2 _ _ (by decide) rfl rfl
  have hlen : (copy_in (fun s => s + 1) iso_in_3x188).req.info.length = 3 := by decide
  apply List.ext_getElem?
  intro n
  match n with
  | 0 => simpa using h0
  | 1 => simpa using h1
  | 2 => simpa using h2
  | n + 3 =>
    have : (copy_in (fun s => s + 1) iso_in_3x188).req.info[n + 3]? = none :=
      List.getElem?_eq_none (by omega)
    simp [this]

/-! ## The isochronous payload lives in pages 1 and up -/

theorem control_tail_calls (w : World) (usbdev : usb_device) (req : usbif_request) (u : urb)
    (ret : Int) : (control_tail w usbdev req u ret).world.calls = w.calls := by
  unfold control_tail
  split_ifs <;> rfl

theorem control_tail_urb (w : World) (usbdev : usb_device) (req : usbif_request) (u : urb)
    (ret : Int) :
    (control_tail w usbdev req u ret).urb
      = { u with interval := 1,
                 pipe := some (if req.dir_in then usb_rcvctrlpipe usbdev req.endpoint_num
                               else usb_sndctrlpipe usbdev req.endpoint_num) } := by
  unfold control_tail
  split_ifs <;> rfl

/-- A control request that is none of the three `setup_control_urb` takes out
of the forwarding path is forwarded: no host call, the setup bytes copied as
they are, the control pipe of the request's endpoint in its direction, and
return value 0. -/
theorem setup_control_urb_forwards (host : Host) (w : World) (req : usbif_request) (u : urb)
    (usbdev : usb_device) (hdev : w.usbif.vusb.usbdev = some usbdev)
    (hn : ¬ intercepted req.setup) :
    (setup_control_urb host w req u).ret = 0 ∧
      (setup_control_urb host w req u).world.calls = w.calls ∧
      (setup_control_urb host w req u).urb.setup_packet = req.setup ∧
      (setup_control_urb host w req u).urb.pipe
        = some (if req.dir_in then usb_rcvctrlpipe usbdev req.endpoint_num
                else usb_sndctrlpipe usbdev req.endpoint_num) := by
  unfold intercepted at hn
  have key : setup_control_urb host w req u
      = control_tail w usbdev req { u with setup_packet := req.setup } 0 := by
    unfold setup_control_urb
    simp only [hdev]
    split_ifs <;> first | rfl | (exfalso; apply hn; tauto)
  rw [key, control_tail_ret, control_tail_calls, control_tail_urb]
  exact ⟨rfl, rfl, rfl, rfl⟩

/-- C13: what the code does on two requests that are not standard: a class
request to an interface with request code 0x0B is executed as SET_INTERFACE
(host call `usb_set_interface`, return value 1, nothing forwarded), and a
vendor request to the device with request code 0x09 and `wValue` 1 is taken
for SET_CONFIGURATION(1) and reported as handled. -/
theorem setup_control_urb_ignores_type :
    bRequestType hid_set_protocol_req.setup &&& USB_TYPE_MASK = USB_TYPE_CLASS ∧
      (setup_control_urb example_host example_world hid_set_protocol_req (example_urb 0)).ret
        = 1 ∧
      (setup_control_urb example_host example_world hid_set_protocol_req
        (example_urb 0)).world.calls = [HostCall.set_interface 0 0] ∧
      (setup_control_urb example_host example_world hid_set_protocol_req (example_urb 0)).urb.pipe
        = none ∧
      bRequestType vendor_req_9.setup &&& USB_TYPE_MASK = USB_TYPE_VENDOR ∧
      (setup_control_urb example_host example_world vendor_req_9 (example_urb 0)).ret = 1 ∧
      (setup_control_urb example_host example_world vendor_req_9 (example_urb 0)).urb.pipe
        = none := by
  decide

/-- C14: an endpoint-recipient CLEAR_FEATURE with `wValue = ENDPOINT_HALT`
makes `setup_control_urb` issue one clear-halt host call, on the bulk pipe of
endpoint `wIndex & 0x7f` in the direction of bit 7 of `wIndex`; it returns 1
exactly when the host call returned 0 or `-EPIPE`, and the host's non-zero
error otherwise (the host call returns 0 or a negative error number). -/
theorem clear_halt_handled (host : Host) (w : World) (req : usbif_request) (u : urb)
    (usbdev : usb_device) (hdev : w.usbif.vusb.usbdev = some usbdev)
    (hrecip : bRequestType req.setup &&& USB_RECIP_MASK = USB_RECIP_ENDPOINT)
    (hreq : bRequest req.setup = USB_REQ_CLEAR_FEATURE)
    (hval : wValue req.setup = USB_ENDPOINT_HALT)
    (hhost : (host.usb_clear_halt usbdev (halt_pipe usbdev (wIndex req.setup))).1 ≤ 0) :
    (setup_control_urb host w req u).world.calls
        = w.calls ++ [HostCall.clear_halt (halt_pipe usbdev (wIndex req.setup))] ∧
      ((setup_control_urb host w req u).ret = 1 ↔
        (host.usb_clear_halt usbdev (halt_pipe usbdev (wIndex req.setup))).1 = 0 ∨
        (host.usb_clear_halt usbdev (halt_pipe usbdev (wIndex req.setup))).1 = -EPIPE) ∧
      ((setup_control_urb host w req u).ret ≠ 1 →
        (setup_control_urb host w req u).ret
            = (host.usb_clear_halt usbdev (halt_pipe usbdev (wIndex req.setup))).1 ∧
          (setup_control_urb host w req u).ret ≠ 0) := by
  have hpipe : (if wIndex req.setup &&& USB_DIR_IN ≠ 0
        then usb_rcvbulkpipe usbdev ((wIndex req.setup &&& 0x7f : Nat) : Int)
        else usb_sndbulkpipe usbdev ((wIndex req.setup &&& 0x7f : Nat) : Int))
      = halt_pipe usbdev (wIndex req.setup) := by
    unfold halt_pipe usb_rcvbulkpipe usb_sndbulkpipe
    split_ifs with h <;> simp [h]
  have h1 : ¬ (USB_RECIP_ENDPOINT = USB_RECIP_DEVICE) := by decide
  have h2 : ¬ (USB_RECIP_ENDPOINT = USB_RECIP_INTERFACE) := by decide
  have h3 : ¬ (USB_REQ_CLEAR_FEATURE = USB_REQ_GET_STATUS) := by decide
  have key : setup_control_urb host w req u =
      if (host.usb_clear_halt usbdev (halt_pipe usbdev (wIndex req.setup))).1 = 0 ∨
          (host.usb_clear_halt usbdev (halt_pipe usbdev (wIndex req.setup))).1 = -EPIPE then
        { ret := 1,
          world := { set_usbdev w
              (host.usb_clear_halt usbdev (halt_pipe usbdev (wIndex req.setup))).2 with
            calls := w.calls ++ [HostCall.clear_halt (halt_pipe usbdev (wIndex req.setup))] },
          urb := { u with setup_packet := req.setup } }
      else
        control_tail
          { set_usbdev w (host.usb_clear_halt usbdev (halt_pipe usbdev (wIndex req.setup))).2 with
            calls := w.calls ++ [HostCall.clear_halt (halt_pipe usbdev (wIndex req.setup))] }
          (host.usb_clear_halt usbdev (halt_pipe usbdev (wIndex req.setup))).2 req
          { u with setup_packet := req.setup }
          (host.usb_clear_halt usbdev (halt_pipe usbdev (wIndex req.setup))).1 := by
    unfold setup_control_urb
    simp only [hdev, hrecip, hreq, hval, h1, h2, h3, if_false, if_true, and_self, hpipe]
  rw [key]
  by_cases hc : (host.usb_clear_halt usbdev (halt_pipe usbdev (wIndex req.setup))).1 = 0 ∨
      (host.usb_clear_halt usbdev (halt_pipe usbdev (wIndex req.setup))).1 = -EPIPE
  · rw [if_pos hc]
    exact ⟨rfl, ⟨fun _ => hc, fun _ => rfl⟩, fun h => absurd rfl h⟩
  · rw [if_neg hc, control_tail_calls, control_tail_ret]
    have hne0 : (host.usb_clear_halt usbdev (halt_pipe usbdev (wIndex req.setup))).1 ≠ 0 :=
      fun h => hc (Or.inl h)
    refine ⟨rfl, ⟨fun h => ?_, fun h => absurd h hc⟩, fun _ => ⟨rfl, hne0⟩⟩
    omega

theorem clear_halt_handled_witness :
    (setup_control_urb example_host example_world clear_halt_req (example_urb 0)).world.calls
        = example_world.calls
          ++ [HostCall.clear_halt (halt_pipe example_device (wIndex clear_halt_req.setup))] ∧
      halt_pipe example_device (wIndex clear_halt_req.setup)
        = usb_rcvbulkpipe example_device 1 ∧
      (setup_control_urb example_host example_world clear_halt_req (example_urb 0)).ret = 1 :=
  have h := clear_halt_handled example_host example_world clear_halt_req (example_urb 0)
    example_device rfl (by decide) (by decide) (by decide) (by decide)
  ⟨h.1, by decide, h.2.1.mpr (Or.inl (by decide))⟩

/-! ## `vusb_setup_urb`: failures and transfer flags -/

/-- C15: `vusb_setup_urb` returns `-ENODEV` when the owned device is inactive,
has no host device, its host controller is not running, or the host device is
neither in state ADDRESS nor CONFIGURED; otherwise it returns `-ENOENT` when
the device has no endpoint with the request's number in the request's
direction; in both cases the transfer object and the whole state, statistics
included, are as before. -/
theorem vusb_setup_urb_failures (host : Host) (w : World) (req : usbif_request) (u : urb) :
    ((w.usbif.vusb.active = 0 ∨ w.usbif.vusb.usbdev = none ∨
        ∃ d, w.usbif.vusb.usbdev = some d ∧
          (dusb_dev_running d = false ∨
            (d.state ≠ usb_device_state.USB_STATE_ADDRESS ∧
              d.state ≠ usb_device_state.USB_STATE_CONFIGURED))) →
      vusb_setup_urb host w req u = { ret := -ENODEV, world := w, urb := u }) ∧
    (∀ d, w.usbif.vusb.active ≠ 0 → w.usbif.vusb.usbdev = some d →
      dusb_dev_running d = true →
      (d.state = usb_device_state.USB_STATE_ADDRESS ∨
        d.state = usb_device_state.USB_STATE_CONFIGURED) →
      request_endpoint d req = none →
      vusb_setup_urb host w req u = { ret := -ENOENT, world := w, urb := u }) := by
  constructor
  · rintro (h | h | ⟨d, hd, h | h⟩)
    · simp [vusb_setup_urb, vusb_device, h]
    · simp [vusb_setup_urb, vusb_device, h]
    · by_cases ha : w.usbif.vusb.active = 0
      · simp [vusb_setup_urb, vusb_device, ha]
      · simp [vusb_setup_urb, vusb_device, ha, hd, h]
    · by_cases ha : w.usbif.vusb.active = 0
      · simp [vusb_setup_urb, vusb_device, ha]
      · by_cases hr : dusb_dev_running d = true
        · simp [vusb_setup_urb, vusb_device, ha, hd, hr, h]
        · simp [vusb_setup_urb, vusb_device, ha, hd, hr]
  · intro d ha hd hr hs hep
    have hs2 : ¬ (d.state ≠ usb_device_state.USB_STATE_ADDRESS ∧
        d.state ≠ usb_device_state.USB_STATE_CONFIGURED) := by
      rcases hs with hs | hs <;> simp [hs]
    unfold request_endpoint at hep
    simp only [vusb_setup_urb, vusb_device, ha, hd, hr, ne_eq, not_false_eq_true, if_true,
      hs2, if_false, hep]

theorem vusb_setup_urb_failures_witness :
    vusb_setup_urb example_host inactive_world get_descriptor_req (example_urb 18)
        = { ret := -ENODEV, world := inactive_world, urb := example_urb 18 } ∧
      vusb_setup_urb example_host example_world missing_endpoint_req (example_urb 18)
        = { ret := -ENOENT, world := example_world, urb := example_urb 18 } :=
  ⟨(vusb_setup_urb_failures example_host inactive_world get_descriptor_req
      (example_urb 18)).1 (Or.inl rfl),
   (vusb_setup_urb_failures example_host example_world missing_endpoint_req
      (example_urb 18)).2 example_device (by decide) rfl (by decide)
      (Or.inr rfl) (by decide)⟩

theorem setup_control_urb_flags (host : Host) (w : World) (req : usbif_request) (u : urb) :
    (setup_control_urb host w req u).urb.transfer_flags = u.transfer_flags := by
  unfold setup_control_urb
  cases hdev : w.usbif.vusb.usbdev with
  | none => rfl
  | some usbdev =>
    simp only []
    split_ifs <;> first | rfl | (rw [control_tail_urb])

theorem setup_isoc_urb_flags (w : World) (req : usbif_request) (u : urb)
    (ep : usb_host_endpoint) (usbdev : usb_device) (hdev : w.usbif.vusb.usbdev = some usbdev) :
    (setup_isoc_urb w req u ep).urb.transfer_flags
      = if req.asap then u.transfer_flags ||| URB_ISO_ASAP else u.transfer_flags := by
  unfold setup_isoc_urb
  simp only [hdev]
  by_cases ha : req.asap = true <;> by_cases hd : req.dir_in = true <;> simp [ha, hd]

theorem setup_bulk_urb_flags (w : World) (req : usbif_request) (u : urb) :
    (setup_bulk_urb w req u).urb.transfer_flags = u.transfer_flags := by
  unfold setup_bulk_urb
  cases hdev : w.usbif.vusb.usbdev with
  | none => rfl
  | some usbdev =>
    simp only []
    split_ifs <;> rfl

theorem setup_int_urb_flags (w : World) (req : usbif_request) (u : urb)
    (ep : usb_host_endpoint) :
    (setup_int_urb w req u ep).urb.transfer_flags = u.transfer_flags := by
  unfold setup_int_urb
  cases hdev : w.usbif.vusb.usbdev with
  | none => rfl
  | some usbdev =>
    simp only []
    cases usbdev.speed <;> split_ifs <;> rfl

/-- C16: for a request that passes the device and endpoint checks,
`vusb_setup_urb` sets `URB_SHORT_NOT_OK` (bit 0 of `transfer_flags`) when the
request is IN without the short-OK bit, and leaves that flag as it was for an
OUT request and for an IN request with short-OK; the only other flag it may
add is `URB_ISO_ASAP`, for an isochronous endpoint. -/
theorem vusb_setup_urb_short_not_ok (host : Host) (w : World) (req : usbif_request) (u : urb)
    (d : usb_device) (ep : usb_host_endpoint)
    (hdev : vusb_device w.usbif.vusb = some d)
    (hstate : d.state = usb_device_state.USB_STATE_ADDRESS ∨
      d.state = usb_device_state.USB_STATE_CONFIGURED)
    (hep : request_endpoint d req = some ep) :
    URB_SHORT_NOT_OK = 2 ^ 0 ∧
      (vusb_setup_urb host w req u).urb.transfer_flags
        = (if req.dir_in = true ∧ req.shortok = false
            then u.transfer_flags ||| URB_SHORT_NOT_OK else u.transfer_flags)
          ||| (if ep.desc.bmAttributes &&& USB_ENDPOINT_XFERTYPE_MASK = USB_ENDPOINT_XFER_ISOC
                ∧ req.asap = true then URB_ISO_ASAP else 0) ∧
      (req.dir_in = true ∧ req.shortok = false →
        (vusb_setup_urb host w req u).urb.transfer_flags.testBit 0 = true) ∧
      (¬ (req.dir_in = true ∧ req.shortok = false) →
        (vusb_setup_urb host w req u).urb.transfer_flags.testBit 0
          = u.transfer_flags.testBit 0) := by
  have husb := vusb_device_usbdev _ _ hdev
  have hs2 : ¬ (d.state ≠ usb_device_state.USB_STATE_ADDRESS ∧
      d.state ≠ usb_device_state.USB_STATE_CONFIGURED) := by
    rcases hstate with hs | hs <;> simp [hs]
  unfold request_endpoint at hep
  have hflags : (vusb_setup_urb host w req u).urb.transfer_flags
      = (if req.dir_in = true ∧ req.shortok = false
          then u.transfer_flags ||| URB_SHORT_NOT_OK else u.transfer_flags)
        ||| (if ep.desc.bmAttributes &&& USB_ENDPOINT_XFERTYPE_MASK = USB_ENDPOINT_XFER_ISOC
              ∧ req.asap = true then URB_ISO_ASAP else 0) := by
    have hbase : (!req.shortok && req.dir_in) = true ↔
        (req.dir_in = true ∧ req.shortok = false) := by
      cases req.shortok <;> cases req.dir_in <;> simp
    simp only [vusb_setup_urb, hdev, hs2, if_false, hep]
    by_cases h0 : ep.desc.bmAttributes &&& USB_ENDPOINT_XFERTYPE_MASK
        = USB_ENDPOINT_XFER_CONTROL
    · have e1 : ¬ (USB_ENDPOINT_XFER_CONTROL = USB_ENDPOINT_XFER_ISOC) := by decide
      simp only [h0, if_true, setup_control_urb_flags, e1, false_and, if_false, Nat.or_zero]
      by_cases hc : req.dir_in = true ∧ req.shortok = false
      · simp [hc]
      · have : ¬ ((!req.shortok && req.dir_in) = true) := fun h => hc (hbase.mp h)
        simp [hc, this]
    · by_cases h1 : ep.desc.bmAttributes &&& USB_ENDPOINT_XFERTYPE_MASK
          = USB_ENDPOINT_XFER_ISOC
      · have e1 : ¬ (USB_ENDPOINT_XFER_ISOC = USB_ENDPOINT_XFER_CONTROL) := by decide
        simp only [h1, e1, if_true, if_false, setup_isoc_urb_flags _ _ _ _ d husb, true_and]
        by_cases hc : req.dir_in = true ∧ req.shortok = false
        · by_cases ha : req.asap = true <;> simp [hc, ha]
        · have : ¬ ((!req.shortok && req.dir_in) = true) := fun h => hc (hbase.mp h)
          by_cases ha : req.asap = true <;> simp [hc, this, ha]
      · by_cases h2 : ep.desc.bmAttributes &&& USB_ENDPOINT_XFERTYPE_MASK
            = USB_ENDPOINT_XFER_BULK
        · have e1 : ¬ (USB_ENDPOINT_XFER_BULK = USB_ENDPOINT_XFER_CONTROL) := by decide
          have e2 : ¬ (USB_ENDPOINT_XFER_BULK = USB_ENDPOINT_XFER_ISOC) := by decide
          simp only [h2, e1, e2, if_true, if_false, setup_bulk_urb_flags, false_and,
            Nat.or_zero]
          by_cases hc : req.dir_in = true ∧ req.shortok = false
          · simp [hc]
          · have : ¬ ((!req.shortok && req.dir_in) = true) := fun h => hc (hbase.mp h)
            simp [hc, this]
        · simp only [h0, h1, h2, if_false, setup_int_urb_flags, false_and, Nat.or_zero]
          by_cases hc : req.dir_in = true ∧ req.shortok = false
          · simp [hc]
          · have : ¬ ((!req.shortok && req.dir_in) = true) := fun h => hc (hbase.mp h)
            simp [hc, this]
  have hasap : (if ep.desc.bmAttributes &&& USB_ENDPOINT_XFERTYPE_MASK = USB_ENDPOINT_XFER_ISOC
      ∧ req.asap = true then URB_ISO_ASAP else 0).testBit 0 = false := by
    split_ifs <;> decide
  refine ⟨rfl, hflags, ?_, ?_⟩
  · intro hc
    rw [hflags, Nat.testBit_or, hasap, if_pos hc, Nat.testBit_or]
    have : URB_SHORT_NOT_OK.testBit 0 = true := by decide
    simp [this]
  · intro hc
    rw [hflags, Nat.testBit_or, hasap, if_neg hc]
    simp

theorem vusb_setup_urb_short_not_ok_witness :
    (vusb_setup_urb example_host example_world { get_descriptor_req with shortok := false }
        (example_urb 18)).urb.transfer_flags.testBit 0 = true ∧
      (vusb_setup_urb example_host example_world get_descriptor_req
        (example_urb 18)).urb.transfer_flags.testBit 0 = (example_urb 18).transfer_flags.testBit 0 :=
  ⟨(vusb_setup_urb_short_not_ok example_host example_world
      { get_descriptor_req with shortok := false } (example_urb 18) example_device example_ep0
      (by decide) (Or.inr rfl) (by decide)).2.2.1 (by decide),
   (vusb_setup_urb_short_not_ok example_host example_world get_descriptor_req (example_urb 18)
      example_device example_ep0 (by decide) (Or.inr rfl) (by decide)).2.2.2 (by decide)⟩

/-! ## Intervals -/

theorem shl_one_interval (b : Nat) (hb1 : 1 ≤ b) :
    shl_one (min 15 ((b : Int) - 1)) = ((2 ^ min 15 (b - 1) : Nat) : Int) := by
  unfold shl_one
  have h : (min 15 ((b : Int) - 1)).toNat = min 15 (b - 1) := by omega
  rw [h]
  push_cast
  rfl

theorem two_pow_min_bounds (b : Nat) : 1 ≤ 2 ^ min 15 (b - 1) ∧ 2 ^ min 15 (b - 1) ≤ 32768 := by
  have hk : min 15 (b - 1) ≤ 15 := Nat.min_le_left _ _
  constructor
  · exact Nat.one_le_two_pow
  · calc 2 ^ min 15 (b - 1) ≤ 2 ^ 15 := Nat.pow_le_pow_right (by decide) hk
      _ = 32768 := by norm_num

/-- C17: for an isochronous endpoint with `bInterval` `b` in 1..255,
`setup_isoc_urb` sets `urb->interval` to `2 ^ min(15, b - 1)`, a value in
1..32768, sets `start_frame` to the request's `startframe`, and adds
`URB_ISO_ASAP` (bit 1 of `transfer_flags`) when the request's ASAP bit is set,
leaving the flags as they were when it is not. -/
theorem setup_isoc_urb_interval (w : World) (req : usbif_request) (u : urb)
    (ep : usb_host_endpoint) (usbdev : usb_device)
    (hdev : w.usbif.vusb.usbdev = some usbdev)
    (hb1 : 1 ≤ ep.desc.bInterval) (hb2 : ep.desc.bInterval ≤ 255) :
    (setup_isoc_urb w req u ep).urb.interval
        = ((2 ^ min 15 (ep.desc.bInterval - 1) : Nat) : Int) ∧
      1 ≤ (setup_isoc_urb w req u ep).urb.interval ∧
      (setup_isoc_urb w req u ep).urb.interval ≤ 32768 ∧
      (setup_isoc_urb w req u ep).urb.start_frame = req.startframe ∧
      URB_ISO_ASAP = 2 ^ 1 ∧
      (req.asap = true →
        (setup_isoc_urb w req u ep).urb.transfer_flags = u.transfer_flags ||| URB_ISO_ASAP ∧
        (setup_isoc_urb w req u ep).urb.transfer_flags.testBit 1 = true) ∧
      (req.asap = false →
        (setup_isoc_urb w req u ep).urb.transfer_flags = u.transfer_flags) := by
  have _ := hb2
  have hi : (setup_isoc_urb w req u ep).urb.interval
      = shl_one (min 15 ((ep.desc.bInterval : Int) - 1)) := by
    unfold setup_isoc_urb
    simp only [hdev]
    by_cases ha : req.asap = true <;> by_cases hd : req.dir_in = true <;> simp [ha, hd]
  have hsf : (setup_isoc_urb w req u ep).urb.start_frame = req.startframe := by
    unfold setup_isoc_urb
    simp only [hdev]
    by_cases ha : req.asap = true <;> by_cases hd : req.dir_in = true <;> simp [ha, hd]
  have hfl := setup_isoc_urb_flags w req u ep usbdev hdev
  have hb := two_pow_min_bounds ep.desc.bInterval
  rw [hi, shl_one_interval _ hb1]
  refine ⟨rfl, by exact_mod_cast hb.1, by exact_mod_cast hb.2, hsf, rfl, ?_, ?_⟩
  · intro ha
    rw [hfl, if_pos ha]
    refine ⟨rfl, ?_⟩
    rw [Nat.testBit_or]
    have : URB_ISO_ASAP.testBit 1 = true := by decide
    simp [this]
  · intro ha
    rw [hfl]
    simp [ha]

theorem setup_isoc_urb_interval_witness :
    (setup_isoc_urb example_world isoc_asap_req (example_urb 564) example_isoc_ep).urb.interval
        = 8 ∧
      (setup_isoc_urb example_world isoc_asap_req (example_urb 564)
        example_isoc_ep).urb.start_frame = 100 ∧
      (setup_isoc_urb example_world isoc_asap_req (example_urb 564)
        example_isoc_ep).urb.transfer_flags.testBit 1 = true :=
  have h := setup_isoc_urb_interval example_world isoc_asap_req (example_urb 564)
    example_isoc_ep example_device rfl (by decide) (by decide)
  ⟨h.1, h.2.2.2.1, (h.2.2.2.2.2.1 rfl).2⟩

/-- C18: for an interrupt endpoint with `bInterval` `b` in 1..255,
`setup_int_urb` sets `urb->interval` to `2 ^ min(15, b - 1)` when the device
speed is high or super, and to `b` itself when it is full or low. -/
theorem setup_int_urb_interval (w : World) (req : usbif_request) (u : urb)
    (ep : usb_host_endpoint) (usbdev : usb_device)
    (hdev : w.usbif.vusb.usbdev = some usbdev)
    (hb1 : 1 ≤ ep.desc.bInterval) (hb2 : ep.desc.bInterval ≤ 255) :
    ((usbdev.speed = usb_device_speed.USB_SPEED_HIGH ∨
        usbdev.speed = usb_device_speed.USB_SPEED_SUPER) →
      (setup_int_urb w req u ep).urb.interval
        = ((2 ^ min 15 (ep.desc.bInterval - 1) : Nat) : Int)) ∧
    ((usbdev.speed = usb_device_speed.USB_SPEED_FULL ∨
        usbdev.speed = usb_device_speed.USB_SPEED_LOW) →
      (setup_int_urb w req u ep).urb.interval = (ep.desc.bInterval : Int)) := by
  have _ := hb2
  constructor
  · intro hs
    rw [← shl_one_interval _ hb1]
    unfold setup_int_urb
    simp only [hdev]
    rcases hs with hs | hs <;> by_cases hd : req.dir_in = true <;> simp [hs, hd]
  · intro hs
    unfold setup_int_urb
    simp only [hdev]
    rcases hs with hs | hs <;> by_cases hd : req.dir_in = true <;> simp [hs, hd]

theorem setup_int_urb_interval_witness :
    (setup_int_urb example_world get_descriptor_req (example_urb 8) example_int_ep).urb.interval
        = 512 ∧
      (setup_int_urb
        (set_usbdev example_world
          { example_device with speed := usb_device_speed.USB_SPEED_FULL })
        get_descriptor_req (example_urb 8) example_int_ep).urb.interval = 10 :=
  ⟨(setup_int_urb_interval example_world get_descriptor_req (example_urb 8) example_int_ep
      example_device rfl (by decide) (by decide)).1 (Or.inl rfl),
   (setup_int_urb_interval
      (set_usbdev example_world { example_device with speed := usb_device_speed.USB_SPEED_FULL })
      get_descriptor_req (example_urb 8) example_int_ep
      { example_device with speed := usb_device_speed.USB_SPEED_FULL } rfl (by decide)
      (by decide)).2 (Or.inl rfl)⟩

/-! ## Lookup in the device map -/

theorem find_flush_dups_self (bus device : Int) (t : List vusb_map) :
    vusb_find_device bus device (flush_dups bus device t) = 0 := by
  induction t with
  | nil => rfl
  | cons m rest ih =>
    simp only [flush_dups]
    by_cases hm : m.bus = bus ∧ m.device = device
    · simp [hm, vusb_find_device, ih]
    · have : ¬ (m.vusb ≠ 0 ∧ m.bus = bus ∧ m.device = device) := fun h => hm h.2
      rw [if_neg hm]
      simp only [vusb_find_device]
      rw [if_neg this]
      exact ih

theorem find_flush_dups_other (bus device b d : Int) (hne : ¬ (b = bus ∧ d = device))
    (t : List vusb_map) :
    vusb_find_device b d (flush_dups bus device t) = vusb_find_device b d t := by
  induction t with
  | nil => rfl
  | cons m rest ih =>
    simp only [flush_dups]
    by_cases hm : m.bus = bus ∧ m.device = device
    · have h1 : ¬ (m.vusb ≠ 0 ∧ m.bus = b ∧ m.device = d) := by
        rintro ⟨-, hb, hd⟩
        exact hne ⟨hb ▸ hm.1, hd ▸ hm.2⟩
      rw [if_pos hm]
      simp only [vusb_find_device]
      rw [if_neg h1, if_neg (by simp)]
      exact ih
    · rw [if_neg hm]
      simp only [vusb_find_device, ih]

theorem map_device_ret (v : Nat) (bus device : Int) (t : List vusb_map) :
    (vusb_map_device v bus device t).1 = 0 ∨ (vusb_map_device v bus device t).1 = -1 := by
  induction t with
  | nil => right; rfl
  | cons m rest ih =>
    simp only [vusb_map_device]
    split_ifs
    · left; rfl
    · exact ih

theorem map_device_find_self (v : Nat) (bus device : Int) (t : List vusb_map)
    (h : (vusb_map_device v bus device t).1 = 0) :
    vusb_find_device bus device (vusb_map_device v bus device t).2 = v := by
  induction t with
  | nil => simp [vusb_map_device] at h
  | cons m rest ih =>
    simp only [vusb_map_device] at h ⊢
    by_cases hm : m.vusb = 0 ∨ (m.bus = bus ∧ m.device = device)
    · simp only [hm, if_true, vusb_find_device]
      by_cases hv : v = 0
      · subst hv
        simp [find_flush_dups_self]
      · simp [hv]
    · simp only [hm, if_false] at h ⊢
      have : ¬ (m.vusb ≠ 0 ∧ m.bus = bus ∧ m.device = device) := fun hh => hm (Or.inr hh.2)
      simp only [vusb_find_device, this, if_false]
      exact ih h

theorem map_device_find_other (v : Nat) (bus device b d : Int)
    (hne : ¬ (b = bus ∧ d = device)) (t : List vusb_map) :
    vusb_find_device b d (vusb_map_device v bus device t).2 = vusb_find_device b d t := by
  induction t with
  | nil => rfl
  | cons m rest ih =>
    simp only [vusb_map_device]
    by_cases hm : m.vusb = 0 ∨ (m.bus = bus ∧ m.device = device)
    · have h1 : ¬ (v ≠ 0 ∧ bus = b ∧ device = d) := fun hh => hne ⟨hh.2.1.symm, hh.2.2.symm⟩
      have h2 : ¬ (m.vusb ≠ 0 ∧ m.bus = b ∧ m.device = d) := by
        rintro ⟨hv, hb, hd⟩
        rcases hm with hm | hm
        · exact hv hm
        · exact hne ⟨hb ▸ hm.1, hd ▸ hm.2⟩
      simp only [hm, if_true, vusb_find_device, h1, h2, if_false]
      exact find_flush_dups_other bus device b d hne rest
    · simp only [hm, if_false, vusb_find_device, ih]

theorem map_device_full (v : Nat) (bus device : Int) (t : List vusb_map)
    (h : (vusb_map_device v bus device t).1 = -1) :
    (vusb_map_device v bus device t).2 = t ∧
      ∀ m ∈ t, m.vusb ≠ 0 ∧ ¬ (m.bus = bus ∧ m.device = device) := by
  induction t with
  | nil => exact ⟨rfl, fun m hm => absurd hm (List.not_mem_nil m)⟩
  | cons m rest ih =>
    simp only [vusb_map_device] at h ⊢
    by_cases hm : m.vusb = 0 ∨ (m.bus = bus ∧ m.device = device)
    · simp [hm] at h
    · simp only [hm, if_false] at h ⊢
      obtain ⟨h1, h2⟩ := ih h
      refine ⟨by rw [h1], ?_⟩
      intro x hx
      rcases List.mem_cons.mp hx with hx | hx
      · subst hx
        exact ⟨fun h0 => hm (Or.inl h0), fun hk => hm (Or.inr hk)⟩
      · exact h2 x hx

theorem map_device_length (v : Nat) (bus device : Int) (t : List vusb_map) :
    (vusb_map_device v bus device t).2.length = t.length := by
  have hflush : ∀ l : List vusb_map, (flush_dups bus device l).length = l.length := by
    intro l
    induction l with
    | nil => rfl
    | cons m rest ih => simp [flush_dups, ih]
  induction t with
  | nil => rfl
  | cons m rest ih =>
    simp only [vusb_map_device]
    split_ifs
    · simp [hflush]
    · simp [ih]

/-- C19: when `vusb_map_device(v, bus, device)` returns 0, a following
`vusb_find_device(bus, device)` returns `v`, and for every other pair
`vusb_find_device` returns what it returned before; the only other return
value is -1, and then the table is unchanged and every slot of it holds a
record of another pair; the table keeps its number of slots, 512 from the
start. -/
theorem vusb_map_device_find (v : Nat) (bus device : Int) (t : List vusb_map) :
    ((vusb_map_device v bus device t).1 = 0 →
        vusb_find_device bus device (vusb_map_device v bus device t).2 = v) ∧
      (∀ b d, ¬ (b = bus ∧ d = device) →
        vusb_find_device b d (vusb_map_device v bus device t).2 = vusb_find_device b d t) ∧
      ((vusb_map_device v bus device t).1 = 0 ∨ (vusb_map_device v bus device t).1 = -1) ∧
      ((vusb_map_device v bus device t).1 = -1 →
        (vusb_map_device v bus device t).2 = t ∧
        ∀ m ∈ t, m.vusb ≠ 0 ∧ ¬ (m.bus = bus ∧ m.device = device)) ∧
      (vusb_map_device v bus device t).2.length = t.length ∧
      vusb_map_init.length = 512 :=
  ⟨map_device_find_self v bus device t,
   fun b d hne => map_device_find_other v bus device b d hne t,
   map_device_ret v bus device t,
   map_device_full v bus device t,
   map_device_length v bus device t,
   by unfold vusb_map_init; rw [List.length_replicate]; rfl⟩

theorem vusb_map_device_find_witness :
    (vusb_map_device 5 1 2 vusb_map_init).1 = 0 ∧
      vusb_find_device 1 2 (vusb_map_device 5 1 2 vusb_map_init).2 = 5 ∧
      vusb_find_device 3 4 (vusb_map_device 5 1 2 vusb_map_init).2
        = vusb_find_device 3 4 vusb_map_init :=
  have h0 : (vusb_map_device 5 1 2 vusb_map_init).1 = 0 := rfl
  have h := vusb_map_device_find 5 1 2 vusb_map_init
  ⟨h0, h.1 h0, h.2.1 3 4 (by decide)⟩

/-! ## Probe -/

theorem find_device_ne_zero (bus device : Int) (t : List vusb_map) :
    vusb_find_device bus device t ≠ 0 ↔
      ∃ m ∈ t, m.vusb ≠ 0 ∧ m.bus = bus ∧ m.device = device := by
  induction t with
  | nil => simp [vusb_find_device]
  | cons m rest ih =>
    simp only [vusb_find_device]
    by_cases hm : m.vusb ≠ 0 ∧ m.bus = bus ∧ m.device = device
    · rw [if_pos hm]
      exact ⟨fun _ => ⟨m, List.mem_cons_self m rest, hm⟩, fun _ => hm.1⟩
    · rw [if_neg hm, ih]
      constructor
      · rintro ⟨x, hx, hp⟩
        exact ⟨x, List.mem_cons_of_mem m hx, hp⟩
      · rintro ⟨x, hx, hp⟩
        rcases List.mem_cons.mp hx with hx | hx
        · subst hx
          exact absurd hp hm
        · exact ⟨x, hx, hp⟩

/-- C20: `vusb_probe` looks the probed device up in the map by (bus, devnum).
A record is found exactly when a slot holds a non-NULL record for the pair.
When the record found is inactive its reference count becomes 1 and it is
marked active; when it is active its reference count goes up by 1; in both
cases the interface's owner slot is set to the record, no other record and no
slot of the map changes, and 0 is returned.  When no record is found
`-ENODEV` is returned and nothing changes. -/
theorem vusb_probe_refcount (s : VusbDriver) (udev : usb_device) (intf : usb_interface) :
    (vusb_find_device udev.busnum udev.devnum s.vusb_map ≠ 0 ↔
        ∃ m ∈ s.vusb_map, m.vusb ≠ 0 ∧ m.bus = udev.busnum ∧ m.device = udev.devnum) ∧
      (vusb_find_device udev.busnum udev.devnum s.vusb_map ≠ 0 →
        (vusb_probe s udev intf).1 = 0 ∧
        (vusb_probe s udev intf).2.2.intfdata
          = vusb_find_device udev.busnum udev.devnum s.vusb_map ∧
        (vusb_probe s udev intf).2.1.vusb_map = s.vusb_map ∧
        (∀ q, q ≠ vusb_find_device udev.busnum udev.devnum s.vusb_map →
          (vusb_probe s udev intf).2.1.records q = s.records q) ∧
        ((s.records (vusb_find_device udev.busnum udev.devnum s.vusb_map)).active = 0 →
          (vusb_probe s udev intf).2.1.records
              (vusb_find_device udev.busnum udev.devnum s.vusb_map)
            = { s.records (vusb_find_device udev.busnum udev.devnum s.vusb_map) with
                kref := 1, active := 1 }) ∧
        ((s.records (vusb_find_device udev.busnum udev.devnum s.vusb_map)).active ≠ 0 →
          (vusb_probe s udev intf).2.1.records
              (vusb_find_device udev.busnum udev.devnum s.vusb_map)
            = { s.records (vusb_find_device udev.busnum udev.devnum s.vusb_map) with
                kref := (s.records
                  (vusb_find_device udev.busnum udev.devnum s.vusb_map)).kref + 1 })) ∧
      (vusb_find_device udev.busnum udev.devnum s.vusb_map = 0 →
        (vusb_probe s udev intf).1 = -ENODEV ∧
        (vusb_probe s udev intf).2.1.vusb_map = s.vusb_map ∧
        (∀ q, (vusb_probe s udev intf).2.1.records q = s.records q) ∧
        (vusb_probe s udev intf).2.2 = intf) := by
  refine ⟨find_device_ne_zero _ _ _, ?_, ?_⟩
  · intro hp
    have hprobe : vusb_probe s udev intf
        = (0,
            { s with records := fun q =>
                if q = vusb_find_device udev.busnum udev.devnum s.vusb_map then
                  (if (s.records (vusb_find_device udev.busnum udev.devnum s.vusb_map)).active = 0
                    then { kref_init (s.records
                        (vusb_find_device udev.busnum udev.devnum s.vusb_map)) with active := 1 }
                    else kref_get (s.records
                        (vusb_find_device udev.busnum udev.devnum s.vusb_map)))
                else s.records q },
            { intf with intfdata := vusb_find_device udev.busnum udev.devnum s.vusb_map }) := by
      unfold vusb_probe
      exact if_pos hp
    rw [hprobe]
    refine ⟨rfl, rfl, rfl, ?_, ?_, ?_⟩
    · intro q hq
      exact if_neg hq
    · intro ha
      simp only [if_true, ha]
      rfl
    · intro ha
      simp only [if_true, ha, if_false]
      rfl
  · intro hp
    have hprobe : vusb_probe s udev intf = (-ENODEV, s, intf) := by
      unfold vusb_probe
      exact if_neg (fun h => h hp)
    rw [hprobe]
    exact ⟨rfl, rfl, fun _ => rfl, rfl⟩

theorem vusb_probe_refcount_witness :
    (vusb_probe example_driver example_device example_intf).1 = 0 ∧
      (vusb_probe example_driver example_device example_intf).2.2.intfdata = 5 ∧
      ((vusb_probe example_driver example_device example_intf).2.1.records 5).kref = 1 ∧
      ((vusb_probe example_driver example_device example_intf).2.1.records 5).active = 1 :=
  have hp : vusb_find_device example_device.busnum example_device.devnum
      example_driver.vusb_map ≠ 0 := by decide
  have h := (vusb_probe_refcount example_driver example_device example_intf).2.1 hp
  ⟨h.1, h.2.1, congrArg (fun v => v.kref) (h.2.2.2.2.1 rfl),
    congrArg (fun v => v.active) (h.2.2.2.2.1 rfl)⟩

/-! ## The three ring layouts decode alike -/

theorem memcpy_bytes_whole (dst src : List Nat) (n : Nat) (hs : src.length = n)
    (hd : dst.length = n) : memcpy_bytes dst src n = src := by
  unfold memcpy_bytes writeBytes readBytes
  have h1 : List.take n src = src := List.take_of_length_le (by omega)
  simp only [Int.toNat_zero, List.drop_zero, List.take_zero, List.nil_append, Int.toNat_ofNat,
    h1, Nat.zero_add]
  rw [List.drop_eq_nil_of_le (by omega)]
  simp

/-- C27: a request image in a ring slot decodes to the same request through
the 32-bit-layout accessor, the 64-bit-layout accessor and the native layout
(the image itself): both accessors copy `sizeof(usbif_request_t)` bytes of the
one request struct, so every field read from the copies equals the field read
from the image. -/
theorem request_layouts_agree (size : Nat) (dst32 dst64 img : List Nat)
    (himg : img.length = size) (h32 : dst32.length = size) (h64 : dst64.length = size) :
    usbif_get_x86_32_req size dst32 img = img ∧
      usbif_get_x86_64_req size dst64 img = img ∧
      usbif_get_x86_32_req size dst32 img = usbif_get_x86_64_req size dst64 img ∧
      ∀ {α : Type} (field : List Nat → α),
        field (usbif_get_x86_32_req size dst32 img) = field img ∧
        field (usbif_get_x86_64_req size dst64 img) = field img := by
  have e32 : usbif_get_x86_32_req size dst32 img = img := memcpy_bytes_whole _ _ _ himg h32
  have e64 : usbif_get_x86_64_req size dst64 img = img := memcpy_bytes_whole _ _ _ himg h64
  refine ⟨e32, e64, by rw [e32, e64], ?_⟩
  intro α field
  rw [e32, e64]
  exact ⟨rfl, rfl⟩

theorem request_layouts_agree_witness :
    usbif_get_x86_32_req 8 (List.replicate 8 0) example_slot = example_slot ∧
      usbif_get_x86_64_req 8 (List.replicate 8 0) example_slot = example_slot :=
  have h := request_layouts_agree 8 (List.replicate 8 0) (List.replicate 8 0) example_slot
    rfl rfl rfl
  ⟨h.1, h.2.1⟩

/-! ## Round trip of the inbound and outbound copy -/

theorem span_bytes_snoc (offset : Int) (A : List (List Nat)) (p : List Nat) (hA : A ≠ []) :
    span_bytes offset (A ++ [p]) = span_bytes offset A ++ p := by
  cases A with
  | nil => exact absurd rfl hA
  | cons a rest => simp [span_bytes, List.flatten_append]

theorem headD_snoc (A : List (List Nat)) (p : List Nat) (hA : A ≠ []) :
    (A ++ [p]).headD [] = A.headD [] := by
  cases A with
  | nil => exact absurd rfl hA
  | cons a rest => rfl

theorem write_page_after (A rest : List (List Nat)) (p X : List Nat) (i : Nat)
    (hA : A.length = i) :
    (Mem.write { buf := B, pages := A ++ p :: rest } (Addr.page i 0) X).pages
      = (A ++ [X ++ p.drop X.length]) ++ rest := by
  subst hA
  simp only [Mem.write, writeBytes, Int.toNat_zero, List.take_zero, List.nil_append,
    Nat.zero_add]
  have hget : (A ++ p :: rest).getD A.length [] = p := by
    rw [List.getD_eq_getElem?_getD, List.getElem?_append_right (le_refl _)]
    simp
  rw [hget, List.set_append_right _ _ (le_refl _)]
  simp

theorem copy_in_seg_written (pages : List (List Nat)) (B : List Nat) (offset L : Int)
    (hL : 0 ≤ L) (hm : L ≤ INT_MAX) (hB : B.length = L.toNat)
    (hpages : ∀ p ∈ pages, p.length = 4096)
    (i : Nat) (h1 : 1 ≤ i) (hi : i < pages.length) (s : CopyState)
    (h : WrittenTo pages B offset L i s) :
    WrittenTo pages B offset L (i + 1) (copy_in_seg i s) := by
  obtain ⟨A, c, hAlen, hA4096, hc, hpos, hrem, hrun, hspan, hhead⟩ := h
  have hr0 : 0 ≤ s.remaining := by rw [hrem, hpos, hc]; omega
  have hr1 : s.remaining ≤ INT_MAX := by rw [hrem, hpos, hc]; omega
  have hk := copy_chunk_eq s.remaining hr0 hr1
  have hAne : A ≠ [] := by
    intro hnil
    rw [hnil] at hAlen
    simp at hAlen
    omega
  -- the page being written
  have hdrop : pages.drop i = pages[i] :: pages.drop (i + 1) := List.drop_eq_getElem_cons hi
  have hp : pages[i].length = 4096 := hpages _ (List.getElem_mem hi)
  have hgetD : pages.getD i [] = pages[i] := by
    simp [List.getD_eq_getElem?_getD, List.getElem?_eq_getElem hi]
  -- the bytes read from the buffer
  have hX : readBytes B s.pos (copy_chunk s.remaining)
      = (B.drop c).take (copy_chunk s.remaining).toNat := by
    unfold readBytes
    rw [hpos]
    simp
  have hXlen : ((B.drop c).take (copy_chunk s.remaining).toNat).length
      = (copy_chunk s.remaining).toNat := by
    rw [List.length_take, List.length_drop, hB, hk, hrem, hpos, hc]
    unfold PAGE_SIZE
    omega
  have hlen4096 : (copy_chunk s.remaining).toNat ≤ 4096 := by
    rw [hk]; unfold PAGE_SIZE; omega
  refine ⟨A ++ [(B.drop c).take (copy_chunk s.remaining).toNat
      ++ pages[i].drop (copy_chunk s.remaining).toNat],
    min L.toNat (span_bytes offset (pages.take (i + 1))).length, ?_, ?_, rfl, ?_, ?_, ?_, ?_, ?_⟩
  · simp [hAlen]
  · intro p hpm
    rcases List.mem_append.mp hpm with hpm | hpm
    · exact hA4096 p hpm
    · simp only [List.mem_singleton] at hpm
      subst hpm
      rw [List.length_append, hXlen, List.length_drop, hp]
      omega
  · -- pos
    simp only [copy_in_seg]
    rw [span_bytes_take_succ offset pages i h1 hi, List.length_append, hgetD, hp, hpos, hk,
      hrem, hpos, hc]
    unfold PAGE_SIZE
    omega
  · simp only [copy_in_seg, hrem]
    ring
  · -- memory
    simp only [copy_in_seg, mem_run_snoc, hrun, Mem.memcpy]
    have hread : Mem.read { buf := B, pages := A ++ pages.drop i } (Addr.buf s.pos)
        (copy_chunk s.remaining) = (B.drop c).take (copy_chunk s.remaining).toNat := hX
    rw [hread, hdrop]
    have hw := write_page_after (B := B) A (pages.drop (i + 1)) pages[i]
      ((B.drop c).take (copy_chunk s.remaining).toNat) i hAlen
    rw [hXlen] at hw
    have hbuf : (Mem.write { buf := B, pages := A ++ pages[i] :: pages.drop (i + 1) }
        (Addr.page i 0) ((B.drop c).take (copy_chunk s.remaining).toNat)).buf = B := rfl
    cases hmw : Mem.write { buf := B, pages := A ++ pages[i] :: pages.drop (i + 1) }
        (Addr.page i 0) ((B.drop c).take (copy_chunk s.remaining).toNat) with
    | mk b pg =>
      rw [hmw] at hw hbuf
      simp only at hw hbuf
      rw [hw, hbuf]
  · -- spans
    rw [span_bytes_snoc offset A _ hAne, hspan, span_bytes_take_succ offset pages i h1 hi,
      hgetD]
    by_cases hcase : (span_bytes offset (pages.take i)).length ≤ L.toNat
    · have hcS : c = (span_bytes offset (pages.take i)).length := by omega
      have hlen : (copy_chunk s.remaining).toNat = min (L.toNat - c) 4096 := by
        rw [hk, hrem, hpos]; unfold PAGE_SIZE; omega
      have hc1 : min L.toNat ((span_bytes offset (pages.take i)).length + pages[i].length)
          = c + (copy_chunk s.remaining).toNat := by
        rw [hp, hlen]; omega
      rw [List.length_append, hc1, List.take_add]
      have hd0 : (span_bytes offset (pages.take i)).drop c = [] :=
        List.drop_eq_nil_of_le (by omega)
      rw [hd0, hcS, List.drop_append]
      simp
    · have hcL : c = L.toNat := by omega
      have hlen : (copy_chunk s.remaining).toNat = 0 := by
        rw [hk, hrem, hpos]; unfold PAGE_SIZE; omega
      have hc1 : min L.toNat ((span_bytes offset (pages.take i)).length + pages[i].length)
          = c := by omega
      rw [List.length_append, hc1, hlen,
        List.drop_append_of_le_length (by omega)]
      simp
  · rw [headD_snoc _ _ hAne]
    exact hhead

theorem copy_in_first_written (p0 : List Nat) (rest : List (List Nat)) (B : List Nat)
    (offset L : Int) (ho : 0 ≤ offset) (hp : offset ≤ PAGE_SIZE) (hL : 0 ≤ L)
    (hm : L ≤ INT_MAX) (hB : B.length = L.toNat) (hp0 : p0.length = 4096) :
    WrittenTo (p0 :: rest) B offset L 1
      { pos := copy_first_chunk offset L, remaining := L - copy_first_chunk offset L,
        ops := [⟨Addr.page 0 offset, Addr.buf 0, copy_first_chunk offset L⟩] } := by
  have hf := copy_first_chunk_eq offset L ho hp hL hm
  have hspan : span_bytes offset (List.take 1 (p0 :: rest)) = p0.drop offset.toNat := by
    simp [span_bytes]
  have hc : (copy_first_chunk offset L).toNat = min L.toNat (4096 - offset.toNat) := by
    rw [hf]; unfold PAGE_SIZE at *; omega
  have hX : readBytes B 0 (copy_first_chunk offset L)
      = B.take (min L.toNat (4096 - offset.toNat)) := by
    unfold readBytes
    rw [hc]
    simp
  have hXlen : (B.take (min L.toNat (4096 - offset.toNat))).length
      = min L.toNat (4096 - offset.toNat) := by
    rw [List.length_take, hB]; omega
  have hoff : offset.toNat ≤ 4096 := by unfold PAGE_SIZE at hp; omega
  refine ⟨[writeBytes p0 offset (B.take (min L.toNat (4096 - offset.toNat)))],
    min L.toNat (4096 - offset.toNat), rfl, ?_, ?_, ?_, rfl, ?_, ?_, ?_⟩
  · intro p hpm
    simp only [List.mem_singleton] at hpm
    subst hpm
    unfold writeBytes
    simp only [List.length_append, List.length_take, List.length_drop, hp0, hB]
    omega
  · rw [hspan, List.length_drop, hp0]
  · simp only [hf]
    unfold PAGE_SIZE at *
    omega
  · simp only [Mem.run, List.foldl_cons, List.foldl_nil, Mem.memcpy, Mem.read, Mem.write,
      List.getD_cons_zero, hX]
    simp
  · rw [hspan]
    unfold writeBytes
    simp only [span_bytes, List.flatten_nil, List.append_nil, List.append_assoc]
    rw [List.drop_append_of_le_length (by rw [List.length_take, hp0]; omega)]
    have e0 : (p0.take offset.toNat).drop offset.toNat = [] :=
      List.drop_eq_nil_of_le (by rw [List.length_take]; omega)
    rw [e0, List.nil_append, hXlen, List.drop_drop]
  · unfold writeBytes
    simp only [List.headD_cons, List.append_assoc]
    rw [List.take_append_of_le_length (by rw [List.length_take, hp0]; omega), List.take_take]
    congr 1; omega

theorem for_loop_written (pages : List (List Nat)) (B : List Nat) (offset L : Int)
    (hL : 0 ≤ L) (hm : L ≤ INT_MAX) (hB : B.length = L.toNat)
    (hpages : ∀ p ∈ pages, p.length = 4096) :
    ∀ (n i : Nat) (s : CopyState), 1 ≤ i → i + n = pages.length →
      WrittenTo pages B offset L i s →
      WrittenTo pages B offset L (i + n) (for_loop copy_in_seg n i s) := by
  intro n
  induction n with
  | zero => intro i s _ _ h; simpa [for_loop] using h
  | succ n ih =>
    intro i s h1 hn h
    simp only [for_loop]
    have hstep := copy_in_seg_written pages B offset L hL hm hB hpages i h1 (by omega) s h
    have := ih (i + 1) (copy_in_seg i s) (by omega) (by omega) hstep
    have e : i + (n + 1) = i + 1 + n := by omega
    rw [e]
    exact this

theorem flatten_length_pages (ps : List (List Nat)) (h : ∀ p ∈ ps, p.length = 4096) :
    ps.flatten.length = 4096 * ps.length := by
  induction ps with
  | nil => rfl
  | cons p rest ih =>
    have hp := h p (by simp)
    have hr := ih (fun q hq => h q (by simp [hq]))
    simp only [List.flatten_cons, List.length_append, List.length_cons, hp, hr]
    omega

theorem span_bytes_length (offset : Int) (pages : List (List Nat)) (ho : 0 ≤ offset)
    (hp : offset ≤ PAGE_SIZE) (hpages : ∀ p ∈ pages, p.length = 4096) :
    ((span_bytes offset pages).length : Int) = page_spans pages.length offset := by
  cases pages with
  | nil => simp [span_bytes, page_spans]
  | cons p0 rest =>
    have hp0 := hpages p0 (by simp)
    have hr := flatten_length_pages rest (fun q hq => hpages q (by simp [hq]))
    simp only [span_bytes, page_spans, List.length_append, List.length_drop, hp0, hr,
      List.length_cons]
    unfold PAGE_SIZE at *
    rw [if_neg (by omega)]
    push_cast
    omega

/-- The guest pages and the transfer buffer after `copy_in_req` wrote a buffer
that fits the page spans. -/
theorem copy_in_req_pages (req : pending_req) (hn : 1 ≤ data_pages req)
    (ho : 0 ≤ req.offset) (hp : req.offset ≤ PAGE_SIZE) (hL : 0 ≤ req.urb.actual_length)
    (hm : req.urb.actual_length ≤ INT_MAX)
    (hfit : req.urb.actual_length ≤ page_spans (data_pages req) req.offset)
    (hB : req.urb.transfer_buffer.length = req.urb.actual_length.toNat)
    (hpages : ∀ p ∈ req.pages, p.length = 4096) :
    (exec_copies req (copy_in_req req)).urb.transfer_buffer = req.urb.transfer_buffer ∧
      (exec_copies req (copy_in_req req)).pages.length = req.pages.length ∧
      (∀ p ∈ (exec_copies req (copy_in_req req)).pages, p.length = 4096) ∧
      span_bytes req.offset (exec_copies req (copy_in_req req)).pages
        = req.urb.transfer_buffer
          ++ (span_bytes req.offset req.pages).drop req.urb.actual_length.toNat ∧
      ((exec_copies req (copy_in_req req)).pages.headD []).take req.offset.toNat
        = (req.pages.headD []).take req.offset.toNat := by
  have hlen := span_bytes_length req.offset req.pages ho hp hpages
  unfold exec_copies copy_in_req
  have hn0 : ¬ data_pages req = 0 := by omega
  simp only [hn0, if_false]
  cases hpg : req.pages with
  | nil => simp [data_pages, hpg] at hn0
  | cons p0 rest =>
    have hp0 : p0.length = 4096 := hpages p0 (by simp [hpg])
    have hbase := copy_in_first_written p0 rest req.urb.transfer_buffer req.offset
      req.urb.actual_length ho hp hL hm hB hp0
    have hloop := for_loop_written (p0 :: rest) req.urb.transfer_buffer req.offset
      req.urb.actual_length hL hm hB (by rw [← hpg]; exact hpages)
      (data_pages req - 1) 1 _ (le_refl 1) (by simp [data_pages, hpg]; omega) hbase
    have hN : 1 + (data_pages req - 1) = (p0 :: rest).length := by
      simp [data_pages, hpg]; omega
    rw [hN] at hloop
    obtain ⟨A, c, hAlen, hA4096, hc, -, -, hrun, hspan, hhead⟩ := hloop
    rw [List.take_length] at hc hspan
    rw [List.drop_length, List.append_nil] at hrun
    have hcL : c = req.urb.actual_length.toNat := by
      rw [hpg] at hlen
      have hfit2 : req.urb.actual_length ≤ page_spans (p0 :: rest).length req.offset := by
        simpa [data_pages, hpg] using hfit
      omega
    have htake : req.urb.transfer_buffer.take c = req.urb.transfer_buffer :=
      List.take_of_length_le (by omega)
    rw [htake, hcL] at hspan
    simp only [hrun]
    exact ⟨trivial, hAlen, hA4096, hspan, hhead⟩

/-- C28: round trip of the non-isochronous copy routines.  For a request with
at least one data page of 4096 bytes each, first-page offset in
`[0, PAGE_SIZE)` and a buffer `B` of `L = actual_length` bytes that fits the
page spans (`L ≤ (PAGE_SIZE - offset) + (n - 1) * PAGE_SIZE`, `L ≤ INT_MAX`),
writing `B` into the guest pages with `copy_in_req` and reading the pages
back with `copy_out_req` (`transfer_buffer_length = L`, into any buffer of
`L` bytes) reproduces `B`; `copy_in_req` keeps the number and the size of the
pages, the bytes of the first page ahead of `offset` and the span bytes from
byte `L` on, and leaves `B` itself as it was. -/
theorem copy_round_trip (req : pending_req) (buf0 : List Nat)
    (hn : 1 ≤ data_pages req) (ho : 0 ≤ req.offset) (hp : req.offset < PAGE_SIZE)
    (hL : 0 ≤ req.urb.actual_length) (hm : req.urb.actual_length ≤ INT_MAX)
    (hfit : req.urb.actual_length ≤ page_spans (data_pages req) req.offset)
    (hB : req.urb.transfer_buffer.length = req.urb.actual_length.toNat)
    (hpages : ∀ p ∈ req.pages, p.length = 4096)
    (hbuf0 : buf0.length = req.urb.actual_length.toNat) :
    (exec_copies (read_back req buf0) (copy_out_req (read_back req buf0))).urb.transfer_buffer
        = req.urb.transfer_buffer ∧
      (exec_copies req (copy_in_req req)).urb.transfer_buffer = req.urb.transfer_buffer ∧
      (exec_copies req (copy_in_req req)).pages.length = req.pages.length ∧
      (∀ p ∈ (exec_copies req (copy_in_req req)).pages, p.length = 4096) ∧
      ((exec_copies req (copy_in_req req)).pages.headD []).take req.offset.toNat
        = (req.pages.headD []).take req.offset.toNat ∧
      (span_bytes req.offset (exec_copies req (copy_in_req req)).pages).drop
          req.urb.actual_length.toNat
        = (span_bytes req.offset req.pages).drop req.urb.actual_length.toNat := by
  obtain ⟨hbuf, hlen, h4096, hspan, hhead⟩ :=
    copy_in_req_pages req hn ho (le_of_lt hp) hL hm hfit hB hpages
  have hout := (copy_out_req_buffer (read_back req buf0) ho (le_of_lt hp) hL hm h4096).1
  have hpg : (read_back req buf0).pages = (exec_copies req (copy_in_req req)).pages := rfl
  have hoff : (read_back req buf0).offset = req.offset := rfl
  have hB0 : (read_back req buf0).urb.transfer_buffer = buf0 := rfl
  have hLL : (read_back req buf0).urb.transfer_buffer_length = req.urb.actual_length := rfl
  refine ⟨?_, hbuf, hlen, h4096, hhead, ?_⟩
  · rw [hout, hpg, hoff, hB0, hLL, hspan, ← hB, List.take_left, List.drop_eq_nil_of_le,
      List.append_nil]
    omega
  · rw [hspan, ← hB, List.drop_left]

theorem copy_round_trip_witness :
    (exec_copies (read_back bulk_in_5000 (List.replicate 5000 0))
        (copy_out_req (read_back bulk_in_5000 (List.replicate 5000 0)))).urb.transfer_buffer
      = List.replicate 5000 7 :=
  (copy_round_trip bulk_in_5000 (List.replicate 5000 0) (by decide) (by decide) (by decide)
    (by decide) (by decide) (by decide) (List.length_replicate _ _)
    (by
      intro p hp
      simp only [bulk_in_5000, List.mem_cons, List.mem_singleton, List.not_mem_nil,
        or_false] at hp
      rcases hp with rfl | rfl <;> exact example_page_length _)
    (List.length_replicate _ _)).1

/-! ## `interface.c`: mapping, binding and the reference count -/

theorem usbif_disconnect_returns (w : World) (h : w.usbif.refcnt = 1) :
    ∃ w1, usbif_disconnect w = some w1 ∧
      w1.calls = w.calls ++ disconnect_trace w.usbif ∧
      w1.usbif.refcnt = 1 ∧ w1.usbif.irq = 0 ∧ w1.usbif.sring = 0 ∧ w1.usbif.xenusbd = 0 ∧
      (w.usbif.sring = w.usbif.usb_ring_addr → w1.usbif.usb_ring_addr = 0) ∧
      w1.usbif.vusb = w.usbif.vusb := by
  unfold usbif_disconnect usbif_kill_xenusbd record_call disconnect_trace
  by_cases hx : w.usbif.xenusbd = 0 <;> by_cases hi : w.usbif.irq = 0 <;>
    by_cases hs : w.usbif.sring = 0 <;> simp [hx, hi, hs, h] <;> intro h2 <;> omega

theorem usbif_disconnect_some (w w1 : World) (h : usbif_disconnect w = some w1) :
    w.usbif.refcnt = 1 := by
  unfold usbif_disconnect usbif_kill_xenusbd record_call at h
  by_cases hr : w.usbif.refcnt = 1
  · exact hr
  · exfalso
    by_cases hx : w.usbif.xenusbd = 0 <;> simp [hx] at h <;> omega

theorem usbif_map_inv (env : MapEnv) (w : World) (r : Int × World) (hc : env.contract)
    (hw : RingInv w.usbif) (h : usbif_map env w = some r) : RingInv r.2.usbif := by
  obtain ⟨h1, h2, h3⟩ := hc
  obtain ⟨i1, i2, i3⟩ := hw
  unfold usbif_map record_call at h
  by_cases hi : w.usbif.irq = 0
  · have hs : w.usbif.sring = 0 := by
      by_contra hne
      exact (i1.mpr hne) hi
    by_cases hm : env.map_err = 0
    · by_cases hp : w.usbif.usb_protocol = USBIF_PROTOCOL_NATIVE ∨
          w.usbif.usb_protocol = USBIF_PROTOCOL_X86_32 ∨
          w.usbif.usb_protocol = USBIF_PROTOCOL_X86_64
      · by_cases hb : env.bind_ret < 0
        · simp [hi, hm, hp, hb] at h
          subst h
          simp [RingInv, i3, hi]
        · simp [hi, hm, hp, hb] at h
          subst h
          simp [RingInv, i3, h3, h1 hm]
      · simp [hi, hm, hp] at h
    · simp [hi, hm] at h
      subst h
      simp [RingInv, i3, hi, hs, h2 hm]
  · simp [hi] at h
    subst h
    exact ⟨i1, i2, i3⟩

theorem usbif_map_returns (env : MapEnv) (w : World)
    (hp : w.usbif.usb_protocol = USBIF_PROTOCOL_NATIVE ∨
      w.usbif.usb_protocol = USBIF_PROTOCOL_X86_32 ∨
      w.usbif.usb_protocol = USBIF_PROTOCOL_X86_64) :
    ∃ r, usbif_map env w = some r := by
  unfold usbif_map record_call
  by_cases hi : w.usbif.irq = 0 <;> by_cases hm : env.map_err = 0 <;>
    by_cases hb : env.bind_ret < 0 <;> simp [hi, hm, hb, hp]

theorem run_if_ops_inv : ∀ (ops : List IfOp) (w : World), (∀ op ∈ ops, op.contract) →
    RingInv w.usbif →
    (∀ w1, run_if_ops ops w = some w1 → RingInv w1.usbif) ∧
      ((∀ op ∈ ops, op.valid_protocol) → ∃ w1, run_if_ops ops w = some w1) := by
  intro ops
  induction ops with
  | nil =>
    intro w _ hw
    exact ⟨fun w1 h => by simp [run_if_ops] at h; subst h; exact hw, fun _ => ⟨w, rfl⟩⟩
  | cons op ops ih =>
    intro w hc hw
    have hc1 : op.contract := hc op (by simp)
    have hc2 : ∀ o ∈ ops, o.contract := fun o ho => hc o (by simp [ho])
    cases op with
    | map p env =>
      have hw0 : RingInv ({ w with usbif := { w.usbif with usb_protocol := p } } : World).usbif :=
        hw
      constructor
      · intro w1 h
        simp only [run_if_ops, IfOp.apply] at h
        cases hm : usbif_map env { w with usbif := { w.usbif with usb_protocol := p } } with
        | none => simp [hm] at h
        | some r =>
          simp only [hm, Option.map_some', Option.some_bind] at h
          exact (ih r.2 hc2 (usbif_map_inv env _ r hc1 hw0 hm)).1 w1 h
      · intro hv
        have hv1 : (IfOp.map p env).valid_protocol := hv _ (by simp)
        have hv2 : ∀ o ∈ ops, o.valid_protocol := fun o ho => hv o (by simp [ho])
        obtain ⟨r, hm⟩ := usbif_map_returns env
          { w with usbif := { w.usbif with usb_protocol := p } } hv1
        obtain ⟨w1, h1⟩ := (ih r.2 hc2 (usbif_map_inv env _ r hc1 hw0 hm)).2 hv2
        exact ⟨w1, by simp only [run_if_ops, IfOp.apply, hm, Option.map_some',
          Option.some_bind]; exact h1⟩
    | disconnect =>
      obtain ⟨w2, hd, -, r1, r2, r3, -, r5, -⟩ := usbif_disconnect_returns w hw.2.2
      have hw2 : RingInv w2.usbif := by
        refine ⟨by simp [r2, r3], ?_, r1⟩
        rw [r3, r5 hw.2.1]
      constructor
      · intro w1 h
        simp only [run_if_ops, IfOp.apply, hd, Option.some_bind] at h
        exact (ih w2 hc2 hw2).1 w1 h
      · intro hv
        have hv2 : ∀ o ∈ ops, o.valid_protocol := fun o ho => hv o (by simp [ho])
        obtain ⟨w1, h1⟩ := (ih w2 hc2 hw2).2 hv2
        exact ⟨w1, by simp only [run_if_ops, IfOp.apply, hd, Option.some_bind]; exact h1⟩

theorem fresh_inv (domid : Int) : RingInv (usbif_alloc domid) := by
  simp [RingInv, usbif_alloc]

/-! ## `vusb.c`: the claim sweep of `vusb_create` -/

theorem vusb_claim_interface_free (claim : Nat → Nat → Int) (self : Nat) (w : World)
    (confnum ifnum : Nat) (intf : usb_interface)
    (h : ¬ (intf.driver = intf_driver.vusb_driver ∧ intf.intfdata = self)) :
    (vusb_claim_interface claim self w confnum ifnum intf).1 = claim confnum ifnum ∧
      (vusb_claim_interface claim self w confnum ifnum intf).2.1.usbif = w.usbif := by
  unfold vusb_claim_interface usb_driver_release_interface vusb_disconnect record_call
  rcases intf with ⟨d, nb, drv⟩
  cases drv <;> by_cases hc : claim confnum ifnum = 0 <;> by_cases h0 : d = 0 <;> simp_all

theorem claimed_from_one (claim : Nat → Nat → Int) (confnum : Nat) (config : usb_host_config)
    (i : Nat) :
    claimed_from claim confnum config i 1
      = if (config.interface.getD i none).isSome ∧ claim confnum i = 0 then 1 else 0 := by
  unfold claimed_from
  by_cases h1 : (config.interface.getD i none).isSome <;>
    by_cases h2 : claim confnum i = 0 <;> simp_all [List.countP_cons]

theorem vusb_claim_config_step_kref (claim : Nat → Nat → Int) (self confnum ifnum : Nat)
    (s : World × usb_host_config)
    (h : ∀ intf, s.2.interface.getD ifnum none = some intf →
      ¬ (intf.driver = intf_driver.vusb_driver ∧ intf.intfdata = self)) :
    (vusb_claim_config_step claim self confnum ifnum s).1.usbif
        = { s.1.usbif with vusb := { s.1.usbif.vusb with
            kref := s.1.usbif.vusb.kref + (claimed_from claim confnum s.2 ifnum 1 : Nat) } } ∧
      (vusb_claim_config_step claim self confnum ifnum s).2.desc = s.2.desc ∧
      ∀ j, j ≠ ifnum →
        (vusb_claim_config_step claim self confnum ifnum s).2.interface.getD j none
          = s.2.interface.getD j none := by
  rw [claimed_from_one]
  unfold vusb_claim_config_step
  cases hi : s.2.interface.getD ifnum none with
  | none => simp
  | some intf =>
    obtain ⟨h1, h2⟩ := vusb_claim_interface_free claim self s.1 confnum ifnum intf (h intf hi)
    by_cases hc : claim confnum ifnum = 0
    · refine ⟨?_, ?_, ?_⟩
      · simp [set_vusb, kref_get, h1, h2, hc]
      · simp [h1, hc]
      · intro j hj
        simp [h1, hc, List.getD_eq_getElem?_getD, List.getElem?_set, Ne.symm hj]
    · refine ⟨?_, ?_, ?_⟩
      · simp [h1, h2, hc]
      · simp [h1, hc]
      · intro j hj
        simp [h1, hc, List.getD_eq_getElem?_getD, List.getElem?_set, Ne.symm hj]

theorem claimed_from_congr (claim : Nat → Nat → Int) (confnum : Nat)
    (config config1 : usb_host_config) (i n : Nat)
    (h : ∀ j, i ≤ j → config1.interface.getD j none = config.interface.getD j none) :
    claimed_from claim confnum config1 i n = claimed_from claim confnum config i n := by
  unfold claimed_from
  apply List.countP_congr
  intro j hj
  rw [List.mem_range'_1] at hj
  rw [h j hj.1]

theorem claimed_from_succ (claim : Nat → Nat → Int) (confnum : Nat) (config : usb_host_config)
    (i n : Nat) :
    claimed_from claim confnum config i (n + 1)
      = claimed_from claim confnum config i 1 + claimed_from claim confnum config (i + 1) n := by
  unfold claimed_from
  rw [List.range'_succ, List.countP_cons]
  simp [List.countP_cons]
  omega

theorem vusb_claim_config_loop (claim : Nat → Nat → Int) (self confnum : Nat) :
    ∀ (n i : Nat) (s : World × usb_host_config),
      (∀ j, i ≤ j → ∀ intf, s.2.interface.getD j none = some intf →
        ¬ (intf.driver = intf_driver.vusb_driver ∧ intf.intfdata = self)) →
      (for_loop (vusb_claim_config_step claim self confnum) n i s).1.usbif
          = { s.1.usbif with vusb := { s.1.usbif.vusb with
              kref := s.1.usbif.vusb.kref + (claimed_from claim confnum s.2 i n : Nat) } } ∧
        (for_loop (vusb_claim_config_step claim self confnum) n i s).2.desc = s.2.desc := by
  intro n
  induction n with
  | zero =>
    intro i s _
    simp [for_loop, claimed_from]
  | succ n ih =>
    intro i s h
    obtain ⟨e1, e2, e3⟩ := vusb_claim_config_step_kref claim self confnum i s (h i (le_refl i))
    have h1 : ∀ j, i + 1 ≤ j → ∀ intf,
        (vusb_claim_config_step claim self confnum i s).2.interface.getD j none = some intf →
        ¬ (intf.driver = intf_driver.vusb_driver ∧ intf.intfdata = self) := by
      intro j hj intf hintf
      rw [e3 j (by omega)] at hintf
      exact h j (by omega) intf hintf
    obtain ⟨f1, f2⟩ := ih (i + 1) (vusb_claim_config_step claim self confnum i s) h1
    have hc := claimed_from_congr claim confnum s.2
      (vusb_claim_config_step claim self confnum i s).2 (i + 1) n
      (fun j hj => e3 j (by omega))
    simp only [for_loop]
    refine ⟨?_, by rw [f2, e2]⟩
    rw [f1, e1, hc, claimed_from_succ claim confnum s.2 i n]
    simp only [Nat.cast_add]
    congr 2
    ring

theorem getD_some_mem {α : Type} (l : List (Option α)) (j : Nat) (a : α)
    (h : l.getD j none = some a) : some a ∈ l := by
  rw [List.getD_eq_getElem?_getD] at h
  cases hj : l[j]? with
  | none => simp [hj] at h
  | some x =>
    simp only [hj, Option.getD_some] at h
    subst h
    exact List.getElem?_mem hj

theorem vusb_claim_dev_step_kref (claim : Nat → Nat → Int) (self confnum : Nat)
    (s : World × usb_device)
    (h : ∀ config, s.2.config[confnum]? = some config → ∀ intf, some intf ∈ config.interface →
      ¬ (intf.driver = intf_driver.vusb_driver ∧ intf.intfdata = self)) :
    (vusb_claim_dev_step claim self confnum s).1.usbif
        = { s.1.usbif with vusb := { s.1.usbif.vusb with
            kref := s.1.usbif.vusb.kref + (claimed_configs claim s.2 confnum 1 : Nat) } } ∧
      ∀ j, j ≠ confnum →
        (vusb_claim_dev_step claim self confnum s).2.config[j]? = s.2.config[j]? := by
  unfold vusb_claim_dev_step claimed_configs
  cases hc : s.2.config[confnum]? with
  | none => simp [hc]
  | some config =>
    have hl := vusb_claim_config_loop claim self confnum config.desc.bNumInterfaces 0
      (s.1, config)
      (fun j _ intf hintf => h config hc intf (getD_some_mem _ _ _ hintf))
    refine ⟨?_, ?_⟩
    · simp only [vusb_claim_config, hl.1]
      simp [hc]
    · intro j hj
      simp [List.getElem?_set, Ne.symm hj]

theorem claimed_configs_congr (claim : Nat → Nat → Int) (udev udev1 : usb_device) (i n : Nat)
    (h : ∀ j, i ≤ j → udev1.config[j]? = udev.config[j]?) :
    claimed_configs claim udev1 i n = claimed_configs claim udev i n := by
  unfold claimed_configs
  congr 1
  apply List.map_congr_left
  intro j hj
  rw [List.mem_range'_1] at hj
  rw [h j hj.1]

theorem claimed_configs_succ (claim : Nat → Nat → Int) (udev : usb_device) (i n : Nat) :
    claimed_configs claim udev i (n + 1)
      = claimed_configs claim udev i 1 + claimed_configs claim udev (i + 1) n := by
  unfold claimed_configs
  rw [List.range'_succ]
  simp

theorem vusb_claim_dev_loop (claim : Nat → Nat → Int) (self : Nat) :
    ∀ (n i : Nat) (s : World × usb_device),
      (∀ j, i ≤ j → ∀ config, s.2.config[j]? = some config → ∀ intf,
        some intf ∈ config.interface →
        ¬ (intf.driver = intf_driver.vusb_driver ∧ intf.intfdata = self)) →
      (for_loop (vusb_claim_dev_step claim self) n i s).1.usbif
          = { s.1.usbif with vusb := { s.1.usbif.vusb with
              kref := s.1.usbif.vusb.kref + (claimed_configs claim s.2 i n : Nat) } } := by
  intro n
  induction n with
  | zero =>
    intro i s _
    simp [for_loop, claimed_configs]
  | succ n ih =>
    intro i s h
    obtain ⟨e1, e3⟩ := vusb_claim_dev_step_kref claim self i s (h i (le_refl i))
    have h1 : ∀ j, i + 1 ≤ j → ∀ config,
        (vusb_claim_dev_step claim self i s).2.config[j]? = some config → ∀ intf,
        some intf ∈ config.interface →
        ¬ (intf.driver = intf_driver.vusb_driver ∧ intf.intfdata = self) := by
      intro j hj config hcfg
      rw [e3 j (by omega)] at hcfg
      exact h j (by omega) config hcfg
    have f1 := ih (i + 1) (vusb_claim_dev_step claim self i s) h1
    have hc := claimed_configs_congr claim s.2 (vusb_claim_dev_step claim self i s).2 (i + 1) n
      (fun j hj => e3 j (by omega))
    simp only [for_loop]
    rw [f1, e1, hc, claimed_configs_succ claim s.2 i n]
    simp only [Nat.cast_add]
    congr 2
    ring

/-- The reference count after the claim sweep, when no release runs the
disconnect callback on the connection at hand. -/
theorem vusb_claim_dev_kref (claim : Nat → Nat → Int) (self : Nat) (w : World)
    (udev : usb_device) (h : NotOwned self udev) :
    (vusb_claim_dev claim self w udev).1.usbif
      = { w.usbif with vusb := { w.usbif.vusb with
          kref := w.usbif.vusb.kref + (claimed_count claim udev : Nat) } } := by
  unfold vusb_claim_dev claimed_count
  exact vusb_claim_dev_loop claim self udev.bNumConfigurations 0 (w, udev)
    (fun j _ config hcfg intf hintf => h config (List.getElem?_mem hcfg) intf hintf)

theorem kref_put_fields (w : World) :
    (kref_put w).usbif.vusb.kref = w.usbif.vusb.kref - 1 ∧
      (kref_put w).usbif.vusb.initted = w.usbif.vusb.initted ∧
      (kref_put w).usbif.vusb.active
        = (if w.usbif.vusb.kref - 1 = 0 then 0 else w.usbif.vusb.active) ∧
      (kref_put w).usbif.vusb.usbdev = w.usbif.vusb.usbdev := by
  unfold kref_put vusb_delete vusb_flush set_canceling_requests usb_kill_anchored_urbs set_vusb
  by_cases h : w.usbif.vusb.kref - 1 = 0 <;> simp [h]

/-- What `vusb_create` leaves when the host device opens: it returns 0, the
record is initialised, the count is the number of claimed interfaces, and
the record is active exactly when that number is not 0. -/
theorem vusb_create_opened (claim : Nat → Nat → Int) (self : Nat) (table : List vusb_map)
    (w : World) (handle bus device : Int) (udev : usb_device) (h : NotOwned self udev) :
    (vusb_create (some udev) claim self table w handle bus device).1 = 0 ∧
      (vusb_create (some udev) claim self table w handle bus device).2.1.usbif.vusb.kref
        = (claimed_count claim udev : Nat) ∧
      (vusb_create (some udev) claim self table w handle bus device).2.1.usbif.vusb.initted
        = 1 ∧
      (vusb_create (some udev) claim self table w handle bus device).2.1.usbif.vusb.active
        = if claimed_count claim udev = 0 then 0 else 1 := by
  have hk := vusb_claim_dev_kref claim self
    (set_vusb w { kref_init { w.usbif.vusb with
      handle := handle, bus := bus, device := device, active := 1 } with anchor := [] })
    udev h
  have hkref := congrArg (fun u => u.vusb.kref) hk
  have hact := congrArg (fun u => u.vusb.active) hk
  simp only [set_vusb, kref_init] at hkref hact
  unfold vusb_create
  simp only []
  obtain ⟨k1, k2, k3, -⟩ := kref_put_fields (set_vusb
    (vusb_claim_dev claim self
      (set_vusb w { kref_init { w.usbif.vusb with
        handle := handle, bus := bus, device := device, active := 1 } with anchor := [] })
      udev).1
    { (vusb_claim_dev claim self
      (set_vusb w { kref_init { w.usbif.vusb with
        handle := handle, bus := bus, device := device, active := 1 } with anchor := [] })
      udev).1.usbif.vusb with
      usbdev := some (vusb_claim_dev claim self
        (set_vusb w { kref_init { w.usbif.vusb with
          handle := handle, bus := bus, device := device, active := 1 } with anchor := [] })
        udev).2,
      max_sgs := (vusb_claim_dev claim self
        (set_vusb w { kref_init { w.usbif.vusb with
          handle := handle, bus := bus, device := device, active := 1 } with anchor := [] })
        udev).2.sg_tablesize,
      hcd_speed := dusb_dev_controller_speed (vusb_claim_dev claim self
        (set_vusb w { kref_init { w.usbif.vusb with
          handle := handle, bus := bus, device := device, active := 1 } with anchor := [] })
        udev).2,
      copy_unaligned := if dusb_dev_controller_speed (vusb_claim_dev claim self
        (set_vusb w { kref_init { w.usbif.vusb with
          handle := handle, bus := bus, device := device, active := 1 } with anchor := [] })
        udev).2 ≠ USB_SPEED_SUPER then 1 else 0,
      initted := 1 })
  simp only [set_vusb, kref_init] at k1 k2 k3
  simp only [set_vusb, kref_init]
  refine ⟨trivial, ?_, ?_, ?_⟩
  · rw [k1, hkref]; ring
  · rw [k2]
  · rw [k3, hkref, hact]
    by_cases hc : claimed_count claim udev = 0
    · simp [hc]
    · have hc1 : ¬ ((1 : Int) + (claimed_count claim udev : Nat) - 1 = 0) := by omega
      simp [hc, hc1]

theorem claim_device_not_owned : NotOwned 5 claim_device := by
  intro config hc intf hi
  simp only [claim_device, List.mem_singleton] at hc
  subst hc
  simp only [List.mem_cons, Option.some.injEq, List.mem_singleton, reduceCtorEq, or_false,
    List.not_mem_nil] at hi
  rcases hi with rfl | rfl <;> simp

/-- C21: the claim sweep of `vusb_create` counts the claimed interfaces.  As
long as no interface of the host device is owned by the connection's own
record through this driver (so that no release runs the disconnect callback
on it), each pass of the loop of `vusb_claim_config` adds exactly 1 to the
reference count when the interface is not NULL and its claim succeeds and
leaves the count alone otherwise; `vusb_claim_dev` adds the number of
successfully claimed interfaces over all configurations; and `vusb_create`
returns 0 with the count equal to that number, the initial reference being
dropped at the end. -/
theorem claim_sweep_counts (claim : Nat → Nat → Int) (self : Nat) (table : List vusb_map)
    (w : World) (handle bus device : Int) (udev : usb_device) (h : NotOwned self udev) :
    (∀ (confnum ifnum : Nat) (s : World × usb_host_config),
      (∀ intf, s.2.interface.getD ifnum none = some intf →
        ¬ (intf.driver = intf_driver.vusb_driver ∧ intf.intfdata = self)) →
      (vusb_claim_config_step claim self confnum ifnum s).1.usbif.vusb.kref
        = s.1.usbif.vusb.kref +
          (if (s.2.interface.getD ifnum none).isSome ∧ claim confnum ifnum = 0 then 1 else 0)) ∧
      (∀ w0 : World, (vusb_claim_dev claim self w0 udev).1.usbif.vusb.kref
        = w0.usbif.vusb.kref + (claimed_count claim udev : Nat)) ∧
      (vusb_create (some udev) claim self table w handle bus device).1 = 0 ∧
      (vusb_create (some udev) claim self table w handle bus device).2.1.usbif.vusb.kref
        = (claimed_count claim udev : Nat) := by
  refine ⟨?_, ?_, ?_, ?_⟩
  · intro confnum ifnum s hs
    have e := (vusb_claim_config_step_kref claim self confnum ifnum s hs).1
    rw [claimed_from_one] at e
    rw [e]
    by_cases hc : (s.2.interface.getD ifnum none).isSome ∧ claim confnum ifnum = 0
    · simp only [hc, and_self, if_true, Nat.cast_one]
    · simp only [hc, if_false, Nat.cast_zero]
  · intro w0
    rw [vusb_claim_dev_kref claim self w0 udev h]
  · exact (vusb_create_opened claim self table w handle bus device udev h).1
  · exact (vusb_create_opened claim self table w handle bus device udev h).2.1

theorem claim_sweep_counts_witness :
    (vusb_create (some claim_device) claim_first 5 vusb_map_init fresh_world 1 1 2).2.1.usbif.vusb.kref
      = 1 :=
  (claim_sweep_counts claim_first 5 vusb_map_init fresh_world 1 1 2 claim_device
    claim_device_not_owned).2.2.2.trans (by decide)

/-- C29: when the host device opens and no interface claim succeeds (no
interface is owned by the connection's own record beforehand), `vusb_create`
still returns 0 with `initted = 1`, but the final reference drop brings the
count to 0 and `vusb_delete` leaves the owned device inactive (`active = 0`);
`vusb_setup_urb` then fails with `-ENODEV` for every request. -/
theorem vusb_create_unclaimed (claim : Nat → Nat → Int) (self : Nat) (table : List vusb_map)
    (w : World) (handle bus device : Int) (udev : usb_device) (h : NotOwned self udev)
    (hnone : claimed_count claim udev = 0) :
    (vusb_create (some udev) claim self table w handle bus device).1 = 0 ∧
      (vusb_create (some udev) claim self table w handle bus device).2.1.usbif.vusb.initted
        = 1 ∧
      (vusb_create (some udev) claim self table w handle bus device).2.1.usbif.vusb.kref = 0 ∧
      (vusb_create (some udev) claim self table w handle bus device).2.1.usbif.vusb.active
        = 0 ∧
      ∀ (host : Host) (req : usbif_request) (u : urb),
        (vusb_setup_urb host
          (vusb_create (some udev) claim self table w handle bus device).2.1 req u).ret
          = -ENODEV := by
  obtain ⟨h1, h2, h3, h4⟩ := vusb_create_opened claim self table w handle bus device udev h
  rw [hnone] at h2 h4
  have hact : (vusb_create (some udev) claim self table w handle bus device).2.1.usbif.vusb.active
      = 0 := by simpa using h4
  refine ⟨h1, h3, by simpa using h2, hact, ?_⟩
  intro host req u
  unfold vusb_setup_urb vusb_device
  simp [hact]

theorem vusb_create_unclaimed_witness :
    (vusb_create (some claim_device) claim_none 5 vusb_map_init fresh_world 1 1 2).2.1.usbif.vusb.active
        = 0 ∧
      (vusb_setup_urb example_host
        (vusb_create (some claim_device) claim_none 5 vusb_map_init fresh_world 1 1 2).2.1
        get_descriptor_req (example_urb 18)).ret = -ENODEV :=
  have h := vusb_create_unclaimed claim_none 5 vusb_map_init fresh_world 1 1 2 claim_device
    claim_device_not_owned (by decide)
  ⟨h.2.2.2.1, h.2.2.2.2 example_host get_descriptor_req (example_urb 18)⟩

/-! ## `xenbus.c`: the callbacks on examples -/

theorem probe_then_connect :
    (run_events 3 (reconnect_events.take 2) probed_backend).map
        (fun s => (s.world.usbif.irq, s.world.usbif.xenusbd, s.state, s.world.calls))
      = some (33, 101, xenbus_state.XenbusStateConnected,
          [HostCall.switch_state xenbus_state.XenbusStateInitWait,
           HostCall.claim_interface 0 0, HostCall.sysfs_addif, HostCall.map_ring 4096,
           HostCall.bind_evtchn 33, HostCall.switch_state xenbus_state.XenbusStateConnected,
           HostCall.kthread_run 101]) := by
  decide

/-! ## `vusb.c`: giving the device up -/

theorem deviceOnly_refl (w : World) : DeviceOnly w w :=
  ⟨rfl, [], by simp, by simp⟩

theorem deviceOnly_trans (w w1 w2 : World) (h1 : DeviceOnly w w1) (h2 : DeviceOnly w1 w2) :
    DeviceOnly w w2 := by
  obtain ⟨a1, e1, b1, c1⟩ := h1
  obtain ⟨a2, e2, b2, c2⟩ := h2
  refine ⟨?_, e1 ++ e2, ?_, ?_⟩
  · rw [a2, a1]
  · rw [b2, b1, List.append_assoc]
  · intro c hc
    rcases List.mem_append.mp hc with hc | hc
    · exact c1 c hc
    · exact c2 c hc

theorem deviceOnly_set_vusb (w : World) (v : vusb) : DeviceOnly w (set_vusb w v) :=
  ⟨rfl, [], by simp [set_vusb], by simp⟩

theorem deviceOnly_flush (w : World) : DeviceOnly w (vusb_flush w) := by
  refine ⟨rfl, w.usbif.vusb.anchor.map HostCall.kill_urb, rfl, ?_⟩
  intro c hc
  obtain ⟨a, -, rfl⟩ := List.mem_map.mp hc
  rfl

theorem deviceOnly_kref_put (w : World) : DeviceOnly w (kref_put w) := by
  unfold kref_put vusb_delete
  simp only []
  split
  · exact deviceOnly_trans _ _ _ (deviceOnly_set_vusb w _)
      (deviceOnly_trans _ _ _ (deviceOnly_set_vusb _ _) (deviceOnly_flush _))
  · exact deviceOnly_set_vusb w _

theorem deviceOnly_release (self : Nat) (w : World) (confnum ifnum : Nat)
    (intf : usb_interface) :
    DeviceOnly w (usb_driver_release_interface self w confnum ifnum intf).1 := by
  have h0 : DeviceOnly w (record_call w (HostCall.release_interface confnum ifnum)) :=
    ⟨rfl, [HostCall.release_interface confnum ifnum], rfl, by simp [is_device_release]⟩
  unfold usb_driver_release_interface vusb_disconnect
  simp only []
  split
  · split
    · exact h0
    · split
      · exact deviceOnly_trans _ _ _ h0 (deviceOnly_kref_put _)
      · exact h0
  · exact h0

theorem release_loop_none (self confnum : Nat) : ∀ (n i : Nat),
    for_loop (vusb_release_config_step self confnum) n i none = none := by
  intro n
  induction n with
  | zero => intro i; rfl
  | succ n ih => intro i; simp only [for_loop, vusb_release_config_step]; exact ih (i + 1)

theorem release_step_some (self confnum ifnum : Nat) (s s1 : World × usb_host_config)
    (h : vusb_release_config_step self confnum ifnum (some s) = some s1) :
    DeviceOnly s.1 s1.1 ∧ s1.2.desc = s.2.desc ∧
      ∀ j, j ≠ ifnum → s1.2.interface.getD j none = s.2.interface.getD j none := by
  unfold vusb_release_config_step at h
  simp only [List.getD_eq_getElem?_getD] at h
  cases hi : s.2.interface[ifnum]?.getD none with
  | none => simp [hi] at h
  | some intf =>
    simp only [hi] at h
    by_cases hd : intf.driver = intf_driver.vusb_driver
    · by_cases hs : intf.intfdata = self
      · simp only [hd, hs, if_true, Option.some.injEq] at h
        subst h
        refine ⟨?_, rfl, ?_⟩
        · exact deviceOnly_release self s.1 confnum ifnum intf
        · intro j hj
          simp [List.getD_eq_getElem?_getD, List.getElem?_set, Ne.symm hj]
      · simp only [hd, hs, if_true, if_false, Option.some.injEq] at h
        subst h
        exact ⟨deviceOnly_refl _, rfl, fun _ _ => rfl⟩
    · simp only [hd, if_false, Option.some.injEq] at h
      subst h
      exact ⟨deviceOnly_refl _, rfl, fun _ _ => rfl⟩

theorem release_step_returns (self confnum ifnum : Nat) (s : World × usb_host_config)
    (h : (s.2.interface.getD ifnum none).isSome = true) :
    ∃ s1, vusb_release_config_step self confnum ifnum (some s) = some s1 := by
  unfold vusb_release_config_step
  simp only [List.getD_eq_getElem?_getD] at h ⊢
  cases hi : s.2.interface[ifnum]?.getD none with
  | none => simp [hi] at h
  | some intf =>
    simp only []
    by_cases hd : intf.driver = intf_driver.vusb_driver <;>
      by_cases hs : intf.intfdata = self <;> simp [hd, hs]

theorem release_loop_some (self confnum : Nat) : ∀ (n i : Nat) (s s1 : World × usb_host_config),
    for_loop (vusb_release_config_step self confnum) n i (some s) = some s1 →
    DeviceOnly s.1 s1.1 := by
  intro n
  induction n with
  | zero =>
    intro i s s1 h
    simp only [for_loop, Option.some.injEq] at h
    subst h
    exact deviceOnly_refl _
  | succ n ih =>
    intro i s s1 h
    simp only [for_loop] at h
    cases hstep : vusb_release_config_step self confnum i (some s) with
    | none => rw [hstep, release_loop_none] at h; simp at h
    | some s2 =>
      rw [hstep] at h
      exact deviceOnly_trans _ _ _ (release_step_some self confnum i s s2 hstep).1
        (ih (i + 1) s2 s1 h)

theorem release_loop_returns (self confnum : Nat) : ∀ (n i : Nat) (s : World × usb_host_config),
    (∀ j, i ≤ j → j < i + n → (s.2.interface.getD j none).isSome = true) →
    ∃ s1, for_loop (vusb_release_config_step self confnum) n i (some s) = some s1 := by
  intro n
  induction n with
  | zero => intro i s _; exact ⟨s, rfl⟩
  | succ n ih =>
    intro i s h
    obtain ⟨s2, hstep⟩ := release_step_returns self confnum i s (h i (le_refl i) (by omega))
    obtain ⟨-, -, e3⟩ := release_step_some self confnum i s s2 hstep
    obtain ⟨s1, h1⟩ := ih (i + 1) s2 (fun j hj1 hj2 => by
      rw [e3 j (by omega)]
      exact h j (by omega) (by omega))
    exact ⟨s1, by simp only [for_loop, hstep]; exact h1⟩

/-- The calls of `vusb_free` on a connection that holds a host device: kills
and releases, then `dusb_close`; nothing but the owned-device record
changes. -/
theorem vusb_free_some (self : Nat) (table : List vusb_map) (w : World)
    (q : World × List vusb_map) (usbdev : usb_device)
    (hd : w.usbif.vusb.usbdev = some usbdev) (h : vusb_free self table w = some q) :
    ∃ w4, DeviceOnly w w4 ∧ q.1 = record_call w4 HostCall.dusb_close := by
  unfold vusb_free at h
  simp only [hd] at h
  have hf : DeviceOnly w (vusb_flush (set_vusb w { w.usbif.vusb with usbdev := none })) :=
    deviceOnly_trans _ _ _ (deviceOnly_set_vusb w _) (deviceOnly_flush _)
  by_cases ha : (vusb_flush (set_vusb w { w.usbif.vusb with usbdev := none })).usbif.vusb.active
      = 0
  · simp only [ha, ne_eq, not_true_eq_false, if_false, Option.map_some',
      Option.some.injEq] at h
    exact ⟨_, hf, by rw [← h]⟩
  · simp only [ha, ne_eq, not_false_eq_true, if_true] at h
    unfold vusb_release_dev at h
    cases hact : usbdev.actconfig with
    | none =>
      simp only [hact, Option.map_some', Option.some.injEq] at h
      exact ⟨_, hf, by rw [← h]⟩
    | some confnum =>
      simp only [hact] at h
      cases hcfg : usbdev.config[confnum]? with
      | none => simp [hcfg] at h
      | some config =>
        simp only [hcfg] at h
        unfold vusb_release_config at h
        cases hloop : for_loop (vusb_release_config_step self confnum)
            config.desc.bNumInterfaces 0
            (some (vusb_flush (set_vusb w { w.usbif.vusb with usbdev := none }), config)) with
        | none => simp [hloop] at h
        | some s1 =>
          simp only [hloop, Option.map_some', Option.some.injEq] at h
          have hl := release_loop_some self confnum _ 0 _ s1 hloop
          exact ⟨s1.1, deviceOnly_trans _ _ _ hf hl, by rw [← h]⟩

theorem vusb_free_returns (self : Nat) (table : List vusb_map) (w : World)
    (hready : ReleaseReady w.usbif.vusb) : ∃ q, vusb_free self table w = some q := by
  unfold vusb_free
  cases hd : w.usbif.vusb.usbdev with
  | none => exact ⟨_, rfl⟩
  | some usbdev =>
    simp only []
    by_cases ha : (vusb_flush (set_vusb w { w.usbif.vusb with usbdev := none })).usbif.vusb.active
        = 0
    · simp [ha]
    · simp only [ha, ne_eq, not_false_eq_true, if_true]
      have ha1 : w.usbif.vusb.active ≠ 0 := by
        simpa [vusb_flush, set_canceling_requests, usb_kill_anchored_urbs, set_vusb] using ha
      unfold vusb_release_dev
      cases hact : usbdev.actconfig with
      | none => simp
      | some confnum =>
        obtain ⟨config, hcfg, hall⟩ := hready usbdev hd ha1 confnum hact
        simp only [hcfg]
        unfold vusb_release_config
        obtain ⟨s1, hs1⟩ := release_loop_returns self confnum config.desc.bNumInterfaces 0
          (vusb_flush (set_vusb w { w.usbif.vusb with usbdev := none }), config)
          (fun j _ hj => hall j (by omega))
        simp [hs1]

theorem vusb_free_conn (self : Nat) (table : List vusb_map) (w : World)
    (q : World × List vusb_map) (h : vusb_free self table w = some q) :
    q.1.usbif = { w.usbif with vusb := q.1.usbif.vusb } := by
  cases hd : w.usbif.vusb.usbdev with
  | none =>
    unfold vusb_free at h
    simp only [hd, Option.some.injEq] at h
    subst h
    rfl
  | some usbdev =>
    obtain ⟨w4, ⟨e, -⟩, hq⟩ := vusb_free_some self table w q usbdev hd h
    rw [hq]
    simp only [record_call]
    rw [e]

theorem usbif_free_returns (w : World) (h : w.usbif.refcnt = 1) :
    usbif_free w
      = some (record_call { w with usbif := { w.usbif with refcnt := 0 } }
          HostCall.kmem_cache_free) := by
  unfold usbif_free
  simp [h]

/-- The calls of `usbback_remove` on a backend whose connection holds a host
device and its one own reference. -/
theorem usbback_remove_trace (s : Backend) (usbdev : usb_device) (hu : s.has_usbif = true)
    (hr : s.world.usbif.refcnt = 1) (hd : s.world.usbif.vusb.usbdev = some usbdev)
    (hready : ReleaseReady s.world.usbif.vusb) :
    ∃ s1 ext, usbback_remove s = some s1 ∧
      s1.world.calls
        = s.world.calls ++ (if s.bus ≠ 0 ∨ s.device ≠ 0 then [HostCall.sysfs_delif] else [])
          ++ disconnect_trace s.world.usbif ++ ext
          ++ [HostCall.dusb_close, HostCall.kmem_cache_free] ∧
      (∀ c ∈ ext, is_device_release c = true) ∧ s1.has_usbif = false := by
  have key : ∀ s0 : Backend, s0.has_usbif = true → s0.world.usbif = s.world.usbif →
      ∃ s1 ext, (usbif_disconnect s0.world).bind (fun w1 =>
          (vusb_free s0.self s0.vusb_map w1).bind (fun q =>
            (usbif_free q.1).map (fun w3 =>
              { s0 with world := w3, vusb_map := q.2, has_usbif := false }))) = some s1 ∧
        s1.world.calls = s0.world.calls ++ disconnect_trace s.world.usbif ++ ext
          ++ [HostCall.dusb_close, HostCall.kmem_cache_free] ∧
        (∀ c ∈ ext, is_device_release c = true) ∧ s1.has_usbif = false := by
    intro s0 _ e0
    obtain ⟨w1, hdis, c1, r1, -, -, -, -, v1⟩ :=
      usbif_disconnect_returns s0.world (by rw [e0]; exact hr)
    have hv : w1.usbif.vusb = s.world.usbif.vusb := by rw [v1, e0]
    obtain ⟨q, hq⟩ := vusb_free_returns s0.self s0.vusb_map w1 (by rw [hv]; exact hready)
    obtain ⟨w4, ⟨e4, ext, c4, hext⟩, hq1⟩ :=
      vusb_free_some s0.self s0.vusb_map w1 q usbdev (by rw [hv]; exact hd) hq
    have hr4 : q.1.usbif.refcnt = 1 := by
      rw [vusb_free_conn s0.self s0.vusb_map w1 q hq]
      exact r1
    refine ⟨{ s0 with
        world := record_call { q.1 with usbif := { q.1.usbif with refcnt := 0 } }
          HostCall.kmem_cache_free,
        vusb_map := q.2, has_usbif := false }, ext, ?_, ?_, hext, rfl⟩
    · simp only [hdis, hq, usbif_free_returns q.1 hr4, Option.some_bind, Option.map_some']
    · simp only [record_call, hq1, c4, c1, e0, List.append_assoc, List.singleton_append]
  unfold usbback_remove
  by_cases hb : s.bus ≠ 0 ∨ s.device ≠ 0
  · simp only [hb, if_true]
    have hu1 : (s.record HostCall.sysfs_delif).has_usbif = true := hu
    simp only [hu1, if_true]
    obtain ⟨s1, ext, h1, h2, h3, h4⟩ := key (s.record HostCall.sysfs_delif) hu rfl
    exact ⟨s1, ext, h1, by rw [h2]; simp [Backend.record, record_call], h3, h4⟩
  · simp only [hb, if_false, hu, if_true]
    obtain ⟨s1, ext, h1, h2, h3, h4⟩ := key s hu rfl
    exact ⟨s1, ext, h1, by rw [h2]; simp, h3, h4⟩

theorem usbif_map_refcnt (env : MapEnv) (w : World) (r : Int × World)
    (h : usbif_map env w = some r) : r.2.usbif.refcnt = w.usbif.refcnt := by
  unfold usbif_map record_call at h
  by_cases hi : w.usbif.irq = 0
  · by_cases hm : env.map_err = 0
    · by_cases hp : w.usbif.usb_protocol = USBIF_PROTOCOL_NATIVE ∨
          w.usbif.usb_protocol = USBIF_PROTOCOL_X86_32 ∨
          w.usbif.usb_protocol = USBIF_PROTOCOL_X86_64
      · by_cases hb : env.bind_ret < 0
        · simp [hi, hm, hp, hb] at h
          subst h
          rfl
        · simp [hi, hm, hp, hb] at h
          subst h
          rfl
      · simp [hi, hm, hp] at h
    · simp [hi, hm] at h
      subst h
      rfl
  · simp [hi] at h
    subst h
    rfl

theorem run_if_ops_refcnt : ∀ (ops : List IfOp) (w w1 : World), w.usbif.refcnt = 1 →
    run_if_ops ops w = some w1 → w1.usbif.refcnt = 1 := by
  intro ops
  induction ops with
  | nil =>
    intro w w1 hw h
    simp only [run_if_ops, Option.some.injEq] at h
    subst h
    exact hw
  | cons op ops ih =>
    intro w w1 hw h
    cases op with
    | map p env =>
      simp only [run_if_ops, IfOp.apply] at h
      cases hm : usbif_map env { w with usbif := { w.usbif with usb_protocol := p } } with
      | none => simp [hm] at h
      | some r =>
        simp only [hm, Option.map_some', Option.some_bind] at h
        exact ih r.2 w1 (by rw [usbif_map_refcnt env _ r hm]; exact hw) h
    | disconnect =>
      obtain ⟨w2, hd, -, r1, -⟩ := usbif_disconnect_returns w hw
      simp only [run_if_ops, IfOp.apply, hd, Option.some_bind] at h
      exact ih w2 w1 r1 h

/-! ## The connection lifecycle -/

theorem example_if_ops_contract : ∀ op ∈ example_if_ops, op.contract := by
  intro op hop
  simp only [example_if_ops, List.mem_cons, List.mem_singleton, List.not_mem_nil,
    or_false] at hop
  rcases hop with rfl | rfl | rfl | rfl <;>
    simp [IfOp.contract, MapEnv.contract, map_ok, bind_fails]

theorem example_if_ops_valid : ∀ op ∈ example_if_ops, op.valid_protocol := by
  intro op hop
  simp only [example_if_ops, List.mem_cons, List.mem_singleton, List.not_mem_nil,
    or_false] at hop
  rcases hop with rfl | rfl | rfl | rfl <;>
    simp [IfOp.valid_protocol, USBIF_PROTOCOL_NATIVE, USBIF_PROTOCOL_X86_32,
      USBIF_PROTOCOL_X86_64]

/-- C22: starting from a connection fresh from `usbif_alloc`, after every
sequence of `usbif_map` and `usbif_disconnect` calls that return, the irq is
non-zero exactly when the ring pointer `usb_rings.common.sring` is non-NULL,
and that pointer equals `usb_ring_addr`, whatever the ring mapping and the
event-channel binding answer within their contract (a mapping that succeeds
yields a non-NULL address, one that fails leaves NULL, the binding returns a
positive irq or a negative errno); and the sequence does return when the
protocol stored ahead of each `usbif_map` is one of the three layouts, as
`connect_ring` stores it. -/
theorem ring_irq_invariant (domid : Int) (ops : List IfOp)
    (hc : ∀ op ∈ ops, op.contract) :
    (∀ w, run_if_ops ops { usbif := usbif_alloc domid, calls := [] } = some w →
      (w.usbif.irq ≠ 0 ↔ w.usbif.sring ≠ 0) ∧ w.usbif.sring = w.usbif.usb_ring_addr) ∧
      ((∀ op ∈ ops, op.valid_protocol) →
        ∃ w, run_if_ops ops { usbif := usbif_alloc domid, calls := [] } = some w) := by
  obtain ⟨h1, h2⟩ := run_if_ops_inv ops { usbif := usbif_alloc domid, calls := [] } hc
    (fresh_inv domid)
  exact ⟨fun w hw => ⟨(h1 w hw).1, (h1 w hw).2.1⟩, h2⟩

theorem ring_irq_invariant_witness :
    ∃ w, run_if_ops example_if_ops fresh_world = some w ∧
      (w.usbif.irq ≠ 0 ↔ w.usbif.sring ≠ 0) ∧ w.usbif.sring = w.usbif.usb_ring_addr := by
  have h := ring_irq_invariant 1 example_if_ops example_if_ops_contract
  obtain ⟨w, hw⟩ := h.2 example_if_ops_valid
  exact ⟨w, hw, h.1 w hw⟩

/-- C23: on a frontend move to `Closing`, with the connection holding its one
own reference, `frontend_changed` returns, and the calls it makes are those
of `usbif_disconnect` followed by the switch of the backend to `Closing`;
`usbif_disconnect` stops the worker (if there is one), drops the reference,
waits for the count to be 0, takes the reference back, unbinds the event
channel (if bound) and unmaps the ring (if mapped), in this order, so the
ring is unmapped only after the wait; and `usbif_disconnect` returns only
when the count was 0 after the decrement. -/
theorem closing_order (USBBCK_VERSION : Nat) (env : Env) (s : Backend)
    (hr : s.world.usbif.refcnt = 1) :
    (∃ s1, frontend_changed USBBCK_VERSION env s xenbus_state.XenbusStateClosing = some s1 ∧
      s1.world.calls = s.world.calls ++ disconnect_trace s.world.usbif
        ++ [HostCall.switch_state xenbus_state.XenbusStateClosing] ∧
      s1.world.usbif.irq = 0 ∧ s1.world.usbif.sring = 0) ∧
      ∀ w w1, usbif_disconnect w = some w1 →
        w.usbif.refcnt - 1 = 0 ∧ w1.calls = w.calls ++ disconnect_trace w.usbif := by
  constructor
  · obtain ⟨w1, hd, c1, -, i1, s1, -⟩ := usbif_disconnect_returns s.world hr
    refine ⟨(xenbus_switch_state env { s with world := w1 }
      xenbus_state.XenbusStateClosing).2, ?_, ?_, ?_, ?_⟩
    · simp only [frontend_changed, hd, Option.map_some']
    · unfold xenbus_switch_state Backend.record record_call
      by_cases he : env.switch_err = 0 <;> simp [he, c1]
    · unfold xenbus_switch_state Backend.record record_call
      by_cases he : env.switch_err = 0 <;> simp [he, i1]
    · unfold xenbus_switch_state Backend.record record_call
      by_cases he : env.switch_err = 0 <;> simp [he, s1]
  · intro w w1 h
    have hr1 := usbif_disconnect_some w w1 h
    obtain ⟨w2, hd, c1, -⟩ := usbif_disconnect_returns w hr1
    rw [hd] at h
    cases h
    exact ⟨by omega, c1⟩

theorem closing_order_witness :
    ∃ s1, frontend_changed 3 (env_ok 101) connected_backend xenbus_state.XenbusStateClosing
        = some s1 ∧
      s1.world.calls
        = [HostCall.kthread_stop 101, HostCall.ref_dec, HostCall.wait_zero, HostCall.ref_inc,
           HostCall.unbind_from_irqhandler 33, HostCall.unmap_ring 4096,
           HostCall.switch_state xenbus_state.XenbusStateClosing] := by
  obtain ⟨s1, h1, h2, -⟩ := (closing_order 3 (env_ok 101) connected_backend rfl).1
  exact ⟨s1, h1, h2.trans (by decide)⟩

theorem connected_ready : ReleaseReady connected_backend.world.usbif.vusb := by
  intro usbdev hd _ confnum hact
  have e := Option.some.inj hd
  subst e
  have e1 : confnum = 0 := (Option.some.inj hact).symm
  subst e1
  refine ⟨_, rfl, ?_⟩
  intro j hj
  have e2 : j = 0 := by
    have : j < 1 := hj
    omega
  subst e2
  rfl

/-- C24 (counterexample): at the removal of a connected backend the event
channel is unbound and the ring is unmapped before the interface is released
and the host device is closed. -/
theorem remove_order_counterexample :
    (usbback_remove connected_backend).map (fun s => s.world.calls)
        = some [HostCall.sysfs_delif, HostCall.kthread_stop 101, HostCall.ref_dec,
            HostCall.wait_zero, HostCall.ref_inc, HostCall.unbind_from_irqhandler 33,
            HostCall.unmap_ring 4096, HostCall.release_interface 0 0, HostCall.dusb_close,
            HostCall.kmem_cache_free] ∧
      (usbback_remove connected_backend).map (fun s =>
          made_before HostCall.dusb_close (HostCall.unbind_from_irqhandler 33) s.world.calls)
        = some false := by
  decide

/-- C24 (amended): at final teardown, `usbback_remove` on a backend whose
connection holds a host device and its one own reference returns, and it
releases in this order: the worker is stopped and the count drained, the
event channel is unbound, the ring is unmapped (the calls of
`usbif_disconnect`), then the transfers are killed, the interfaces released
and the host device closed (`vusb_free`), then the connection object is
freed (`usbif_free`). -/
theorem remove_order (s : Backend) (usbdev : usb_device) (hu : s.has_usbif = true)
    (hr : s.world.usbif.refcnt = 1) (hd : s.world.usbif.vusb.usbdev = some usbdev)
    (hready : ReleaseReady s.world.usbif.vusb) :
    ∃ s1 ext, usbback_remove s = some s1 ∧
      s1.world.calls
        = s.world.calls ++ (if s.bus ≠ 0 ∨ s.device ≠ 0 then [HostCall.sysfs_delif] else [])
          ++ disconnect_trace s.world.usbif ++ ext
          ++ [HostCall.dusb_close, HostCall.kmem_cache_free] ∧
      (∀ c ∈ ext, is_device_release c = true) ∧ s1.has_usbif = false :=
  usbback_remove_trace s usbdev hu hr hd hready

theorem remove_order_witness :
    ∃ s1, usbback_remove connected_backend = some s1 ∧ s1.has_usbif = false := by
  obtain ⟨s1, ext, h1, -, -, h4⟩ :=
    remove_order connected_backend _ rfl rfl rfl connected_ready
  exact ⟨s1, h1, h4⟩

theorem live_workers_snoc (calls : List HostCall) (c : HostCall)
    (h : ∀ t, c ≠ HostCall.kthread_run t ∧ c ≠ HostCall.kthread_stop t) :
    live_workers (calls ++ [c]) = live_workers calls := by
  unfold live_workers
  rw [List.foldl_append]
  cases c <;> first | rfl | exact absurd rfl (h _).1 | exact absurd rfl (h _).2

/-- C26: a frontend move to `Closed` leaves the worker as it is: whether or
not the device is online, `frontend_changed` stops no worker and keeps irq,
ring and worker handle.  So after the probe, the device appearing, the
frontend connecting (worker 101 starts), the frontend going to `Closed`
without passing `Closing` while the device stays online, and the frontend
connecting again, `update_usbif_status` has started worker 102 while worker
101 was never stopped: two workers of the one connection are live, and the
handle of the first is lost. -/
theorem second_worker_started :
    (∀ (USBBCK_VERSION : Nat) (env : Env) (s : Backend),
      ∃ s1, frontend_changed USBBCK_VERSION env s xenbus_state.XenbusStateClosed = some s1 ∧
        s1.world.usbif = s.world.usbif ∧
        live_workers s1.world.calls = live_workers s.world.calls) ∧
      (run_events 3 (reconnect_events.take 2) probed_backend).map
          (fun s => (live_workers s.world.calls, s.world.usbif.xenusbd))
        = some ([101], 101) ∧
      (run_events 3 reconnect_events probed_backend).map
          (fun s => (live_workers s.world.calls, s.world.usbif.xenusbd, s.world.calls))
        = some ([101, 102], 102,
            [HostCall.switch_state xenbus_state.XenbusStateInitWait,
             HostCall.claim_interface 0 0, HostCall.sysfs_addif, HostCall.map_ring 4096,
             HostCall.bind_evtchn 33, HostCall.switch_state xenbus_state.XenbusStateConnected,
             HostCall.kthread_run 101, HostCall.switch_state xenbus_state.XenbusStateClosed,
             HostCall.switch_state xenbus_state.XenbusStateConnected,
             HostCall.kthread_run 102]) := by
  refine ⟨?_, by decide, by decide⟩
  intro V env s
  have hs : live_workers (s.world.calls
      ++ [HostCall.switch_state xenbus_state.XenbusStateClosed]) = live_workers s.world.calls :=
    live_workers_snoc _ _ (fun t => ⟨by simp, by simp⟩)
  have hu : ∀ l, live_workers (l ++ [HostCall.device_unregister]) = live_workers l :=
    fun l => live_workers_snoc _ _ (fun t => ⟨by simp, by simp⟩)
  have hs2 : live_workers (s.world.calls
      ++ [HostCall.switch_state xenbus_state.XenbusStateClosed, HostCall.device_unregister])
      = live_workers s.world.calls := by
    have e : s.world.calls
        ++ [HostCall.switch_state xenbus_state.XenbusStateClosed, HostCall.device_unregister]
        = (s.world.calls ++ [HostCall.switch_state xenbus_state.XenbusStateClosed])
          ++ [HostCall.device_unregister] := by simp
    rw [e, hu, hs]
  unfold frontend_changed xenbus_switch_state Backend.record record_call
  by_cases he : env.switch_err = 0 <;> by_cases ho : env.online = true <;>
    simp [he, ho, hs, hs2]

/-- C30: `usbif_disconnect`, entered with reference count 1, returns with
reference count 1, `irq = 0` and the ring pointer NULL.  So for a connection
from `usbif_alloc`, after any sequence of `usbif_map` and `usbif_disconnect`
calls (and whatever the owned-device record holds) the count is 1; in
`usbback_remove` the call of `usbif_disconnect` returns with count 1, the
count is still 1 when `vusb_free` has returned, and `usbif_free` then
returns: its `BUG()` branch is not taken. -/
theorem refcnt_one_at_free (domid : Int) (ops : List IfOp) (w : World)
    (hrun : run_if_ops ops { usbif := usbif_alloc domid, calls := [] } = some w) :
    (∀ w0 : World, w0.usbif.refcnt = 1 →
      ∃ w1, usbif_disconnect w0 = some w1 ∧ w1.usbif.refcnt = 1 ∧ w1.usbif.irq = 0 ∧
        w1.usbif.sring = 0) ∧
      w.usbif.refcnt = 1 ∧
      ∀ (v : vusb) (self : Nat) (table : List vusb_map),
        ∃ w1, usbif_disconnect (set_vusb w v) = some w1 ∧ w1.usbif.refcnt = 1 ∧
          ∀ q, vusb_free self table w1 = some q →
            q.1.usbif.refcnt = 1 ∧ ∃ w3, usbif_free q.1 = some w3 := by
  have hw : w.usbif.refcnt = 1 := run_if_ops_refcnt ops _ w rfl hrun
  refine ⟨?_, hw, ?_⟩
  · intro w0 h0
    obtain ⟨w1, hd, -, r1, i1, s1, -⟩ := usbif_disconnect_returns w0 h0
    exact ⟨w1, hd, r1, i1, s1⟩
  · intro v self table
    obtain ⟨w1, hd, -, r1, -⟩ := usbif_disconnect_returns (set_vusb w v) hw
    refine ⟨w1, hd, r1, ?_⟩
    intro q hq
    have hr4 : q.1.usbif.refcnt = 1 := by
      rw [vusb_free_conn self table w1 q hq]
      exact r1
    exact ⟨hr4, _, usbif_free_returns q.1 hr4⟩

theorem refcnt_one_at_free_witness :
    ∃ w, run_if_ops example_if_ops fresh_world = some w ∧ w.usbif.refcnt = 1 := by
  obtain ⟨w, hw⟩ := (run_if_ops_inv example_if_ops fresh_world example_if_ops_contract
    (fresh_inv 1)).2 example_if_ops_valid
  exact ⟨w, hw, (refcnt_one_at_free 1 example_if_ops w hw).2.1⟩

end UsbBack
